import Mathlib

/-!
Verification of the namespace-migration controller
(src/controller/controller.py) against its specification.

The controller is embedded shallowly: the cluster is a record of object
lists, every Kubernetes API call is a function on the cluster that may
return an error status (409 conflict, 404 not found, or an injected fault
status from the environment), and each call appends an event to a trace.
The PersistentVolume phase is read from an environment oracle indexed by
the wall clock, mirroring that the phase is controlled by the external
storage subsystem and never cached.  Python exceptions that the code does
not catch are modelled with Except: a raised ApiException status aborts
the run.
-/

namespace NamespaceMigration

/-- Object metadata as used by the controller: name, namespace, the
cluster-assigned resource version and uid, plus labels and annotations. -/
structure ObjectMeta where
  name : String
  ns : String
  resource_version : Option String
  uid : Option String
  labels : List (String × String)
  annotations : List (String × String)
  deriving DecidableEq

/-- Spec of a PersistentVolumeClaim: the fields the controller reads,
plus a selector field it never copies. -/
structure PvcSpec where
  access_modes : List String
  resources : String
  storage_class_name : Option String
  volume_name : Option String
  volume_mode : Option String
  selector : Option String
  deriving DecidableEq

structure Pvc where
  metadata : ObjectMeta
  spec : PvcSpec
  deriving DecidableEq

/-- A cluster-scoped PersistentVolume: its claim reference can be patched.
Its phase is not stored here; it is read live from the environment. -/
structure Pv where
  name : String
  claimRef : Option String
  deriving DecidableEq

structure ConfigMap where
  metadata : ObjectMeta
  data : List (String × String)
  deriving DecidableEq

structure Secret where
  metadata : ObjectMeta
  data : List (String × String)
  secretType : String
  deriving DecidableEq

structure DeploySpec where
  replicas : Nat
  template : String
  deriving DecidableEq

structure Deployment where
  metadata : ObjectMeta
  spec : DeploySpec
  deriving DecidableEq

structure StsSpec where
  replicas : Nat
  serviceName : String
  template : String
  deriving DecidableEq

structure StatefulSet where
  metadata : ObjectMeta
  spec : StsSpec
  deriving DecidableEq

/-- The cluster state: the namespaces plus the five managed resource kinds
and the cluster-scoped volumes. -/
structure Cluster where
  namespaces : List String
  pvcs : List Pvc
  pvs : List Pv
  configMaps : List ConfigMap
  secrets : List Secret
  deployments : List Deployment
  statefulSets : List StatefulSet
  deriving DecidableEq

/-- Identity of one API call the controller issues. -/
inductive ApiCall where
  | createNamespace (name : String)
  | patchStatefulSet (ns name : String)
  | deletePvc (ns name : String)
  | patchPv (name : String)
  | readPv (name : String)
  | createPvc (ns name : String)
  | createConfigMap (ns name : String)
  | createSecret (ns name : String)
  | createDeployment (ns name : String)
  | deleteDeployment (ns name : String)
  | createStatefulSet (ns name : String)
  | deleteStatefulSet (ns name : String)
  deriving DecidableEq

/-- Result of one API call: success, or an ApiException with an HTTP
status (409 conflict, 404 not found, or an injected fault status). -/
inductive ApiOutcome where
  | success
  | err (status : Nat)
  deriving DecidableEq

/-- One line the controller prints, abstracted to its content. -/
inductive LogEntry where
  | startingMigration (source target : String)
  | createdNamespace (name : String)
  | scaledDownStatefulSet (name : String)
  | pvcNotBoundSkipping (name : String)
  | migratingPvc (pvcName pvName : String)
  | pvNotAvailable (pvName : String)
  | pvcMigrated (name : String)
  | configMapMigrated (name : String)
  | secretMigrated (name : String)
  | deploymentMigrated (name : String)
  | deploymentRemoved (name : String)
  | statefulSetMigrated (name : String)
  | statefulSetRemoved (name : String)
  | migrationCompleted
  deriving DecidableEq

/-- The environment: a fault oracle that can make any single API call
raise an ApiException with the given status, and the live phase of each
PersistentVolume as a function of wall-clock time (the storage subsystem
is external and drives the phase asynchronously). -/
structure Env where
  faults : ApiCall → Option Nat
  phase : String → Nat → String

/-- Execution state threaded through the run: the cluster, the wall
clock in seconds, the printed log, and the chronological API trace. -/
structure ExecState where
  cluster : Cluster
  clock : Nat
  log : List LogEntry
  trace : List (ApiCall × ApiOutcome)
  deriving DecidableEq

/-- The value a Python function without a return statement hands back to
its caller. -/
inductive PyNone where
  | none
  deriving DecidableEq

instance exceptDecEq {ε α : Type} [DecidableEq ε] [DecidableEq α] :
    DecidableEq (Except ε α) := fun x y =>
  match x, y with
  | .ok a, .ok b =>
      if h : a = b then isTrue (by rw [h]) else isFalse (by simp [h])
  | .error a, .error b =>
      if h : a = b then isTrue (by rw [h]) else isFalse (by simp [h])
  | .ok _, .error _ => isFalse (by simp)
  | .error _, .ok _ => isFalse (by simp)

def sleep (n : Nat) (st : ExecState) : ExecState :=
  { st with clock := st.clock + n }

def logLine (st : ExecState) (e : LogEntry) : ExecState :=
  { st with log := st.log ++ [e] }

def pushTrace (st : ExecState) (c : ApiCall) (o : ApiOutcome) : ExecState :=
  { st with trace := st.trace ++ [(c, o)] }

/-- Run one API call: an injected fault raises that status without
touching the cluster; otherwise the natural semantics decides. Every
call is recorded in the trace. -/
def runCall (env : Env) (call : ApiCall)
    (natural : Cluster → ApiOutcome × Cluster) (st : ExecState) :
    ApiOutcome × ExecState :=
  match env.faults call with
  | some s => (.err s, pushTrace st call (.err s))
  | none =>
      let r := natural st.cluster
      (r.1, pushTrace { st with cluster := r.2 } call r.1)

/-- The try-print-except-pass pattern around a call: print the success
line when it succeeded, swallow the ApiException otherwise. -/
def afterCall (r : ApiOutcome × ExecState) (e : LogEntry) : ExecState :=
  match r.1 with
  | .success => logLine r.2 e
  | .err _ => r.2

def nsExists (c : Cluster) (name : String) : Bool :=
  c.namespaces.any fun n => n == name

def cmExists (c : Cluster) (ns name : String) : Bool :=
  c.configMaps.any fun o => o.metadata.ns == ns && o.metadata.name == name

def secretExists (c : Cluster) (ns name : String) : Bool :=
  c.secrets.any fun o => o.metadata.ns == ns && o.metadata.name == name

def pvcExists (c : Cluster) (ns name : String) : Bool :=
  c.pvcs.any fun o => o.metadata.ns == ns && o.metadata.name == name

def pvExists (c : Cluster) (name : String) : Bool :=
  c.pvs.any fun o => o.name == name

def deployExists (c : Cluster) (ns name : String) : Bool :=
  c.deployments.any fun o => o.metadata.ns == ns && o.metadata.name == name

def stsExists (c : Cluster) (ns name : String) : Bool :=
  c.statefulSets.any fun o => o.metadata.ns == ns && o.metadata.name == name

def listPvcs (ns : String) (c : Cluster) : List Pvc :=
  c.pvcs.filter fun o => o.metadata.ns == ns

def listConfigMaps (ns : String) (c : Cluster) : List ConfigMap :=
  c.configMaps.filter fun o => o.metadata.ns == ns

def listSecrets (ns : String) (c : Cluster) : List Secret :=
  c.secrets.filter fun o => o.metadata.ns == ns

def listDeployments (ns : String) (c : Cluster) : List Deployment :=
  c.deployments.filter fun o => o.metadata.ns == ns

def listStatefulSets (ns : String) (c : Cluster) : List StatefulSet :=
  c.statefulSets.filter fun o => o.metadata.ns == ns

def createNamespaceNat (name : String) (c : Cluster) : ApiOutcome × Cluster :=
  if nsExists c name then (.err 409, c)
  else (.success, { c with namespaces := c.namespaces ++ [name] })

def patchStatefulSetNat (ns name : String) (replicas : Nat) (c : Cluster) :
    ApiOutcome × Cluster :=
  if stsExists c ns name then
    (.success,
      { c with statefulSets := c.statefulSets.map fun s =>
          if s.metadata.ns == ns && s.metadata.name == name then
            { s with spec := { s.spec with replicas := replicas } }
          else s })
  else (.err 404, c)

def deletePvcNat (ns name : String) (c : Cluster) : ApiOutcome × Cluster :=
  if pvcExists c ns name then
    (.success,
      { c with pvcs := c.pvcs.filter fun o =>
          !(o.metadata.ns == ns && o.metadata.name == name) })
  else (.err 404, c)

def patchPvNat (name : String) (c : Cluster) : ApiOutcome × Cluster :=
  if pvExists c name then
    (.success,
      { c with pvs := c.pvs.map fun pv =>
          if pv.name == name then { pv with claimRef := none } else pv })
  else (.err 404, c)

def createPvcNat (ns : String) (obj : Pvc) (c : Cluster) : ApiOutcome × Cluster :=
  if pvcExists c ns obj.metadata.name then (.err 409, c)
  else (.success,
    { c with pvcs := c.pvcs ++ [{ obj with metadata := { obj.metadata with ns := ns } }] })

def createConfigMapNat (ns : String) (obj : ConfigMap) (c : Cluster) :
    ApiOutcome × Cluster :=
  if cmExists c ns obj.metadata.name then (.err 409, c)
  else (.success,
    { c with configMaps := c.configMaps ++ [{ obj with metadata := { obj.metadata with ns := ns } }] })

def createSecretNat (ns : String) (obj : Secret) (c : Cluster) :
    ApiOutcome × Cluster :=
  if secretExists c ns obj.metadata.name then (.err 409, c)
  else (.success,
    { c with secrets := c.secrets ++ [{ obj with metadata := { obj.metadata with ns := ns } }] })

def createDeploymentNat (ns : String) (obj : Deployment) (c : Cluster) :
    ApiOutcome × Cluster :=
  if deployExists c ns obj.metadata.name then (.err 409, c)
  else (.success,
    { c with deployments := c.deployments ++ [{ obj with metadata := { obj.metadata with ns := ns } }] })

def deleteDeploymentNat (ns name : String) (c : Cluster) : ApiOutcome × Cluster :=
  if deployExists c ns name then
    (.success,
      { c with deployments := c.deployments.filter fun o =>
          !(o.metadata.ns == ns && o.metadata.name == name) })
  else (.err 404, c)

def createStatefulSetNat (ns : String) (obj : StatefulSet) (c : Cluster) :
    ApiOutcome × Cluster :=
  if stsExists c ns obj.metadata.name then (.err 409, c)
  else (.success,
    { c with statefulSets := c.statefulSets ++ [{ obj with metadata := { obj.metadata with ns := ns } }] })

def deleteStatefulSetNat (ns name : String) (c : Cluster) : ApiOutcome × Cluster :=
  if stsExists c ns name then
    (.success,
      { c with statefulSets := c.statefulSets.filter fun o =>
          !(o.metadata.ns == ns && o.metadata.name == name) })
  else (.err 404, c)

/-- Read a PersistentVolume and report its current phase; reading an
absent volume raises 404 (the controller never catches this one). -/
def apiReadPv (env : Env) (pv_name : String) (st : ExecState) :
    Except Nat String × ExecState :=
  match env.faults (.readPv pv_name) with
  | some s => (.error s, pushTrace st (.readPv pv_name) (.err s))
  | none =>
      if pvExists st.cluster pv_name then
        (.ok (env.phase pv_name st.clock), pushTrace st (.readPv pv_name) .success)
      else
        (.error 404, pushTrace st (.readPv pv_name) (.err 404))

/-- Poll the volume phase once per second, up to the given number of
attempts, until it reads Available; embeds wait_for_pv_available from
the source (the Python default for timeout is 30). A read failure
propagates because the source wraps no try around the read. -/
def wait_for_pv_available (env : Env) (pv_name : String) (timeout : Nat)
    (st : ExecState) : Except Nat (Bool × ExecState) :=
  match timeout with
  | 0 => .ok (false, st)
  | t + 1 =>
      match apiReadPv env pv_name st with
      | (.error s, _) => .error s
      | (.ok phase, st) =>
          if phase = "Available" then .ok (true, st)
          else wait_for_pv_available env pv_name t (sleep 1 st)

/-- A Python truthiness test on volume_name: both None and the empty
string count as unbound. -/
def unboundVolumeName : Option String → Bool
  | none => true
  | some v => v == ""

/-- The fresh claim object the controller builds for a migrated claim:
only name, access modes, resources, storage class, volume mode are
carried over, the volume name is set to the rebound volume, and every
other metadata and spec field is left at its empty default. -/
def clonePvc (pvc : Pvc) (pv_name : String) : Pvc :=
  { metadata :=
      { name := pvc.metadata.name
        ns := ""
        resource_version := none
        uid := none
        labels := []
        annotations := [] }
    spec :=
      { access_modes := pvc.spec.access_modes
        resources := pvc.spec.resources
        storage_class_name := pvc.spec.storage_class_name
        volume_name := some pv_name
        volume_mode := pvc.spec.volume_mode
        selector := none } }

/-- Ensure the target namespace exists: a 409 conflict is tolerated,
any other ApiException is re-raised. -/
def ensureTargetNamespace (env : Env) (target_ns : String) (st : ExecState) :
    Except Nat ExecState :=
  match runCall env (.createNamespace target_ns) (createNamespaceNat target_ns) st with
  | (.success, st) => .ok (logLine st (.createdNamespace target_ns))
  | (.err s, st) => if s = 409 then .ok st else .error s

/-- Scale one StatefulSet of the source namespace down to zero replicas;
any ApiException is swallowed. -/
def scaleStep (env : Env) (source_ns : String) (sts : StatefulSet)
    (st : ExecState) : ExecState :=
  afterCall
    (runCall env (.patchStatefulSet source_ns sts.metadata.name)
      (patchStatefulSetNat source_ns sts.metadata.name 0) st)
    (.scaledDownStatefulSet sts.metadata.name)

def scaleDownLoop (env : Env) (source_ns : String) :
    List StatefulSet → ExecState → ExecState
  | [], st => st
  | sts :: rest, st =>
      scaleDownLoop env source_ns rest (scaleStep env source_ns sts st)

def scaleDownStage (env : Env) (source_ns : String) (st : ExecState) : ExecState :=
  scaleDownLoop env source_ns (listStatefulSets source_ns st.cluster) st

/-- Migrate one PersistentVolumeClaim: skip unbound claims; delete the
source claim and clear the volume claim reference (errors tolerated);
wait for the volume to become Available (give up on that claim if not);
then create the rebuilt claim in the target, tolerating only a 409. -/
def migrateOnePvc (env : Env) (source_ns target_ns : String) (pvc : Pvc)
    (st : ExecState) : Except Nat ExecState :=
  if unboundVolumeName pvc.spec.volume_name then
    .ok (logLine st (.pvcNotBoundSkipping pvc.metadata.name))
  else
    let pv_name := pvc.spec.volume_name.getD ""
    let st := logLine st (.migratingPvc pvc.metadata.name pv_name)
    let st := (runCall env (.deletePvc source_ns pvc.metadata.name)
      (deletePvcNat source_ns pvc.metadata.name) st).2
    let st := sleep 2 st
    let st := (runCall env (.patchPv pv_name) (patchPvNat pv_name) st).2
    match wait_for_pv_available env pv_name 30 st with
    | .error s => .error s
    | .ok (false, st) => .ok (logLine st (.pvNotAvailable pv_name))
    | .ok (true, st) =>
        let new_pvc := clonePvc pvc pv_name
        match runCall env (.createPvc target_ns new_pvc.metadata.name)
          (createPvcNat target_ns new_pvc) st with
        | (.success, st) => .ok (logLine st (.pvcMigrated pvc.metadata.name))
        | (.err s, st) => if s = 409 then .ok st else .error s

def pvcLoop (env : Env) (source_ns target_ns : String) :
    List Pvc → ExecState → Except Nat ExecState
  | [], st => .ok st
  | pvc :: rest, st =>
      match migrateOnePvc env source_ns target_ns pvc st with
      | .error s => .error s
      | .ok st => pvcLoop env source_ns target_ns rest st

def pvcStage (env : Env) (source_ns target_ns : String) (st : ExecState) :
    Except Nat ExecState :=
  pvcLoop env source_ns target_ns (listPvcs source_ns st.cluster) st

/-- Copy one ConfigMap into the target namespace; the local copy has
its namespace retargeted and resource version and uid cleared; any
ApiException on create is swallowed. -/
def cmStep (env : Env) (target_ns : String) (cm : ConfigMap)
    (st : ExecState) : ExecState :=
  let cm := { cm with metadata :=
    { cm.metadata with ns := target_ns, resource_version := none, uid := none } }
  afterCall
    (runCall env (.createConfigMap target_ns cm.metadata.name)
      (createConfigMapNat target_ns cm) st)
    (.configMapMigrated cm.metadata.name)

def configMapLoop (env : Env) (target_ns : String) :
    List ConfigMap → ExecState → ExecState
  | [], st => st
  | cm :: rest, st => configMapLoop env target_ns rest (cmStep env target_ns cm st)

def configMapStage (env : Env) (source_ns target_ns : String) (st : ExecState) :
    ExecState :=
  configMapLoop env target_ns (listConfigMaps source_ns st.cluster) st

/-- Copy one Secret into the target namespace, in the same shape as the
ConfigMap step. -/
def secretStep (env : Env) (target_ns : String) (secret : Secret)
    (st : ExecState) : ExecState :=
  let secret := { secret with metadata :=
    { secret.metadata with ns := target_ns, resource_version := none, uid := none } }
  afterCall
    (runCall env (.createSecret target_ns secret.metadata.name)
      (createSecretNat target_ns secret) st)
    (.secretMigrated secret.metadata.name)

def secretLoop (env : Env) (target_ns : String) :
    List Secret → ExecState → ExecState
  | [], st => st
  | secret :: rest, st => secretLoop env target_ns rest (secretStep env target_ns secret st)

def secretStage (env : Env) (source_ns target_ns : String) (st : ExecState) :
    ExecState :=
  secretLoop env target_ns (listSecrets source_ns st.cluster) st

/-- Copy one Deployment into the target, then best-effort delete it
from the source; every ApiException in this stage is swallowed. -/
def deployStep (env : Env) (source_ns target_ns : String) (deploy : Deployment)
    (st : ExecState) : ExecState :=
  let deploy := { deploy with metadata :=
    { deploy.metadata with ns := target_ns, resource_version := none, uid := none } }
  let st := afterCall
    (runCall env (.createDeployment target_ns deploy.metadata.name)
      (createDeploymentNat target_ns deploy) st)
    (.deploymentMigrated deploy.metadata.name)
  afterCall
    (runCall env (.deleteDeployment source_ns deploy.metadata.name)
      (deleteDeploymentNat source_ns deploy.metadata.name) st)
    (.deploymentRemoved deploy.metadata.name)

def deploymentLoop (env : Env) (source_ns target_ns : String) :
    List Deployment → ExecState → ExecState
  | [], st => st
  | deploy :: rest, st =>
      deploymentLoop env source_ns target_ns rest (deployStep env source_ns target_ns deploy st)

def deploymentStage (env : Env) (source_ns target_ns : String) (st : ExecState) :
    ExecState :=
  deploymentLoop env source_ns target_ns (listDeployments source_ns st.cluster) st

/-- Copy one StatefulSet into the target with its replicas forced to 1,
then best-effort delete it from the source; every ApiException in this
stage is swallowed. -/
def stsStep (env : Env) (source_ns target_ns : String) (sts : StatefulSet)
    (st : ExecState) : ExecState :=
  let sts := { sts with
    metadata :=
      { sts.metadata with ns := target_ns, resource_version := none, uid := none }
    spec := { sts.spec with replicas := 1 } }
  let st := afterCall
    (runCall env (.createStatefulSet target_ns sts.metadata.name)
      (createStatefulSetNat target_ns sts) st)
    (.statefulSetMigrated sts.metadata.name)
  afterCall
    (runCall env (.deleteStatefulSet source_ns sts.metadata.name)
      (deleteStatefulSetNat source_ns sts.metadata.name) st)
    (.statefulSetRemoved sts.metadata.name)

def statefulSetLoop (env : Env) (source_ns target_ns : String) :
    List StatefulSet → ExecState → ExecState
  | [], st => st
  | sts :: rest, st =>
      statefulSetLoop env source_ns target_ns rest (stsStep env source_ns target_ns sts st)

def statefulSetStage (env : Env) (source_ns target_ns : String) (st : ExecState) :
    ExecState :=
  statefulSetLoop env source_ns target_ns (listStatefulSets source_ns st.cluster) st

/-- The full migration entry point, embedding migrate_namespace from the
source: ensure the target namespace, scale down source StatefulSets,
settle for five seconds, migrate PVCs, copy ConfigMaps and Secrets,
move Deployments and StatefulSets. The Python function has no return
statement, so the caller receives None. -/
def migrate_namespace (env : Env) (source_ns target_ns : String)
    (st : ExecState) : Except Nat (ExecState × PyNone) :=
  let st := logLine st (.startingMigration source_ns target_ns)
  match ensureTargetNamespace env target_ns st with
  | .error s => .error s
  | .ok st =>
      let st := scaleDownStage env source_ns st
      let st := sleep 5 st
      match pvcStage env source_ns target_ns st with
      | .error s => .error s
      | .ok st =>
          let st := configMapStage env source_ns target_ns st
          let st := secretStage env source_ns target_ns st
          let st := deploymentStage env source_ns target_ns st
          let st := statefulSetStage env source_ns target_ns st
          let st := logLine st .migrationCompleted
          .ok (st, PyNone.none)

/-- The four call identities the migration of one claim can issue. -/
def pvcItemCall (src tgt : String) (q : Pvc) (c : ApiCall) : Prop :=
  c = .deletePvc src q.metadata.name ∨ (∃ pv, c = .patchPv pv) ∨
    (∃ pv, c = .readPv pv) ∨ c = .createPvc tgt q.metadata.name

/-- The call identities any stage of a migration from src to tgt can
issue, given the snapshot of claims the PVC stage iterates over. -/
def stageCall (src tgt : String) (l : List Pvc) (c : ApiCall) : Prop :=
  c = .createNamespace tgt ∨
    (∃ n, c = .patchStatefulSet src n) ∨
    (∃ q, q ∈ l ∧ unboundVolumeName q.spec.volume_name = false ∧
      pvcItemCall src tgt q c) ∨
    (∃ n, c = .createConfigMap tgt n) ∨
    (∃ n, c = .createSecret tgt n) ∨
    (∃ n, c = .createDeployment tgt n) ∨
    (∃ n, c = .deleteDeployment src n) ∨
    (∃ n, c = .createStatefulSet tgt n) ∨
    (∃ n, c = .deleteStatefulSet src n)

/-- The clone as stored by the create call in the target namespace: the
server files the submitted object under the target namespace. -/
def cloneInTarget (pvc : Pvc) (tgt : String) : Pvc :=
  { clonePvc pvc (pvc.spec.volume_name.getD "") with
    metadata :=
      { (clonePvc pvc (pvc.spec.volume_name.getD "")).metadata with ns := tgt } }

/-- No API call has an injected fault: the cluster answers every call
with its natural outcome. -/
def noFaults (env : Env) : Prop := ∀ c, env.faults c = none

/-- Every bound claim of the source namespace references a volume that
actually exists on the cluster (otherwise the uncaught volume read
raises 404 and crashes the run). -/
def pvsPresent (src : String) (c : Cluster) : Prop :=
  ∀ pvc ∈ listPvcs src c, unboundVolumeName pvc.spec.volume_name = false →
    pvExists c (pvc.spec.volume_name.getD "") = true

/-- Calls whose ApiException the code swallows: the scale-down patch
(lines 45-54), the tolerated source-claim delete and claim-reference
patch (lines 68-83), and every call of the ConfigMap, Secret,
Deployment and StatefulSet stages (lines 109-164, bare except-pass).
Only the namespace create, the volume read and the claim create let an
error escape. -/
def swallowedCall : ApiCall → Bool
  | .patchStatefulSet _ _ => true
  | .deletePvc _ _ => true
  | .patchPv _ => true
  | .createConfigMap _ _ => true
  | .createSecret _ _ => true
  | .createDeployment _ _ => true
  | .deleteDeployment _ _ => true
  | .createStatefulSet _ _ => true
  | .deleteStatefulSet _ _ => true
  | .createNamespace _ => false
  | .readPv _ => false
  | .createPvc _ _ => false

/-- Calls that create an object. -/
def isCreateCall : ApiCall → Bool
  | .createNamespace _ => true
  | .createPvc _ _ => true
  | .createConfigMap _ _ => true
  | .createSecret _ _ => true
  | .createDeployment _ _ => true
  | .createStatefulSet _ _ => true
  | _ => false

/-! Concrete example inputs, used to witness and to refute theorems
below.  The cluster has one namespace a containing a bound claim, an
unbound claim, a ConfigMap, a Secret, a Deployment and a StatefulSet
with three replicas. -/

def exMeta (ns name : String) : ObjectMeta :=
  { name := name, ns := ns, resource_version := some "1", uid := some "u",
    labels := [("app", name)], annotations := [("note", "x")] }

def exBoundPvc : Pvc :=
  { metadata := exMeta "a" "data",
    spec := { access_modes := ["RWO"], resources := "1Gi",
              storage_class_name := some "std", volume_name := some "pv1",
              volume_mode := some "Fs", selector := some "sel" } }

def exUnboundPvc : Pvc :=
  { metadata := exMeta "a" "loose",
    spec := { access_modes := ["RWO"], resources := "1Gi",
              storage_class_name := none, volume_name := none,
              volume_mode := none, selector := none } }

def exSts : StatefulSet :=
  { metadata := exMeta "a" "db",
    spec := { replicas := 3, serviceName := "db", template := "t" } }

def exCluster : Cluster :=
  { namespaces := ["a"]
    pvcs := [exBoundPvc, exUnboundPvc]
    pvs := [{ name := "pv1", claimRef := some "data" }]
    configMaps := [{ metadata := exMeta "a" "cfg", data := [("k", "v")] }]
    secrets := [{ metadata := exMeta "a" "sec", data := [("p", "q")],
                  secretType := "Opaque" }]
    deployments := [{ metadata := exMeta "a" "web",
                      spec := { replicas := 2, template := "t" } }]
    statefulSets := [exSts] }

/-- An environment with no injected faults where every volume reads
Available immediately. -/
def exEnv : Env := { faults := fun _ => none, phase := fun _ _ => "Available" }

/-- An environment where no volume phase ever reads Available. -/
def exEnvStuck : Env := { faults := fun _ => none, phase := fun _ _ => "Bound" }

/-- An environment injecting an unexpected 500 on the create of the
migrated claim in the target namespace. -/
def exEnvPvcFault : Env :=
  { faults := fun c => match c with
      | .createPvc "b" "data" => some 500
      | _ => none
    phase := fun _ _ => "Available" }

/-- An environment injecting an unexpected 500 on the create of the
copied ConfigMap in the target namespace. -/
def exEnvCmFault : Env :=
  { faults := fun c => match c with
      | .createConfigMap "b" "cfg" => some 500
      | _ => none
    phase := fun _ _ => "Available" }

/-- An environment injecting an unexpected error on one item call of
each error-swallowing stage: the scale-down patch, the ConfigMap
create, the Secret create, the Deployment source delete and the
StatefulSet create in the target. -/
def exEnvMultiFault : Env :=
  { faults := fun c => match c with
      | .patchStatefulSet "a" "db" => some 500
      | .createConfigMap "b" "cfg" => some 500
      | .createSecret "b" "sec" => some 503
      | .deleteDeployment "a" "web" => some 500
      | .createStatefulSet "b" "db" => some 500
      | _ => none
    phase := fun _ _ => "Available" }

def exSt : ExecState := { cluster := exCluster, clock := 0, log := [], trace := [] }

/-- The copy of the example StatefulSet as it appears in the target
namespace after migration. -/
def exMigratedSts : StatefulSet :=
  { metadata := { name := "db", ns := "b", resource_version := none, uid := none,
                  labels := [("app", "db")], annotations := [("note", "x")] },
    spec := { replicas := 1, serviceName := "db", template := "t" } }

/-- The rebuilt claim as it appears in the target namespace after
migration: no labels, no annotations, no selector. -/
def exMigratedPvc : Pvc :=
  { metadata := { name := "data", ns := "b", resource_version := none, uid := none,
                  labels := [], annotations := [] },
    spec := { access_modes := ["RWO"], resources := "1Gi",
              storage_class_name := some "std", volume_name := some "pv1",
              volume_mode := some "Fs", selector := none } }

/-- The state after the PVC stage of the example run, for witnessing. -/
def exAfterPvcStage : ExecState :=
  match pvcStage exEnv "a" "b" exSt with
  | .ok st => st
  | .error _ => exSt

/-- The state after the full example run, for witnessing. -/
def exAfterMigrate : ExecState :=
  match migrate_namespace exEnv "a" "b" exSt with
  | .ok r => r.1
  | .error _ => exSt

/-- The state after running the example migration a second time, on the
state the first run left behind. -/
def exAfterSecondMigrate : ExecState :=
  match migrate_namespace exEnv "a" "b" exAfterMigrate with
  | .ok r => r.1
  | .error _ => exSt

/-- The state after a run whose target namespace equals its source. -/
def exAfterSelfMigrate : ExecState :=
  match migrate_namespace exEnv "a" "a" exSt with
  | .ok r => r.1
  | .error _ => exSt

/-- The state after the example run under the ConfigMap-create fault:
its per-item outcomes differ from the fault-free run. -/
def exAfterMigrateCmFault : ExecState :=
  match migrate_namespace exEnvCmFault "a" "b" exSt with
  | .ok r => r.1
  | .error _ => exSt

/-! Basic projection lemmas for the execution-state combinators. -/

@[simp] lemma pushTrace_cluster (st : ExecState) (c : ApiCall) (o : ApiOutcome) :
    (pushTrace st c o).cluster = st.cluster := rfl

@[simp] lemma pushTrace_log (st : ExecState) (c : ApiCall) (o : ApiOutcome) :
    (pushTrace st c o).log = st.log := rfl

@[simp] lemma pushTrace_clock (st : ExecState) (c : ApiCall) (o : ApiOutcome) :
    (pushTrace st c o).clock = st.clock := rfl

@[simp] lemma pushTrace_trace (st : ExecState) (c : ApiCall) (o : ApiOutcome) :
    (pushTrace st c o).trace = st.trace ++ [(c, o)] := rfl

@[simp] lemma logLine_cluster (st : ExecState) (e : LogEntry) :
    (logLine st e).cluster = st.cluster := rfl

@[simp] lemma logLine_trace (st : ExecState) (e : LogEntry) :
    (logLine st e).trace = st.trace := rfl

@[simp] lemma logLine_clock (st : ExecState) (e : LogEntry) :
    (logLine st e).clock = st.clock := rfl

@[simp] lemma logLine_log (st : ExecState) (e : LogEntry) :
    (logLine st e).log = st.log ++ [e] := rfl

@[simp] lemma sleep_cluster (n : Nat) (st : ExecState) :
    (sleep n st).cluster = st.cluster := rfl

@[simp] lemma sleep_trace (n : Nat) (st : ExecState) :
    (sleep n st).trace = st.trace := rfl

@[simp] lemma sleep_log (n : Nat) (st : ExecState) :
    (sleep n st).log = st.log := rfl

@[simp] lemma sleep_clock (n : Nat) (st : ExecState) :
    (sleep n st).clock = st.clock + n := rfl

@[simp] lemma afterCall_cluster (r : ApiOutcome × ExecState) (e : LogEntry) :
    (afterCall r e).cluster = r.2.cluster := by
  cases h : r.1 <;> simp [afterCall, h]

@[simp] lemma afterCall_trace (r : ApiOutcome × ExecState) (e : LogEntry) :
    (afterCall r e).trace = r.2.trace := by
  cases h : r.1 <;> simp [afterCall, h]

@[simp] lemma afterCall_clock (r : ApiOutcome × ExecState) (e : LogEntry) :
    (afterCall r e).clock = r.2.clock := by
  cases h : r.1 <;> simp [afterCall, h]

lemma runCall_fault (env : Env) (c : ApiCall)
    (natural : Cluster → ApiOutcome × Cluster) (st : ExecState) (v : Nat)
    (h : env.faults c = some v) :
    runCall env c natural st = (.err v, pushTrace st c (.err v)) := by
  simp [runCall, h]

lemma runCall_ok (env : Env) (c : ApiCall)
    (natural : Cluster → ApiOutcome × Cluster) (st : ExecState)
    (h : env.faults c = none) :
    runCall env c natural st =
      ((natural st.cluster).1,
        pushTrace { st with cluster := (natural st.cluster).2 } c
          (natural st.cluster).1) := by
  simp [runCall, h]

lemma runCall_cluster (env : Env) (c : ApiCall)
    (natural : Cluster → ApiOutcome × Cluster) (st : ExecState) :
    (runCall env c natural st).2.cluster = st.cluster ∨
      (runCall env c natural st).2.cluster = (natural st.cluster).2 := by
  cases h : env.faults c
  · exact Or.inr (by simp [runCall_ok env c natural st h])
  · exact Or.inl (by simp [runCall_fault env c natural st _ h])

lemma deleteStatefulSetNat_subset (ns name : String) (c : Cluster) :
    ∀ s ∈ ((deleteStatefulSetNat ns name c).2).statefulSets, s ∈ c.statefulSets := by
  intro s hs
  unfold deleteStatefulSetNat at hs
  split at hs
  · simp only [List.mem_filter] at hs
    exact hs.1
  · exact hs

lemma createStatefulSetNat_mem (ns : String) (obj : StatefulSet) (c : Cluster) :
    ∀ s ∈ ((createStatefulSetNat ns obj c).2).statefulSets,
      s ∈ c.statefulSets ∨ s = { obj with metadata := { obj.metadata with ns := ns } } := by
  intro s hs
  unfold createStatefulSetNat at hs
  split at hs
  · exact Or.inl hs
  · simp only [List.mem_append, List.mem_singleton] at hs
    exact hs

lemma runCall_delSts_mem (env : Env) (c : ApiCall) (ns name : String)
    (st : ExecState) :
    ∀ s ∈ (runCall env c (deleteStatefulSetNat ns name) st).2.cluster.statefulSets,
      s ∈ st.cluster.statefulSets := by
  intro s hs
  rcases runCall_cluster env c (deleteStatefulSetNat ns name) st with h | h
  · rwa [h] at hs
  · rw [h] at hs
    exact deleteStatefulSetNat_subset _ _ _ s hs

lemma runCall_creSts_mem (env : Env) (c : ApiCall) (ns : String)
    (obj : StatefulSet) (st : ExecState) :
    ∀ s ∈ (runCall env c (createStatefulSetNat ns obj) st).2.cluster.statefulSets,
      s ∈ st.cluster.statefulSets ∨
        s = { obj with metadata := { obj.metadata with ns := ns } } := by
  intro s hs
  rcases runCall_cluster env c (createStatefulSetNat ns obj) st with h | h
  · rw [h] at hs
    exact Or.inl hs
  · rw [h] at hs
    exact createStatefulSetNat_mem _ _ _ s hs

/-- Membership in the cluster after one StatefulSet step: every
StatefulSet was either already there or is the fresh copy, which lives
in the target namespace and carries exactly one replica. -/
lemma stsStep_mem (env : Env) (src tgt : String) (sts : StatefulSet)
    (st : ExecState) :
    ∀ s ∈ (stsStep env src tgt sts st).cluster.statefulSets,
      s ∈ st.cluster.statefulSets ∨ (s.metadata.ns = tgt ∧ s.spec.replicas = 1) := by
  intro s hs
  simp only [stsStep, afterCall_cluster] at hs
  have h1 := runCall_delSts_mem env _ src sts.metadata.name _ s hs
  simp only [afterCall_cluster] at h1
  rcases runCall_creSts_mem env _ tgt _ st s h1 with h | h
  · exact Or.inl h
  · subst h
    exact Or.inr ⟨rfl, rfl⟩

/-- Membership across the whole StatefulSet loop. -/
lemma statefulSetLoop_mem (env : Env) (src tgt : String) :
    ∀ (l : List StatefulSet) (st : ExecState),
      ∀ s ∈ (statefulSetLoop env src tgt l st).cluster.statefulSets,
        s ∈ st.cluster.statefulSets ∨ (s.metadata.ns = tgt ∧ s.spec.replicas = 1) := by
  intro l
  induction l with
  | nil => intro st s hs; exact Or.inl hs
  | cons sts rest ih =>
      intro st s hs
      rw [statefulSetLoop] at hs
      rcases ih (stsStep env src tgt sts st) s hs with h | h
      · exact stsStep_mem env src tgt sts st s h
      · exact Or.inr h

/-! Untouched-field frame lemmas for each natural API operation. -/

@[simp] lemma createNamespaceNat_pvcs (n : String) (c : Cluster) :
    ((createNamespaceNat n c).2).pvcs = c.pvcs := by
  unfold createNamespaceNat
  split <;> rfl

@[simp] lemma createNamespaceNat_pvs (n : String) (c : Cluster) :
    ((createNamespaceNat n c).2).pvs = c.pvs := by
  unfold createNamespaceNat
  split <;> rfl

@[simp] lemma createNamespaceNat_configMaps (n : String) (c : Cluster) :
    ((createNamespaceNat n c).2).configMaps = c.configMaps := by
  unfold createNamespaceNat
  split <;> rfl

@[simp] lemma createNamespaceNat_secrets (n : String) (c : Cluster) :
    ((createNamespaceNat n c).2).secrets = c.secrets := by
  unfold createNamespaceNat
  split <;> rfl

@[simp] lemma createNamespaceNat_deployments (n : String) (c : Cluster) :
    ((createNamespaceNat n c).2).deployments = c.deployments := by
  unfold createNamespaceNat
  split <;> rfl

@[simp] lemma createNamespaceNat_statefulSets (n : String) (c : Cluster) :
    ((createNamespaceNat n c).2).statefulSets = c.statefulSets := by
  unfold createNamespaceNat
  split <;> rfl

@[simp] lemma patchStatefulSetNat_namespaces (ns name : String) (k : Nat) (c : Cluster) :
    ((patchStatefulSetNat ns name k c).2).namespaces = c.namespaces := by
  unfold patchStatefulSetNat
  split <;> rfl

@[simp] lemma patchStatefulSetNat_pvcs (ns name : String) (k : Nat) (c : Cluster) :
    ((patchStatefulSetNat ns name k c).2).pvcs = c.pvcs := by
  unfold patchStatefulSetNat
  split <;> rfl

@[simp] lemma patchStatefulSetNat_pvs (ns name : String) (k : Nat) (c : Cluster) :
    ((patchStatefulSetNat ns name k c).2).pvs = c.pvs := by
  unfold patchStatefulSetNat
  split <;> rfl

@[simp] lemma patchStatefulSetNat_configMaps (ns name : String) (k : Nat) (c : Cluster) :
    ((patchStatefulSetNat ns name k c).2).configMaps = c.configMaps := by
  unfold patchStatefulSetNat
  split <;> rfl

@[simp] lemma patchStatefulSetNat_secrets (ns name : String) (k : Nat) (c : Cluster) :
    ((patchStatefulSetNat ns name k c).2).secrets = c.secrets := by
  unfold patchStatefulSetNat
  split <;> rfl

@[simp] lemma patchStatefulSetNat_deployments (ns name : String) (k : Nat) (c : Cluster) :
    ((patchStatefulSetNat ns name k c).2).deployments = c.deployments := by
  unfold patchStatefulSetNat
  split <;> rfl

@[simp] lemma deletePvcNat_namespaces (ns name : String) (c : Cluster) :
    ((deletePvcNat ns name c).2).namespaces = c.namespaces := by
  unfold deletePvcNat
  split <;> rfl

@[simp] lemma deletePvcNat_pvs (ns name : String) (c : Cluster) :
    ((deletePvcNat ns name c).2).pvs = c.pvs := by
  unfold deletePvcNat
  split <;> rfl

@[simp] lemma deletePvcNat_configMaps (ns name : String) (c : Cluster) :
    ((deletePvcNat ns name c).2).configMaps = c.configMaps := by
  unfold deletePvcNat
  split <;> rfl

@[simp] lemma deletePvcNat_secrets (ns name : String) (c : Cluster) :
    ((deletePvcNat ns name c).2).secrets = c.secrets := by
  unfold deletePvcNat
  split <;> rfl

@[simp] lemma deletePvcNat_deployments (ns name : String) (c : Cluster) :
    ((deletePvcNat ns name c).2).deployments = c.deployments := by
  unfold deletePvcNat
  split <;> rfl

@[simp] lemma deletePvcNat_statefulSets (ns name : String) (c : Cluster) :
    ((deletePvcNat ns name c).2).statefulSets = c.statefulSets := by
  unfold deletePvcNat
  split <;> rfl

@[simp] lemma patchPvNat_namespaces (name : String) (c : Cluster) :
    ((patchPvNat name c).2).namespaces = c.namespaces := by
  unfold patchPvNat
  split <;> rfl

@[simp] lemma patchPvNat_pvcs (name : String) (c : Cluster) :
    ((patchPvNat name c).2).pvcs = c.pvcs := by
  unfold patchPvNat
  split <;> rfl

@[simp] lemma patchPvNat_configMaps (name : String) (c : Cluster) :
    ((patchPvNat name c).2).configMaps = c.configMaps := by
  unfold patchPvNat
  split <;> rfl

@[simp] lemma patchPvNat_secrets (name : String) (c : Cluster) :
    ((patchPvNat name c).2).secrets = c.secrets := by
  unfold patchPvNat
  split <;> rfl

@[simp] lemma patchPvNat_deployments (name : String) (c : Cluster) :
    ((patchPvNat name c).2).deployments = c.deployments := by
  unfold patchPvNat
  split <;> rfl

@[simp] lemma patchPvNat_statefulSets (name : String) (c : Cluster) :
    ((patchPvNat name c).2).statefulSets = c.statefulSets := by
  unfold patchPvNat
  split <;> rfl

@[simp] lemma createPvcNat_namespaces (ns : String) (obj : Pvc) (c : Cluster) :
    ((createPvcNat ns obj c).2).namespaces = c.namespaces := by
  unfold createPvcNat
  split <;> rfl

@[simp] lemma createPvcNat_pvs (ns : String) (obj : Pvc) (c : Cluster) :
    ((createPvcNat ns obj c).2).pvs = c.pvs := by
  unfold createPvcNat
  split <;> rfl

@[simp] lemma createPvcNat_configMaps (ns : String) (obj : Pvc) (c : Cluster) :
    ((createPvcNat ns obj c).2).configMaps = c.configMaps := by
  unfold createPvcNat
  split <;> rfl

@[simp] lemma createPvcNat_secrets (ns : String) (obj : Pvc) (c : Cluster) :
    ((createPvcNat ns obj c).2).secrets = c.secrets := by
  unfold createPvcNat
  split <;> rfl

@[simp] lemma createPvcNat_deployments (ns : String) (obj : Pvc) (c : Cluster) :
    ((createPvcNat ns obj c).2).deployments = c.deployments := by
  unfold createPvcNat
  split <;> rfl

@[simp] lemma createPvcNat_statefulSets (ns : String) (obj : Pvc) (c : Cluster) :
    ((createPvcNat ns obj c).2).statefulSets = c.statefulSets := by
  unfold createPvcNat
  split <;> rfl

@[simp] lemma createConfigMapNat_namespaces (ns : String) (obj : ConfigMap) (c : Cluster) :
    ((createConfigMapNat ns obj c).2).namespaces = c.namespaces := by
  unfold createConfigMapNat
  split <;> rfl

@[simp] lemma createConfigMapNat_pvcs (ns : String) (obj : ConfigMap) (c : Cluster) :
    ((createConfigMapNat ns obj c).2).pvcs = c.pvcs := by
  unfold createConfigMapNat
  split <;> rfl

@[simp] lemma createConfigMapNat_pvs (ns : String) (obj : ConfigMap) (c : Cluster) :
    ((createConfigMapNat ns obj c).2).pvs = c.pvs := by
  unfold createConfigMapNat
  split <;> rfl

@[simp] lemma createConfigMapNat_secrets (ns : String) (obj : ConfigMap) (c : Cluster) :
    ((createConfigMapNat ns obj c).2).secrets = c.secrets := by
  unfold createConfigMapNat
  split <;> rfl

@[simp] lemma createConfigMapNat_deployments (ns : String) (obj : ConfigMap) (c : Cluster) :
    ((createConfigMapNat ns obj c).2).deployments = c.deployments := by
  unfold createConfigMapNat
  split <;> rfl

@[simp] lemma createConfigMapNat_statefulSets (ns : String) (obj : ConfigMap) (c : Cluster) :
    ((createConfigMapNat ns obj c).2).statefulSets = c.statefulSets := by
  unfold createConfigMapNat
  split <;> rfl

@[simp] lemma createSecretNat_namespaces (ns : String) (obj : Secret) (c : Cluster) :
    ((createSecretNat ns obj c).2).namespaces = c.namespaces := by
  unfold createSecretNat
  split <;> rfl

@[simp] lemma createSecretNat_pvcs (ns : String) (obj : Secret) (c : Cluster) :
    ((createSecretNat ns obj c).2).pvcs = c.pvcs := by
  unfold createSecretNat
  split <;> rfl

@[simp] lemma createSecretNat_pvs (ns : String) (obj : Secret) (c : Cluster) :
    ((createSecretNat ns obj c).2).pvs = c.pvs := by
  unfold createSecretNat
  split <;> rfl

@[simp] lemma createSecretNat_configMaps (ns : String) (obj : Secret) (c : Cluster) :
    ((createSecretNat ns obj c).2).configMaps = c.configMaps := by
  unfold createSecretNat
  split <;> rfl

@[simp] lemma createSecretNat_deployments (ns : String) (obj : Secret) (c : Cluster) :
    ((createSecretNat ns obj c).2).deployments = c.deployments := by
  unfold createSecretNat
  split <;> rfl

@[simp] lemma createSecretNat_statefulSets (ns : String) (obj : Secret) (c : Cluster) :
    ((createSecretNat ns obj c).2).statefulSets = c.statefulSets := by
  unfold createSecretNat
  split <;> rfl

@[simp] lemma createDeploymentNat_namespaces (ns : String) (obj : Deployment) (c : Cluster) :
    ((createDeploymentNat ns obj c).2).namespaces = c.namespaces := by
  unfold createDeploymentNat
  split <;> rfl

@[simp] lemma createDeploymentNat_pvcs (ns : String) (obj : Deployment) (c : Cluster) :
    ((createDeploymentNat ns obj c).2).pvcs = c.pvcs := by
  unfold createDeploymentNat
  split <;> rfl

@[simp] lemma createDeploymentNat_pvs (ns : String) (obj : Deployment) (c : Cluster) :
    ((createDeploymentNat ns obj c).2).pvs = c.pvs := by
  unfold createDeploymentNat
  split <;> rfl

@[simp] lemma createDeploymentNat_configMaps (ns : String) (obj : Deployment) (c : Cluster) :
    ((createDeploymentNat ns obj c).2).configMaps = c.configMaps := by
  unfold createDeploymentNat
  split <;> rfl

@[simp] lemma createDeploymentNat_secrets (ns : String) (obj : Deployment) (c : Cluster) :
    ((createDeploymentNat ns obj c).2).secrets = c.secrets := by
  unfold createDeploymentNat
  split <;> rfl

@[simp] lemma createDeploymentNat_statefulSets (ns : String) (obj : Deployment) (c : Cluster) :
    ((createDeploymentNat ns obj c).2).statefulSets = c.statefulSets := by
  unfold createDeploymentNat
  split <;> rfl

@[simp] lemma deleteDeploymentNat_namespaces (ns name : String) (c : Cluster) :
    ((deleteDeploymentNat ns name c).2).namespaces = c.namespaces := by
  unfold deleteDeploymentNat
  split <;> rfl

@[simp] lemma deleteDeploymentNat_pvcs (ns name : String) (c : Cluster) :
    ((deleteDeploymentNat ns name c).2).pvcs = c.pvcs := by
  unfold deleteDeploymentNat
  split <;> rfl

@[simp] lemma deleteDeploymentNat_pvs (ns name : String) (c : Cluster) :
    ((deleteDeploymentNat ns name c).2).pvs = c.pvs := by
  unfold deleteDeploymentNat
  split <;> rfl

@[simp] lemma deleteDeploymentNat_configMaps (ns name : String) (c : Cluster) :
    ((deleteDeploymentNat ns name c).2).configMaps = c.configMaps := by
  unfold deleteDeploymentNat
  split <;> rfl

@[simp] lemma deleteDeploymentNat_secrets (ns name : String) (c : Cluster) :
    ((deleteDeploymentNat ns name c).2).secrets = c.secrets := by
  unfold deleteDeploymentNat
  split <;> rfl

@[simp] lemma deleteDeploymentNat_statefulSets (ns name : String) (c : Cluster) :
    ((deleteDeploymentNat ns name c).2).statefulSets = c.statefulSets := by
  unfold deleteDeploymentNat
  split <;> rfl

@[simp] lemma createStatefulSetNat_namespaces (ns : String) (obj : StatefulSet) (c : Cluster) :
    ((createStatefulSetNat ns obj c).2).namespaces = c.namespaces := by
  unfold createStatefulSetNat
  split <;> rfl

@[simp] lemma createStatefulSetNat_pvcs (ns : String) (obj : StatefulSet) (c : Cluster) :
    ((createStatefulSetNat ns obj c).2).pvcs = c.pvcs := by
  unfold createStatefulSetNat
  split <;> rfl

@[simp] lemma createStatefulSetNat_pvs (ns : String) (obj : StatefulSet) (c : Cluster) :
    ((createStatefulSetNat ns obj c).2).pvs = c.pvs := by
  unfold createStatefulSetNat
  split <;> rfl

@[simp] lemma createStatefulSetNat_configMaps (ns : String) (obj : StatefulSet) (c : Cluster) :
    ((createStatefulSetNat ns obj c).2).configMaps = c.configMaps := by
  unfold createStatefulSetNat
  split <;> rfl

@[simp] lemma createStatefulSetNat_secrets (ns : String) (obj : StatefulSet) (c : Cluster) :
    ((createStatefulSetNat ns obj c).2).secrets = c.secrets := by
  unfold createStatefulSetNat
  split <;> rfl

@[simp] lemma createStatefulSetNat_deployments (ns : String) (obj : StatefulSet) (c : Cluster) :
    ((createStatefulSetNat ns obj c).2).deployments = c.deployments := by
  unfold createStatefulSetNat
  split <;> rfl

@[simp] lemma deleteStatefulSetNat_namespaces (ns name : String) (c : Cluster) :
    ((deleteStatefulSetNat ns name c).2).namespaces = c.namespaces := by
  unfold deleteStatefulSetNat
  split <;> rfl

@[simp] lemma deleteStatefulSetNat_pvcs (ns name : String) (c : Cluster) :
    ((deleteStatefulSetNat ns name c).2).pvcs = c.pvcs := by
  unfold deleteStatefulSetNat
  split <;> rfl

@[simp] lemma deleteStatefulSetNat_pvs (ns name : String) (c : Cluster) :
    ((deleteStatefulSetNat ns name c).2).pvs = c.pvs := by
  unfold deleteStatefulSetNat
  split <;> rfl

@[simp] lemma deleteStatefulSetNat_configMaps (ns name : String) (c : Cluster) :
    ((deleteStatefulSetNat ns name c).2).configMaps = c.configMaps := by
  unfold deleteStatefulSetNat
  split <;> rfl

@[simp] lemma deleteStatefulSetNat_secrets (ns name : String) (c : Cluster) :
    ((deleteStatefulSetNat ns name c).2).secrets = c.secrets := by
  unfold deleteStatefulSetNat
  split <;> rfl

@[simp] lemma deleteStatefulSetNat_deployments (ns name : String) (c : Cluster) :
    ((deleteStatefulSetNat ns name c).2).deployments = c.deployments := by
  unfold deleteStatefulSetNat
  split <;> rfl

/-! Frame lemmas for the PersistentVolumeClaim operations. -/

@[simp] lemma deletePvcNat_pvcs (ns name : String) (c : Cluster) :
    ((deletePvcNat ns name c).2).pvcs =
      c.pvcs.filter (fun o => !(o.metadata.ns == ns && o.metadata.name == name)) := by
  unfold deletePvcNat
  split
  · rfl
  · rename_i hne
    unfold pvcExists at hne
    rw [eq_comm, List.filter_eq_self]
    intro p hp
    simp only [List.any_eq_true, not_exists, not_and] at hne
    by_contra hb
    simp only [Bool.not_eq_true, Bool.not_eq_false] at hb
    exact absurd hb (by simpa using hne p hp)

lemma createPvcNat_mem (ns : String) (obj : Pvc) (c : Cluster) :
    ∀ p ∈ ((createPvcNat ns obj c).2).pvcs,
      p ∈ c.pvcs ∨ p = { obj with metadata := { obj.metadata with ns := ns } } := by
  intro p hp
  unfold createPvcNat at hp
  split at hp
  · exact Or.inl hp
  · simp only [List.mem_append, List.mem_singleton] at hp
    exact hp

lemma runCall_crePvc_mem (env : Env) (c : ApiCall) (ns : String)
    (obj : Pvc) (st : ExecState) :
    ∀ p ∈ (runCall env c (createPvcNat ns obj) st).2.cluster.pvcs,
      p ∈ st.cluster.pvcs ∨
        p = { obj with metadata := { obj.metadata with ns := ns } } := by
  intro p hp
  rcases runCall_cluster env c (createPvcNat ns obj) st with h | h
  · rw [h] at hp
    exact Or.inl hp
  · rw [h] at hp
    exact createPvcNat_mem _ _ _ p hp

lemma runCall_delPvc_mem (env : Env) (c : ApiCall) (ns name : String)
    (st : ExecState) :
    ∀ p ∈ (runCall env c (deletePvcNat ns name) st).2.cluster.pvcs,
      p ∈ st.cluster.pvcs := by
  intro p hp
  rcases runCall_cluster env c (deletePvcNat ns name) st with h | h
  · rw [h] at hp
    exact hp
  · rw [h] at hp
    rw [deletePvcNat_pvcs] at hp
    exact List.mem_of_mem_filter hp

lemma runCall_patchPv_pvcs (env : Env) (c : ApiCall) (name : String)
    (st : ExecState) :
    (runCall env c (patchPvNat name) st).2.cluster.pvcs = st.cluster.pvcs := by
  rcases runCall_cluster env c (patchPvNat name) st with h | h <;> rw [h]
  rw [patchPvNat_pvcs]

/-- A read of the volume either raises (an injected fault, or 404 for
an absent volume), or reports the live phase at the current clock; in
every case it only appends one read event. -/
lemma apiReadPv_spec (env : Env) (pv : String) (st : ExecState) :
    (∃ s, apiReadPv env pv st = (.error s, pushTrace st (.readPv pv) (.err s))) ∨
      apiReadPv env pv st =
        (.ok (env.phase pv st.clock), pushTrace st (.readPv pv) .success) := by
  unfold apiReadPv
  cases henv : env.faults (.readPv pv) with
  | some s => exact Or.inl ⟨s, rfl⟩
  | none =>
      by_cases hex : pvExists st.cluster pv = true
      · rw [if_pos hex]
        exact Or.inr rfl
      · rw [if_neg hex]
        exact Or.inl ⟨404, rfl⟩

/-- Frame of a successful bounded poll: the cluster and log are
untouched, only read events are appended (at most one per permitted
attempt), and at most one second of sleep per attempt elapses. -/
lemma wait_ok_frame (env : Env) (pv : String) :
    ∀ (t : Nat) (st : ExecState) (b : Bool) (st1 : ExecState),
      wait_for_pv_available env pv t st = .ok (b, st1) →
      st1.cluster = st.cluster ∧ st1.log = st.log ∧
      st1.clock ≤ st.clock + t ∧
      ∃ evs, st1.trace = st.trace ++ evs ∧ evs.length ≤ t ∧
        ∀ e ∈ evs, e.1 = ApiCall.readPv pv := by
  intro t
  induction t with
  | zero =>
      intro st b st1 h
      simp only [wait_for_pv_available, Except.ok.injEq, Prod.mk.injEq] at h
      rw [← h.2]
      exact ⟨rfl, rfl, Nat.le_add_right _ _, [], by simp⟩
  | succ t ih =>
      intro st b st1 h
      rw [wait_for_pv_available] at h
      rcases apiReadPv_spec env pv st with ⟨s, hr⟩ | hr <;> rw [hr] at h
      · replace h : (Except.error s : Except Nat (Bool × ExecState)) = .ok (b, st1) := h
        exact absurd h (by simp)
      · replace h :
            (if env.phase pv st.clock = "Available" then
              Except.ok (true, pushTrace st (.readPv pv) .success)
            else
              wait_for_pv_available env pv t
                (sleep 1 (pushTrace st (.readPv pv) .success))) = .ok (b, st1) := h
        by_cases hph : env.phase pv st.clock = "Available"
        · rw [if_pos hph] at h
          simp only [Except.ok.injEq, Prod.mk.injEq] at h
          rw [← h.2]
          exact ⟨rfl, rfl, by simp, [(.readPv pv, .success)], by simp, by simp, by simp⟩
        · rw [if_neg hph] at h
          obtain ⟨hc, hl, hclk, evs, htr, hlen, hev⟩ :=
            ih (sleep 1 (pushTrace st (.readPv pv) .success)) b st1 h
          refine ⟨by simpa using hc, by simpa using hl, ?_,
            ((ApiCall.readPv pv, ApiOutcome.success)) :: evs, ?_, ?_, ?_⟩
          · simp only [sleep_clock, pushTrace_clock] at hclk
            omega
          · simp only [sleep_trace, pushTrace_trace] at htr
            simpa using htr
          · simpa using Nat.succ_le_succ hlen
          · intro e he
            rcases List.mem_cons.mp he with he | he
            · rw [he]
            · exact hev e he

/-! Generic frame facts about runCall and afterCall. -/

@[simp] lemma runCall_snd_log (env : Env) (c : ApiCall)
    (natural : Cluster → ApiOutcome × Cluster) (st : ExecState) :
    (runCall env c natural st).2.log = st.log := by
  cases h : env.faults c <;> simp [runCall, h]

@[simp] lemma runCall_snd_clock (env : Env) (c : ApiCall)
    (natural : Cluster → ApiOutcome × Cluster) (st : ExecState) :
    (runCall env c natural st).2.clock = st.clock := by
  cases h : env.faults c <;> simp [runCall, h]

lemma runCall_trace (env : Env) (c : ApiCall)
    (natural : Cluster → ApiOutcome × Cluster) (st : ExecState) :
    (runCall env c natural st).2.trace =
      st.trace ++ [(c, (runCall env c natural st).1)] := by
  cases h : env.faults c <;> simp [runCall, h]

lemma afterCall_log (r : ApiOutcome × ExecState) (e : LogEntry) :
    ∃ lg, (afterCall r e).log = r.2.log ++ lg := by
  cases h : r.1
  · exact ⟨[e], by simp [afterCall, h, logLine]⟩
  · exact ⟨[], by simp [afterCall, h]⟩

lemma runCall_cluster_eq_of {α : Type} (env : Env) (c : ApiCall)
    (natural : Cluster → ApiOutcome × Cluster) (st : ExecState)
    (f : Cluster → α) (hf : f (natural st.cluster).2 = f st.cluster) :
    f ((runCall env c natural st).2.cluster) = f st.cluster := by
  rcases runCall_cluster env c natural st with h | h <;> rw [h]
  exact hf

lemma afterCall_runCall_trace (env : Env) (c : ApiCall)
    (natural : Cluster → ApiOutcome × Cluster) (st : ExecState) (e : LogEntry) :
    (afterCall (runCall env c natural st) e).trace =
      st.trace ++ [(c, (runCall env c natural st).1)] := by
  rw [afterCall_trace, runCall_trace]

lemma afterCall_runCall_log (env : Env) (c : ApiCall)
    (natural : Cluster → ApiOutcome × Cluster) (st : ExecState) (e : LogEntry) :
    ∃ lg, (afterCall (runCall env c natural st) e).log = st.log ++ lg := by
  obtain ⟨lg, h⟩ := afterCall_log (runCall env c natural st) e
  exact ⟨lg, by rw [h, runCall_snd_log]⟩

lemma afterCall2_trace (env : Env) (c1 c2 : ApiCall)
    (n1 n2 : Cluster → ApiOutcome × Cluster) (st : ExecState) (e1 e2 : LogEntry) :
    ∃ o1 o2, (afterCall (runCall env c2 n2 (afterCall (runCall env c1 n1 st) e1)) e2).trace =
      st.trace ++ [(c1, o1), (c2, o2)] := by
  refine ⟨(runCall env c1 n1 st).1,
    (runCall env c2 n2 (afterCall (runCall env c1 n1 st) e1)).1, ?_⟩
  rw [afterCall_runCall_trace, afterCall_runCall_trace, List.append_assoc]
  rfl

lemma afterCall2_log (env : Env) (c1 c2 : ApiCall)
    (n1 n2 : Cluster → ApiOutcome × Cluster) (st : ExecState) (e1 e2 : LogEntry) :
    ∃ lg, (afterCall (runCall env c2 n2 (afterCall (runCall env c1 n1 st) e1)) e2).log =
      st.log ++ lg := by
  obtain ⟨lg2, h2⟩ := afterCall_runCall_log env c2 n2 (afterCall (runCall env c1 n1 st) e1) e2
  obtain ⟨lg1, h1⟩ := afterCall_runCall_log env c1 n1 st e1
  exact ⟨lg1 ++ lg2, by rw [h2, h1, List.append_assoc]⟩

lemma afterCall2_clock (env : Env) (c1 c2 : ApiCall)
    (n1 n2 : Cluster → ApiOutcome × Cluster) (st : ExecState) (e1 e2 : LogEntry) :
    (afterCall (runCall env c2 n2 (afterCall (runCall env c1 n1 st) e1)) e2).clock =
      st.clock := by
  rw [afterCall_clock, runCall_snd_clock, afterCall_clock, runCall_snd_clock]

lemma afterCall2_cluster_eq_of {α : Type} (env : Env) (c1 c2 : ApiCall)
    (n1 n2 : Cluster → ApiOutcome × Cluster) (st : ExecState) (e1 e2 : LogEntry)
    (f : Cluster → α) (hf1 : ∀ c, f (n1 c).2 = f c) (hf2 : ∀ c, f (n2 c).2 = f c) :
    f ((afterCall (runCall env c2 n2 (afterCall (runCall env c1 n1 st) e1)) e2).cluster) =
      f st.cluster := by
  rw [afterCall_cluster, runCall_cluster_eq_of env _ _ _ _ (hf2 _), afterCall_cluster,
    runCall_cluster_eq_of env _ _ _ _ (hf1 _)]

/-! Field preservation through runCall, one lemma per call kind and
untouched cluster field. -/

@[simp] lemma runCall_createNamespaceNat_pvcs (env : Env) (c : ApiCall) (n : String) (st : ExecState) :
    (runCall env c (createNamespaceNat n) st).2.cluster.pvcs = st.cluster.pvcs :=
  runCall_cluster_eq_of env c _ st Cluster.pvcs (by simp)

@[simp] lemma runCall_createNamespaceNat_pvs (env : Env) (c : ApiCall) (n : String) (st : ExecState) :
    (runCall env c (createNamespaceNat n) st).2.cluster.pvs = st.cluster.pvs :=
  runCall_cluster_eq_of env c _ st Cluster.pvs (by simp)

@[simp] lemma runCall_createNamespaceNat_configMaps (env : Env) (c : ApiCall) (n : String) (st : ExecState) :
    (runCall env c (createNamespaceNat n) st).2.cluster.configMaps = st.cluster.configMaps :=
  runCall_cluster_eq_of env c _ st Cluster.configMaps (by simp)

@[simp] lemma runCall_createNamespaceNat_secrets (env : Env) (c : ApiCall) (n : String) (st : ExecState) :
    (runCall env c (createNamespaceNat n) st).2.cluster.secrets = st.cluster.secrets :=
  runCall_cluster_eq_of env c _ st Cluster.secrets (by simp)

@[simp] lemma runCall_createNamespaceNat_deployments (env : Env) (c : ApiCall) (n : String) (st : ExecState) :
    (runCall env c (createNamespaceNat n) st).2.cluster.deployments = st.cluster.deployments :=
  runCall_cluster_eq_of env c _ st Cluster.deployments (by simp)

@[simp] lemma runCall_createNamespaceNat_statefulSets (env : Env) (c : ApiCall) (n : String) (st : ExecState) :
    (runCall env c (createNamespaceNat n) st).2.cluster.statefulSets = st.cluster.statefulSets :=
  runCall_cluster_eq_of env c _ st Cluster.statefulSets (by simp)

@[simp] lemma runCall_patchStatefulSetNat_namespaces (env : Env) (c : ApiCall) (ns name : String) (k : Nat) (st : ExecState) :
    (runCall env c (patchStatefulSetNat ns name k) st).2.cluster.namespaces = st.cluster.namespaces :=
  runCall_cluster_eq_of env c _ st Cluster.namespaces (by simp)

@[simp] lemma runCall_patchStatefulSetNat_pvcs (env : Env) (c : ApiCall) (ns name : String) (k : Nat) (st : ExecState) :
    (runCall env c (patchStatefulSetNat ns name k) st).2.cluster.pvcs = st.cluster.pvcs :=
  runCall_cluster_eq_of env c _ st Cluster.pvcs (by simp)

@[simp] lemma runCall_patchStatefulSetNat_pvs (env : Env) (c : ApiCall) (ns name : String) (k : Nat) (st : ExecState) :
    (runCall env c (patchStatefulSetNat ns name k) st).2.cluster.pvs = st.cluster.pvs :=
  runCall_cluster_eq_of env c _ st Cluster.pvs (by simp)

@[simp] lemma runCall_patchStatefulSetNat_configMaps (env : Env) (c : ApiCall) (ns name : String) (k : Nat) (st : ExecState) :
    (runCall env c (patchStatefulSetNat ns name k) st).2.cluster.configMaps = st.cluster.configMaps :=
  runCall_cluster_eq_of env c _ st Cluster.configMaps (by simp)

@[simp] lemma runCall_patchStatefulSetNat_secrets (env : Env) (c : ApiCall) (ns name : String) (k : Nat) (st : ExecState) :
    (runCall env c (patchStatefulSetNat ns name k) st).2.cluster.secrets = st.cluster.secrets :=
  runCall_cluster_eq_of env c _ st Cluster.secrets (by simp)

@[simp] lemma runCall_patchStatefulSetNat_deployments (env : Env) (c : ApiCall) (ns name : String) (k : Nat) (st : ExecState) :
    (runCall env c (patchStatefulSetNat ns name k) st).2.cluster.deployments = st.cluster.deployments :=
  runCall_cluster_eq_of env c _ st Cluster.deployments (by simp)

@[simp] lemma runCall_deletePvcNat_namespaces (env : Env) (c : ApiCall) (ns name : String) (st : ExecState) :
    (runCall env c (deletePvcNat ns name) st).2.cluster.namespaces = st.cluster.namespaces :=
  runCall_cluster_eq_of env c _ st Cluster.namespaces (by simp)

@[simp] lemma runCall_deletePvcNat_pvs (env : Env) (c : ApiCall) (ns name : String) (st : ExecState) :
    (runCall env c (deletePvcNat ns name) st).2.cluster.pvs = st.cluster.pvs :=
  runCall_cluster_eq_of env c _ st Cluster.pvs (by simp)

@[simp] lemma runCall_deletePvcNat_configMaps (env : Env) (c : ApiCall) (ns name : String) (st : ExecState) :
    (runCall env c (deletePvcNat ns name) st).2.cluster.configMaps = st.cluster.configMaps :=
  runCall_cluster_eq_of env c _ st Cluster.configMaps (by simp)

@[simp] lemma runCall_deletePvcNat_secrets (env : Env) (c : ApiCall) (ns name : String) (st : ExecState) :
    (runCall env c (deletePvcNat ns name) st).2.cluster.secrets = st.cluster.secrets :=
  runCall_cluster_eq_of env c _ st Cluster.secrets (by simp)

@[simp] lemma runCall_deletePvcNat_deployments (env : Env) (c : ApiCall) (ns name : String) (st : ExecState) :
    (runCall env c (deletePvcNat ns name) st).2.cluster.deployments = st.cluster.deployments :=
  runCall_cluster_eq_of env c _ st Cluster.deployments (by simp)

@[simp] lemma runCall_deletePvcNat_statefulSets (env : Env) (c : ApiCall) (ns name : String) (st : ExecState) :
    (runCall env c (deletePvcNat ns name) st).2.cluster.statefulSets = st.cluster.statefulSets :=
  runCall_cluster_eq_of env c _ st Cluster.statefulSets (by simp)

@[simp] lemma runCall_patchPvNat_namespaces (env : Env) (c : ApiCall) (name : String) (st : ExecState) :
    (runCall env c (patchPvNat name) st).2.cluster.namespaces = st.cluster.namespaces :=
  runCall_cluster_eq_of env c _ st Cluster.namespaces (by simp)

@[simp] lemma runCall_patchPvNat_pvcs (env : Env) (c : ApiCall) (name : String) (st : ExecState) :
    (runCall env c (patchPvNat name) st).2.cluster.pvcs = st.cluster.pvcs :=
  runCall_cluster_eq_of env c _ st Cluster.pvcs (by simp)

@[simp] lemma runCall_patchPvNat_configMaps (env : Env) (c : ApiCall) (name : String) (st : ExecState) :
    (runCall env c (patchPvNat name) st).2.cluster.configMaps = st.cluster.configMaps :=
  runCall_cluster_eq_of env c _ st Cluster.configMaps (by simp)

@[simp] lemma runCall_patchPvNat_secrets (env : Env) (c : ApiCall) (name : String) (st : ExecState) :
    (runCall env c (patchPvNat name) st).2.cluster.secrets = st.cluster.secrets :=
  runCall_cluster_eq_of env c _ st Cluster.secrets (by simp)

@[simp] lemma runCall_patchPvNat_deployments (env : Env) (c : ApiCall) (name : String) (st : ExecState) :
    (runCall env c (patchPvNat name) st).2.cluster.deployments = st.cluster.deployments :=
  runCall_cluster_eq_of env c _ st Cluster.deployments (by simp)

@[simp] lemma runCall_patchPvNat_statefulSets (env : Env) (c : ApiCall) (name : String) (st : ExecState) :
    (runCall env c (patchPvNat name) st).2.cluster.statefulSets = st.cluster.statefulSets :=
  runCall_cluster_eq_of env c _ st Cluster.statefulSets (by simp)

@[simp] lemma runCall_createPvcNat_namespaces (env : Env) (c : ApiCall) (ns : String) (obj : Pvc) (st : ExecState) :
    (runCall env c (createPvcNat ns obj) st).2.cluster.namespaces = st.cluster.namespaces :=
  runCall_cluster_eq_of env c _ st Cluster.namespaces (by simp)

@[simp] lemma runCall_createPvcNat_pvs (env : Env) (c : ApiCall) (ns : String) (obj : Pvc) (st : ExecState) :
    (runCall env c (createPvcNat ns obj) st).2.cluster.pvs = st.cluster.pvs :=
  runCall_cluster_eq_of env c _ st Cluster.pvs (by simp)

@[simp] lemma runCall_createPvcNat_configMaps (env : Env) (c : ApiCall) (ns : String) (obj : Pvc) (st : ExecState) :
    (runCall env c (createPvcNat ns obj) st).2.cluster.configMaps = st.cluster.configMaps :=
  runCall_cluster_eq_of env c _ st Cluster.configMaps (by simp)

@[simp] lemma runCall_createPvcNat_secrets (env : Env) (c : ApiCall) (ns : String) (obj : Pvc) (st : ExecState) :
    (runCall env c (createPvcNat ns obj) st).2.cluster.secrets = st.cluster.secrets :=
  runCall_cluster_eq_of env c _ st Cluster.secrets (by simp)

@[simp] lemma runCall_createPvcNat_deployments (env : Env) (c : ApiCall) (ns : String) (obj : Pvc) (st : ExecState) :
    (runCall env c (createPvcNat ns obj) st).2.cluster.deployments = st.cluster.deployments :=
  runCall_cluster_eq_of env c _ st Cluster.deployments (by simp)

@[simp] lemma runCall_createPvcNat_statefulSets (env : Env) (c : ApiCall) (ns : String) (obj : Pvc) (st : ExecState) :
    (runCall env c (createPvcNat ns obj) st).2.cluster.statefulSets = st.cluster.statefulSets :=
  runCall_cluster_eq_of env c _ st Cluster.statefulSets (by simp)

@[simp] lemma runCall_createConfigMapNat_namespaces (env : Env) (c : ApiCall) (ns : String) (obj : ConfigMap) (st : ExecState) :
    (runCall env c (createConfigMapNat ns obj) st).2.cluster.namespaces = st.cluster.namespaces :=
  runCall_cluster_eq_of env c _ st Cluster.namespaces (by simp)

@[simp] lemma runCall_createConfigMapNat_pvcs (env : Env) (c : ApiCall) (ns : String) (obj : ConfigMap) (st : ExecState) :
    (runCall env c (createConfigMapNat ns obj) st).2.cluster.pvcs = st.cluster.pvcs :=
  runCall_cluster_eq_of env c _ st Cluster.pvcs (by simp)

@[simp] lemma runCall_createConfigMapNat_pvs (env : Env) (c : ApiCall) (ns : String) (obj : ConfigMap) (st : ExecState) :
    (runCall env c (createConfigMapNat ns obj) st).2.cluster.pvs = st.cluster.pvs :=
  runCall_cluster_eq_of env c _ st Cluster.pvs (by simp)

@[simp] lemma runCall_createConfigMapNat_secrets (env : Env) (c : ApiCall) (ns : String) (obj : ConfigMap) (st : ExecState) :
    (runCall env c (createConfigMapNat ns obj) st).2.cluster.secrets = st.cluster.secrets :=
  runCall_cluster_eq_of env c _ st Cluster.secrets (by simp)

@[simp] lemma runCall_createConfigMapNat_deployments (env : Env) (c : ApiCall) (ns : String) (obj : ConfigMap) (st : ExecState) :
    (runCall env c (createConfigMapNat ns obj) st).2.cluster.deployments = st.cluster.deployments :=
  runCall_cluster_eq_of env c _ st Cluster.deployments (by simp)

@[simp] lemma runCall_createConfigMapNat_statefulSets (env : Env) (c : ApiCall) (ns : String) (obj : ConfigMap) (st : ExecState) :
    (runCall env c (createConfigMapNat ns obj) st).2.cluster.statefulSets = st.cluster.statefulSets :=
  runCall_cluster_eq_of env c _ st Cluster.statefulSets (by simp)

@[simp] lemma runCall_createSecretNat_namespaces (env : Env) (c : ApiCall) (ns : String) (obj : Secret) (st : ExecState) :
    (runCall env c (createSecretNat ns obj) st).2.cluster.namespaces = st.cluster.namespaces :=
  runCall_cluster_eq_of env c _ st Cluster.namespaces (by simp)

@[simp] lemma runCall_createSecretNat_pvcs (env : Env) (c : ApiCall) (ns : String) (obj : Secret) (st : ExecState) :
    (runCall env c (createSecretNat ns obj) st).2.cluster.pvcs = st.cluster.pvcs :=
  runCall_cluster_eq_of env c _ st Cluster.pvcs (by simp)

@[simp] lemma runCall_createSecretNat_pvs (env : Env) (c : ApiCall) (ns : String) (obj : Secret) (st : ExecState) :
    (runCall env c (createSecretNat ns obj) st).2.cluster.pvs = st.cluster.pvs :=
  runCall_cluster_eq_of env c _ st Cluster.pvs (by simp)

@[simp] lemma runCall_createSecretNat_configMaps (env : Env) (c : ApiCall) (ns : String) (obj : Secret) (st : ExecState) :
    (runCall env c (createSecretNat ns obj) st).2.cluster.configMaps = st.cluster.configMaps :=
  runCall_cluster_eq_of env c _ st Cluster.configMaps (by simp)

@[simp] lemma runCall_createSecretNat_deployments (env : Env) (c : ApiCall) (ns : String) (obj : Secret) (st : ExecState) :
    (runCall env c (createSecretNat ns obj) st).2.cluster.deployments = st.cluster.deployments :=
  runCall_cluster_eq_of env c _ st Cluster.deployments (by simp)

@[simp] lemma runCall_createSecretNat_statefulSets (env : Env) (c : ApiCall) (ns : String) (obj : Secret) (st : ExecState) :
    (runCall env c (createSecretNat ns obj) st).2.cluster.statefulSets = st.cluster.statefulSets :=
  runCall_cluster_eq_of env c _ st Cluster.statefulSets (by simp)

@[simp] lemma runCall_createDeploymentNat_namespaces (env : Env) (c : ApiCall) (ns : String) (obj : Deployment) (st : ExecState) :
    (runCall env c (createDeploymentNat ns obj) st).2.cluster.namespaces = st.cluster.namespaces :=
  runCall_cluster_eq_of env c _ st Cluster.namespaces (by simp)

@[simp] lemma runCall_createDeploymentNat_pvcs (env : Env) (c : ApiCall) (ns : String) (obj : Deployment) (st : ExecState) :
    (runCall env c (createDeploymentNat ns obj) st).2.cluster.pvcs = st.cluster.pvcs :=
  runCall_cluster_eq_of env c _ st Cluster.pvcs (by simp)

@[simp] lemma runCall_createDeploymentNat_pvs (env : Env) (c : ApiCall) (ns : String) (obj : Deployment) (st : ExecState) :
    (runCall env c (createDeploymentNat ns obj) st).2.cluster.pvs = st.cluster.pvs :=
  runCall_cluster_eq_of env c _ st Cluster.pvs (by simp)

@[simp] lemma runCall_createDeploymentNat_configMaps (env : Env) (c : ApiCall) (ns : String) (obj : Deployment) (st : ExecState) :
    (runCall env c (createDeploymentNat ns obj) st).2.cluster.configMaps = st.cluster.configMaps :=
  runCall_cluster_eq_of env c _ st Cluster.configMaps (by simp)

@[simp] lemma runCall_createDeploymentNat_secrets (env : Env) (c : ApiCall) (ns : String) (obj : Deployment) (st : ExecState) :
    (runCall env c (createDeploymentNat ns obj) st).2.cluster.secrets = st.cluster.secrets :=
  runCall_cluster_eq_of env c _ st Cluster.secrets (by simp)

@[simp] lemma runCall_createDeploymentNat_statefulSets (env : Env) (c : ApiCall) (ns : String) (obj : Deployment) (st : ExecState) :
    (runCall env c (createDeploymentNat ns obj) st).2.cluster.statefulSets = st.cluster.statefulSets :=
  runCall_cluster_eq_of env c _ st Cluster.statefulSets (by simp)

@[simp] lemma runCall_deleteDeploymentNat_namespaces (env : Env) (c : ApiCall) (ns name : String) (st : ExecState) :
    (runCall env c (deleteDeploymentNat ns name) st).2.cluster.namespaces = st.cluster.namespaces :=
  runCall_cluster_eq_of env c _ st Cluster.namespaces (by simp)

@[simp] lemma runCall_deleteDeploymentNat_pvcs (env : Env) (c : ApiCall) (ns name : String) (st : ExecState) :
    (runCall env c (deleteDeploymentNat ns name) st).2.cluster.pvcs = st.cluster.pvcs :=
  runCall_cluster_eq_of env c _ st Cluster.pvcs (by simp)

@[simp] lemma runCall_deleteDeploymentNat_pvs (env : Env) (c : ApiCall) (ns name : String) (st : ExecState) :
    (runCall env c (deleteDeploymentNat ns name) st).2.cluster.pvs = st.cluster.pvs :=
  runCall_cluster_eq_of env c _ st Cluster.pvs (by simp)

@[simp] lemma runCall_deleteDeploymentNat_configMaps (env : Env) (c : ApiCall) (ns name : String) (st : ExecState) :
    (runCall env c (deleteDeploymentNat ns name) st).2.cluster.configMaps = st.cluster.configMaps :=
  runCall_cluster_eq_of env c _ st Cluster.configMaps (by simp)

@[simp] lemma runCall_deleteDeploymentNat_secrets (env : Env) (c : ApiCall) (ns name : String) (st : ExecState) :
    (runCall env c (deleteDeploymentNat ns name) st).2.cluster.secrets = st.cluster.secrets :=
  runCall_cluster_eq_of env c _ st Cluster.secrets (by simp)

@[simp] lemma runCall_deleteDeploymentNat_statefulSets (env : Env) (c : ApiCall) (ns name : String) (st : ExecState) :
    (runCall env c (deleteDeploymentNat ns name) st).2.cluster.statefulSets = st.cluster.statefulSets :=
  runCall_cluster_eq_of env c _ st Cluster.statefulSets (by simp)

@[simp] lemma runCall_createStatefulSetNat_namespaces (env : Env) (c : ApiCall) (ns : String) (obj : StatefulSet) (st : ExecState) :
    (runCall env c (createStatefulSetNat ns obj) st).2.cluster.namespaces = st.cluster.namespaces :=
  runCall_cluster_eq_of env c _ st Cluster.namespaces (by simp)

@[simp] lemma runCall_createStatefulSetNat_pvcs (env : Env) (c : ApiCall) (ns : String) (obj : StatefulSet) (st : ExecState) :
    (runCall env c (createStatefulSetNat ns obj) st).2.cluster.pvcs = st.cluster.pvcs :=
  runCall_cluster_eq_of env c _ st Cluster.pvcs (by simp)

@[simp] lemma runCall_createStatefulSetNat_pvs (env : Env) (c : ApiCall) (ns : String) (obj : StatefulSet) (st : ExecState) :
    (runCall env c (createStatefulSetNat ns obj) st).2.cluster.pvs = st.cluster.pvs :=
  runCall_cluster_eq_of env c _ st Cluster.pvs (by simp)

@[simp] lemma runCall_createStatefulSetNat_configMaps (env : Env) (c : ApiCall) (ns : String) (obj : StatefulSet) (st : ExecState) :
    (runCall env c (createStatefulSetNat ns obj) st).2.cluster.configMaps = st.cluster.configMaps :=
  runCall_cluster_eq_of env c _ st Cluster.configMaps (by simp)

@[simp] lemma runCall_createStatefulSetNat_secrets (env : Env) (c : ApiCall) (ns : String) (obj : StatefulSet) (st : ExecState) :
    (runCall env c (createStatefulSetNat ns obj) st).2.cluster.secrets = st.cluster.secrets :=
  runCall_cluster_eq_of env c _ st Cluster.secrets (by simp)

@[simp] lemma runCall_createStatefulSetNat_deployments (env : Env) (c : ApiCall) (ns : String) (obj : StatefulSet) (st : ExecState) :
    (runCall env c (createStatefulSetNat ns obj) st).2.cluster.deployments = st.cluster.deployments :=
  runCall_cluster_eq_of env c _ st Cluster.deployments (by simp)

@[simp] lemma runCall_deleteStatefulSetNat_namespaces (env : Env) (c : ApiCall) (ns name : String) (st : ExecState) :
    (runCall env c (deleteStatefulSetNat ns name) st).2.cluster.namespaces = st.cluster.namespaces :=
  runCall_cluster_eq_of env c _ st Cluster.namespaces (by simp)

@[simp] lemma runCall_deleteStatefulSetNat_pvcs (env : Env) (c : ApiCall) (ns name : String) (st : ExecState) :
    (runCall env c (deleteStatefulSetNat ns name) st).2.cluster.pvcs = st.cluster.pvcs :=
  runCall_cluster_eq_of env c _ st Cluster.pvcs (by simp)

@[simp] lemma runCall_deleteStatefulSetNat_pvs (env : Env) (c : ApiCall) (ns name : String) (st : ExecState) :
    (runCall env c (deleteStatefulSetNat ns name) st).2.cluster.pvs = st.cluster.pvs :=
  runCall_cluster_eq_of env c _ st Cluster.pvs (by simp)

@[simp] lemma runCall_deleteStatefulSetNat_configMaps (env : Env) (c : ApiCall) (ns name : String) (st : ExecState) :
    (runCall env c (deleteStatefulSetNat ns name) st).2.cluster.configMaps = st.cluster.configMaps :=
  runCall_cluster_eq_of env c _ st Cluster.configMaps (by simp)

@[simp] lemma runCall_deleteStatefulSetNat_secrets (env : Env) (c : ApiCall) (ns name : String) (st : ExecState) :
    (runCall env c (deleteStatefulSetNat ns name) st).2.cluster.secrets = st.cluster.secrets :=
  runCall_cluster_eq_of env c _ st Cluster.secrets (by simp)

@[simp] lemma runCall_deleteStatefulSetNat_deployments (env : Env) (c : ApiCall) (ns name : String) (st : ExecState) :
    (runCall env c (deleteStatefulSetNat ns name) st).2.cluster.deployments = st.cluster.deployments :=
  runCall_cluster_eq_of env c _ st Cluster.deployments (by simp)

/-! Frame lemmas for the per-item steps of the copy stages. -/

lemma scaleStep_frame (env : Env) (src : String) (sts : StatefulSet)
    (st : ExecState) :
    (∃ o, (scaleStep env src sts st).trace =
        st.trace ++ [(ApiCall.patchStatefulSet src sts.metadata.name, o)]) ∧
    (∃ lg, (scaleStep env src sts st).log = st.log ++ lg) ∧
    (scaleStep env src sts st).clock = st.clock ∧
    (scaleStep env src sts st).cluster.namespaces = st.cluster.namespaces ∧
    (scaleStep env src sts st).cluster.pvcs = st.cluster.pvcs ∧
    (scaleStep env src sts st).cluster.pvs = st.cluster.pvs ∧
    (scaleStep env src sts st).cluster.configMaps = st.cluster.configMaps ∧
    (scaleStep env src sts st).cluster.secrets = st.cluster.secrets ∧
    (scaleStep env src sts st).cluster.deployments = st.cluster.deployments := by
  simp only [scaleStep]
  refine ⟨⟨_, afterCall_runCall_trace env _ _ st _⟩,
    afterCall_runCall_log env _ _ st _, ?_, ?_, ?_, ?_, ?_, ?_, ?_⟩
  · rw [afterCall_clock, runCall_snd_clock]
  all_goals
    rw [afterCall_cluster]
    exact runCall_cluster_eq_of env _ _ st _ (by simp)

lemma cmStep_frame (env : Env) (tgt : String) (cm : ConfigMap)
    (st : ExecState) :
    (∃ o, (cmStep env tgt cm st).trace =
        st.trace ++ [(ApiCall.createConfigMap tgt cm.metadata.name, o)]) ∧
    (∃ lg, (cmStep env tgt cm st).log = st.log ++ lg) ∧
    (cmStep env tgt cm st).clock = st.clock ∧
    (cmStep env tgt cm st).cluster.namespaces = st.cluster.namespaces ∧
    (cmStep env tgt cm st).cluster.pvcs = st.cluster.pvcs ∧
    (cmStep env tgt cm st).cluster.pvs = st.cluster.pvs ∧
    (cmStep env tgt cm st).cluster.secrets = st.cluster.secrets ∧
    (cmStep env tgt cm st).cluster.deployments = st.cluster.deployments ∧
    (cmStep env tgt cm st).cluster.statefulSets = st.cluster.statefulSets := by
  simp only [cmStep]
  refine ⟨⟨_, afterCall_runCall_trace env _ _ st _⟩,
    afterCall_runCall_log env _ _ st _, ?_, ?_, ?_, ?_, ?_, ?_, ?_⟩
  · rw [afterCall_clock, runCall_snd_clock]
  all_goals
    rw [afterCall_cluster]
    exact runCall_cluster_eq_of env _ _ st _ (by simp)

lemma secretStep_frame (env : Env) (tgt : String) (secret : Secret)
    (st : ExecState) :
    (∃ o, (secretStep env tgt secret st).trace =
        st.trace ++ [(ApiCall.createSecret tgt secret.metadata.name, o)]) ∧
    (∃ lg, (secretStep env tgt secret st).log = st.log ++ lg) ∧
    (secretStep env tgt secret st).clock = st.clock ∧
    (secretStep env tgt secret st).cluster.namespaces = st.cluster.namespaces ∧
    (secretStep env tgt secret st).cluster.pvcs = st.cluster.pvcs ∧
    (secretStep env tgt secret st).cluster.pvs = st.cluster.pvs ∧
    (secretStep env tgt secret st).cluster.configMaps = st.cluster.configMaps ∧
    (secretStep env tgt secret st).cluster.deployments = st.cluster.deployments ∧
    (secretStep env tgt secret st).cluster.statefulSets = st.cluster.statefulSets := by
  simp only [secretStep]
  refine ⟨⟨_, afterCall_runCall_trace env _ _ st _⟩,
    afterCall_runCall_log env _ _ st _, ?_, ?_, ?_, ?_, ?_, ?_, ?_⟩
  · rw [afterCall_clock, runCall_snd_clock]
  all_goals
    rw [afterCall_cluster]
    exact runCall_cluster_eq_of env _ _ st _ (by simp)

lemma deployStep_frame (env : Env) (src tgt : String) (deploy : Deployment)
    (st : ExecState) :
    (∃ o o2, (deployStep env src tgt deploy st).trace =
        st.trace ++ [(ApiCall.createDeployment tgt deploy.metadata.name, o),
          (ApiCall.deleteDeployment src deploy.metadata.name, o2)]) ∧
    (∃ lg, (deployStep env src tgt deploy st).log = st.log ++ lg) ∧
    (deployStep env src tgt deploy st).clock = st.clock ∧
    (deployStep env src tgt deploy st).cluster.namespaces = st.cluster.namespaces ∧
    (deployStep env src tgt deploy st).cluster.pvcs = st.cluster.pvcs ∧
    (deployStep env src tgt deploy st).cluster.pvs = st.cluster.pvs ∧
    (deployStep env src tgt deploy st).cluster.configMaps = st.cluster.configMaps ∧
    (deployStep env src tgt deploy st).cluster.secrets = st.cluster.secrets ∧
    (deployStep env src tgt deploy st).cluster.statefulSets = st.cluster.statefulSets := by
  simp only [deployStep]
  refine ⟨afterCall2_trace env _ _ _ _ st _ _,
    afterCall2_log env _ _ _ _ st _ _,
    afterCall2_clock env _ _ _ _ st _ _, ?_, ?_, ?_, ?_, ?_, ?_⟩
  all_goals
    exact afterCall2_cluster_eq_of env _ _ _ _ st _ _ _
      (fun c => by simp) (fun c => by simp)

lemma stsStep_frame (env : Env) (src tgt : String) (sts : StatefulSet)
    (st : ExecState) :
    (∃ o o2, (stsStep env src tgt sts st).trace =
        st.trace ++ [(ApiCall.createStatefulSet tgt sts.metadata.name, o),
          (ApiCall.deleteStatefulSet src sts.metadata.name, o2)]) ∧
    (∃ lg, (stsStep env src tgt sts st).log = st.log ++ lg) ∧
    (stsStep env src tgt sts st).clock = st.clock ∧
    (stsStep env src tgt sts st).cluster.namespaces = st.cluster.namespaces ∧
    (stsStep env src tgt sts st).cluster.pvcs = st.cluster.pvcs ∧
    (stsStep env src tgt sts st).cluster.pvs = st.cluster.pvs ∧
    (stsStep env src tgt sts st).cluster.configMaps = st.cluster.configMaps ∧
    (stsStep env src tgt sts st).cluster.secrets = st.cluster.secrets ∧
    (stsStep env src tgt sts st).cluster.deployments = st.cluster.deployments := by
  simp only [stsStep]
  refine ⟨afterCall2_trace env _ _ _ _ st _ _,
    afterCall2_log env _ _ _ _ st _ _,
    afterCall2_clock env _ _ _ _ st _ _, ?_, ?_, ?_, ?_, ?_, ?_⟩
  all_goals
    exact afterCall2_cluster_eq_of env _ _ _ _ st _ _ _
      (fun c => by simp) (fun c => by simp)

/-! Frame lemmas for the copy-stage loops. -/

lemma scaleDownLoop_frame (env : Env) (src : String) :
    ∀ (l : List StatefulSet) (st : ExecState),
      (∃ evs, (scaleDownLoop env src l st).trace = st.trace ++ evs ∧
        ∀ e ∈ evs, ∃ n, e.1 = ApiCall.patchStatefulSet src n) ∧
      (∃ lg, (scaleDownLoop env src l st).log = st.log ++ lg) ∧
      (scaleDownLoop env src l st).cluster.namespaces = st.cluster.namespaces ∧
      (scaleDownLoop env src l st).cluster.pvcs = st.cluster.pvcs ∧
      (scaleDownLoop env src l st).cluster.pvs = st.cluster.pvs ∧
      (scaleDownLoop env src l st).cluster.configMaps = st.cluster.configMaps ∧
      (scaleDownLoop env src l st).cluster.secrets = st.cluster.secrets ∧
      (scaleDownLoop env src l st).cluster.deployments = st.cluster.deployments := by
  intro l
  induction l with
  | nil =>
      intro st
      refine ⟨⟨[], by simp [scaleDownLoop], by simp⟩, ⟨[], by simp [scaleDownLoop]⟩, ?_, ?_, ?_, ?_, ?_, ?_⟩ <;>
        simp [scaleDownLoop]
  | cons sts rest ih =>
      intro st
      obtain ⟨htrS, ⟨lg1, hlg1⟩, hclkS, hsnamespaces, hspvcs, hspvs, hsconfigMaps, hssecrets, hsdeployments⟩ := scaleStep_frame env src sts st
      obtain ⟨⟨evs, htr, hsh⟩, ⟨lg, hlg⟩, hnamespaces, hpvcs, hpvs, hconfigMaps, hsecrets, hdeployments⟩ := ih (scaleStep env src sts st)
      obtain ⟨o1, htr1⟩ := htrS
      rw [scaleDownLoop]
      refine ⟨⟨(ApiCall.patchStatefulSet src sts.metadata.name, o1) :: evs, ?_, ?_⟩, ⟨lg1 ++ lg, ?_⟩, ?_, ?_, ?_, ?_, ?_, ?_⟩
      · rw [htr, htr1]
        simp
      · intro e he
        rcases List.mem_cons.mp he with he | he
        · rw [he]
          exact ⟨_, rfl⟩
        · exact hsh e he
      · rw [hlg, hlg1, List.append_assoc]
      · rw [hnamespaces, hsnamespaces]
      · rw [hpvcs, hspvcs]
      · rw [hpvs, hspvs]
      · rw [hconfigMaps, hsconfigMaps]
      · rw [hsecrets, hssecrets]
      · rw [hdeployments, hsdeployments]

lemma configMapLoop_frame (env : Env) (tgt : String) :
    ∀ (l : List ConfigMap) (st : ExecState),
      (∃ evs, (configMapLoop env tgt l st).trace = st.trace ++ evs ∧
        ∀ e ∈ evs, ∃ n, e.1 = ApiCall.createConfigMap tgt n) ∧
      (∃ lg, (configMapLoop env tgt l st).log = st.log ++ lg) ∧
      (configMapLoop env tgt l st).cluster.namespaces = st.cluster.namespaces ∧
      (configMapLoop env tgt l st).cluster.pvcs = st.cluster.pvcs ∧
      (configMapLoop env tgt l st).cluster.pvs = st.cluster.pvs ∧
      (configMapLoop env tgt l st).cluster.secrets = st.cluster.secrets ∧
      (configMapLoop env tgt l st).cluster.deployments = st.cluster.deployments ∧
      (configMapLoop env tgt l st).cluster.statefulSets = st.cluster.statefulSets := by
  intro l
  induction l with
  | nil =>
      intro st
      refine ⟨⟨[], by simp [configMapLoop], by simp⟩, ⟨[], by simp [configMapLoop]⟩, ?_, ?_, ?_, ?_, ?_, ?_⟩ <;>
        simp [configMapLoop]
  | cons cm rest ih =>
      intro st
      obtain ⟨htrS, ⟨lg1, hlg1⟩, hclkS, hsnamespaces, hspvcs, hspvs, hssecrets, hsdeployments, hsstatefulSets⟩ := cmStep_frame env tgt cm st
      obtain ⟨⟨evs, htr, hsh⟩, ⟨lg, hlg⟩, hnamespaces, hpvcs, hpvs, hsecrets, hdeployments, hstatefulSets⟩ := ih (cmStep env tgt cm st)
      obtain ⟨o1, htr1⟩ := htrS
      rw [configMapLoop]
      refine ⟨⟨(ApiCall.createConfigMap tgt cm.metadata.name, o1) :: evs, ?_, ?_⟩, ⟨lg1 ++ lg, ?_⟩, ?_, ?_, ?_, ?_, ?_, ?_⟩
      · rw [htr, htr1]
        simp
      · intro e he
        rcases List.mem_cons.mp he with he | he
        · rw [he]
          exact ⟨_, rfl⟩
        · exact hsh e he
      · rw [hlg, hlg1, List.append_assoc]
      · rw [hnamespaces, hsnamespaces]
      · rw [hpvcs, hspvcs]
      · rw [hpvs, hspvs]
      · rw [hsecrets, hssecrets]
      · rw [hdeployments, hsdeployments]
      · rw [hstatefulSets, hsstatefulSets]

lemma secretLoop_frame (env : Env) (tgt : String) :
    ∀ (l : List Secret) (st : ExecState),
      (∃ evs, (secretLoop env tgt l st).trace = st.trace ++ evs ∧
        ∀ e ∈ evs, ∃ n, e.1 = ApiCall.createSecret tgt n) ∧
      (∃ lg, (secretLoop env tgt l st).log = st.log ++ lg) ∧
      (secretLoop env tgt l st).cluster.namespaces = st.cluster.namespaces ∧
      (secretLoop env tgt l st).cluster.pvcs = st.cluster.pvcs ∧
      (secretLoop env tgt l st).cluster.pvs = st.cluster.pvs ∧
      (secretLoop env tgt l st).cluster.configMaps = st.cluster.configMaps ∧
      (secretLoop env tgt l st).cluster.deployments = st.cluster.deployments ∧
      (secretLoop env tgt l st).cluster.statefulSets = st.cluster.statefulSets := by
  intro l
  induction l with
  | nil =>
      intro st
      refine ⟨⟨[], by simp [secretLoop], by simp⟩, ⟨[], by simp [secretLoop]⟩, ?_, ?_, ?_, ?_, ?_, ?_⟩ <;>
        simp [secretLoop]
  | cons secret rest ih =>
      intro st
      obtain ⟨htrS, ⟨lg1, hlg1⟩, hclkS, hsnamespaces, hspvcs, hspvs, hsconfigMaps, hsdeployments, hsstatefulSets⟩ := secretStep_frame env tgt secret st
      obtain ⟨⟨evs, htr, hsh⟩, ⟨lg, hlg⟩, hnamespaces, hpvcs, hpvs, hconfigMaps, hdeployments, hstatefulSets⟩ := ih (secretStep env tgt secret st)
      obtain ⟨o1, htr1⟩ := htrS
      rw [secretLoop]
      refine ⟨⟨(ApiCall.createSecret tgt secret.metadata.name, o1) :: evs, ?_, ?_⟩, ⟨lg1 ++ lg, ?_⟩, ?_, ?_, ?_, ?_, ?_, ?_⟩
      · rw [htr, htr1]
        simp
      · intro e he
        rcases List.mem_cons.mp he with he | he
        · rw [he]
          exact ⟨_, rfl⟩
        · exact hsh e he
      · rw [hlg, hlg1, List.append_assoc]
      · rw [hnamespaces, hsnamespaces]
      · rw [hpvcs, hspvcs]
      · rw [hpvs, hspvs]
      · rw [hconfigMaps, hsconfigMaps]
      · rw [hdeployments, hsdeployments]
      · rw [hstatefulSets, hsstatefulSets]

lemma deploymentLoop_frame (env : Env) (src tgt : String) :
    ∀ (l : List Deployment) (st : ExecState),
      (∃ evs, (deploymentLoop env src tgt l st).trace = st.trace ++ evs ∧
        ∀ e ∈ evs, (∃ n, e.1 = ApiCall.createDeployment tgt n) ∨ (∃ n, e.1 = ApiCall.deleteDeployment src n)) ∧
      (∃ lg, (deploymentLoop env src tgt l st).log = st.log ++ lg) ∧
      (deploymentLoop env src tgt l st).cluster.namespaces = st.cluster.namespaces ∧
      (deploymentLoop env src tgt l st).cluster.pvcs = st.cluster.pvcs ∧
      (deploymentLoop env src tgt l st).cluster.pvs = st.cluster.pvs ∧
      (deploymentLoop env src tgt l st).cluster.configMaps = st.cluster.configMaps ∧
      (deploymentLoop env src tgt l st).cluster.secrets = st.cluster.secrets ∧
      (deploymentLoop env src tgt l st).cluster.statefulSets = st.cluster.statefulSets := by
  intro l
  induction l with
  | nil =>
      intro st
      refine ⟨⟨[], by simp [deploymentLoop], by simp⟩, ⟨[], by simp [deploymentLoop]⟩, ?_, ?_, ?_, ?_, ?_, ?_⟩ <;>
        simp [deploymentLoop]
  | cons deploy rest ih =>
      intro st
      obtain ⟨htrS, ⟨lg1, hlg1⟩, hclkS, hsnamespaces, hspvcs, hspvs, hsconfigMaps, hssecrets, hsstatefulSets⟩ := deployStep_frame env src tgt deploy st
      obtain ⟨⟨evs, htr, hsh⟩, ⟨lg, hlg⟩, hnamespaces, hpvcs, hpvs, hconfigMaps, hsecrets, hstatefulSets⟩ := ih (deployStep env src tgt deploy st)
      obtain ⟨o1, o2, htr1⟩ := htrS
      rw [deploymentLoop]
      refine ⟨⟨(ApiCall.createDeployment tgt deploy.metadata.name, o1) :: (ApiCall.deleteDeployment src deploy.metadata.name, o2) :: evs, ?_, ?_⟩, ⟨lg1 ++ lg, ?_⟩, ?_, ?_, ?_, ?_, ?_, ?_⟩
      · rw [htr, htr1]
        simp
      · intro e he
        rcases List.mem_cons.mp he with he | he
        · rw [he]
          exact Or.inl ⟨_, rfl⟩
        · rcases List.mem_cons.mp he with he | he
          · rw [he]
            exact Or.inr ⟨_, rfl⟩
          · exact hsh e he
      · rw [hlg, hlg1, List.append_assoc]
      · rw [hnamespaces, hsnamespaces]
      · rw [hpvcs, hspvcs]
      · rw [hpvs, hspvs]
      · rw [hconfigMaps, hsconfigMaps]
      · rw [hsecrets, hssecrets]
      · rw [hstatefulSets, hsstatefulSets]

lemma statefulSetLoop_frame (env : Env) (src tgt : String) :
    ∀ (l : List StatefulSet) (st : ExecState),
      (∃ evs, (statefulSetLoop env src tgt l st).trace = st.trace ++ evs ∧
        ∀ e ∈ evs, (∃ n, e.1 = ApiCall.createStatefulSet tgt n) ∨ (∃ n, e.1 = ApiCall.deleteStatefulSet src n)) ∧
      (∃ lg, (statefulSetLoop env src tgt l st).log = st.log ++ lg) ∧
      (statefulSetLoop env src tgt l st).cluster.namespaces = st.cluster.namespaces ∧
      (statefulSetLoop env src tgt l st).cluster.pvcs = st.cluster.pvcs ∧
      (statefulSetLoop env src tgt l st).cluster.pvs = st.cluster.pvs ∧
      (statefulSetLoop env src tgt l st).cluster.configMaps = st.cluster.configMaps ∧
      (statefulSetLoop env src tgt l st).cluster.secrets = st.cluster.secrets ∧
      (statefulSetLoop env src tgt l st).cluster.deployments = st.cluster.deployments := by
  intro l
  induction l with
  | nil =>
      intro st
      refine ⟨⟨[], by simp [statefulSetLoop], by simp⟩, ⟨[], by simp [statefulSetLoop]⟩, ?_, ?_, ?_, ?_, ?_, ?_⟩ <;>
        simp [statefulSetLoop]
  | cons sts rest ih =>
      intro st
      obtain ⟨htrS, ⟨lg1, hlg1⟩, hclkS, hsnamespaces, hspvcs, hspvs, hsconfigMaps, hssecrets, hsdeployments⟩ := stsStep_frame env src tgt sts st
      obtain ⟨⟨evs, htr, hsh⟩, ⟨lg, hlg⟩, hnamespaces, hpvcs, hpvs, hconfigMaps, hsecrets, hdeployments⟩ := ih (stsStep env src tgt sts st)
      obtain ⟨o1, o2, htr1⟩ := htrS
      rw [statefulSetLoop]
      refine ⟨⟨(ApiCall.createStatefulSet tgt sts.metadata.name, o1) :: (ApiCall.deleteStatefulSet src sts.metadata.name, o2) :: evs, ?_, ?_⟩, ⟨lg1 ++ lg, ?_⟩, ?_, ?_, ?_, ?_, ?_, ?_⟩
      · rw [htr, htr1]
        simp
      · intro e he
        rcases List.mem_cons.mp he with he | he
        · rw [he]
          exact Or.inl ⟨_, rfl⟩
        · rcases List.mem_cons.mp he with he | he
          · rw [he]
            exact Or.inr ⟨_, rfl⟩
          · exact hsh e he
      · rw [hlg, hlg1, List.append_assoc]
      · rw [hnamespaces, hsnamespaces]
      · rw [hpvcs, hspvcs]
      · rw [hpvs, hspvs]
      · rw [hconfigMaps, hsconfigMaps]
      · rw [hsecrets, hssecrets]
      · rw [hdeployments, hsdeployments]

/-- An unbound claim is only logged as skipped: no API call is made. -/
lemma migrateOnePvc_unbound (env : Env) (src tgt : String) (q : Pvc)
    (st : ExecState) (h : unboundVolumeName q.spec.volume_name = true) :
    migrateOnePvc env src tgt q st =
      .ok (logLine st (.pvcNotBoundSkipping q.metadata.name)) := by
  unfold migrateOnePvc
  rw [if_pos h]

lemma pvcChain_trace (env : Env) (src qn pvn : String) (st : ExecState) :
    ∃ o1 o2, ((runCall env (.patchPv pvn) (patchPvNat pvn)
        (sleep 2 ((runCall env (.deletePvc src qn) (deletePvcNat src qn)
          (logLine st (.migratingPvc qn pvn))).2))).2).trace =
      st.trace ++ [(ApiCall.deletePvc src qn, o1), (ApiCall.patchPv pvn, o2)] := by
  refine ⟨(runCall env (.deletePvc src qn) (deletePvcNat src qn)
      (logLine st (.migratingPvc qn pvn))).1,
    (runCall env (.patchPv pvn) (patchPvNat pvn)
      (sleep 2 ((runCall env (.deletePvc src qn) (deletePvcNat src qn)
        (logLine st (.migratingPvc qn pvn))).2))).1, ?_⟩
  rw [runCall_trace, sleep_trace, runCall_trace, logLine_trace, List.append_assoc]
  rfl

lemma pvcChain_log (env : Env) (src qn pvn : String) (st : ExecState) :
    ((runCall env (.patchPv pvn) (patchPvNat pvn)
        (sleep 2 ((runCall env (.deletePvc src qn) (deletePvcNat src qn)
          (logLine st (.migratingPvc qn pvn))).2))).2).log =
      st.log ++ [LogEntry.migratingPvc qn pvn] := by
  rw [runCall_snd_log, sleep_log, runCall_snd_log, logLine_log]

/-- Frame of the migration of one claim: only claim-item calls are
issued (none at all for an unbound claim), the log only grows, and the
namespaces, ConfigMaps, Secrets, Deployments and StatefulSets of the
cluster are untouched. -/
lemma migrateOnePvc_frame (env : Env) (src tgt : String) (q : Pvc)
    (st st1 : ExecState) (h : migrateOnePvc env src tgt q st = .ok st1) :
    (∃ evs, st1.trace = st.trace ++ evs ∧
      (∀ e ∈ evs, pvcItemCall src tgt q e.1) ∧
      (unboundVolumeName q.spec.volume_name = true → evs = [])) ∧
    (∃ lg, st1.log = st.log ++ lg) ∧
    st1.cluster.namespaces = st.cluster.namespaces ∧
    st1.cluster.configMaps = st.cluster.configMaps ∧
    st1.cluster.secrets = st.cluster.secrets ∧
    st1.cluster.deployments = st.cluster.deployments ∧
    st1.cluster.statefulSets = st.cluster.statefulSets := by
  by_cases hub : unboundVolumeName q.spec.volume_name = true
  · rw [migrateOnePvc_unbound env src tgt q st hub] at h
    simp only [Except.ok.injEq] at h
    rw [← h]
    exact ⟨⟨[], by simp, by simp, fun _ => rfl⟩,
      ⟨[LogEntry.pvcNotBoundSkipping q.metadata.name], by simp⟩,
      by simp, by simp, by simp, by simp, by simp⟩
  · simp only [migrateOnePvc] at h
    rw [if_neg hub] at h
    obtain ⟨o1, o2, hchain⟩ :=
      pvcChain_trace env src q.metadata.name (q.spec.volume_name.getD "") st
    split at h
    · exact absurd h (by simp)
    · rename_i stw heq
      simp only [Except.ok.injEq] at h
      obtain ⟨hcw, hlw, hclkw, evsw, htrw, hlenw, hevw⟩ :=
        wait_ok_frame env _ 30 _ _ _ heq
      rw [hchain, List.append_assoc] at htrw
      rw [pvcChain_log] at hlw
      refine ⟨⟨(ApiCall.deletePvc src q.metadata.name, o1) ::
          (ApiCall.patchPv (q.spec.volume_name.getD ""), o2) :: evsw, ?_, ?_, ?_⟩,
        ⟨[LogEntry.migratingPvc q.metadata.name (q.spec.volume_name.getD "")] ++
          [LogEntry.pvNotAvailable (q.spec.volume_name.getD "")], ?_⟩,
        ?_, ?_, ?_, ?_, ?_⟩
      · rw [← h, logLine_trace, htrw]
        rfl
      · intro e he
        rcases List.mem_cons.mp he with he | he
        · rw [he]
          exact Or.inl rfl
        rcases List.mem_cons.mp he with he | he
        · rw [he]
          exact Or.inr (Or.inl ⟨_, rfl⟩)
        · exact Or.inr (Or.inr (Or.inl ⟨_, hevw e he⟩))
      · intro hu
        exact absurd hu hub
      · rw [← h, logLine_log, hlw, List.append_assoc]
      all_goals
        rw [← h, logLine_cluster, hcw]
        simp
    · rename_i stw heq
      obtain ⟨hcw, hlw, hclkw, evsw, htrw, hlenw, hevw⟩ :=
        wait_ok_frame env _ 30 _ _ _ heq
      rw [hchain, List.append_assoc] at htrw
      rw [pvcChain_log] at hlw
      split at h
      · rename_i x heq2
        simp only [Except.ok.injEq] at h
        have hx : x = (runCall env
            (.createPvc tgt (clonePvc q (q.spec.volume_name.getD "")).metadata.name)
            (createPvcNat tgt (clonePvc q (q.spec.volume_name.getD ""))) stw).2 := by
          rw [heq2]
        refine ⟨⟨(ApiCall.deletePvc src q.metadata.name, o1) ::
            (ApiCall.patchPv (q.spec.volume_name.getD ""), o2) :: (evsw ++
              [(ApiCall.createPvc tgt q.metadata.name,
                (runCall env
                  (.createPvc tgt (clonePvc q (q.spec.volume_name.getD "")).metadata.name)
                  (createPvcNat tgt (clonePvc q (q.spec.volume_name.getD ""))) stw).1)]), ?_, ?_, ?_⟩,
          ⟨[LogEntry.migratingPvc q.metadata.name (q.spec.volume_name.getD "")] ++
            [LogEntry.pvcMigrated q.metadata.name], ?_⟩, ?_, ?_, ?_, ?_, ?_⟩
        · rw [← h, logLine_trace, hx, runCall_trace, htrw]
          simp [clonePvc]
        · intro e he
          rcases List.mem_cons.mp he with he | he
          · rw [he]
            exact Or.inl rfl
          rcases List.mem_cons.mp he with he | he
          · rw [he]
            exact Or.inr (Or.inl ⟨_, rfl⟩)
          rcases List.mem_append.mp he with he | he
          · exact Or.inr (Or.inr (Or.inl ⟨_, hevw e he⟩))
          · rw [List.mem_singleton.mp he]
            exact Or.inr (Or.inr (Or.inr rfl))
        · intro hu
          exact absurd hu hub
        · rw [← h, logLine_log, hx, runCall_snd_log, hlw, List.append_assoc]
        all_goals
          rw [← h, logLine_cluster, hx]
          simp [hcw]
      · rename_i s x heq2
        split at h
        · simp only [Except.ok.injEq] at h
          have hx : x = (runCall env
              (.createPvc tgt (clonePvc q (q.spec.volume_name.getD "")).metadata.name)
              (createPvcNat tgt (clonePvc q (q.spec.volume_name.getD ""))) stw).2 := by
            rw [heq2]
          refine ⟨⟨(ApiCall.deletePvc src q.metadata.name, o1) ::
              (ApiCall.patchPv (q.spec.volume_name.getD ""), o2) :: (evsw ++
                [(ApiCall.createPvc tgt q.metadata.name,
                  (runCall env
                    (.createPvc tgt (clonePvc q (q.spec.volume_name.getD "")).metadata.name)
                    (createPvcNat tgt (clonePvc q (q.spec.volume_name.getD ""))) stw).1)]), ?_, ?_, ?_⟩,
            ⟨[LogEntry.migratingPvc q.metadata.name (q.spec.volume_name.getD "")], ?_⟩,
            ?_, ?_, ?_, ?_, ?_⟩
          · rw [← h, hx, runCall_trace, htrw]
            simp [clonePvc]
          · intro e he
            rcases List.mem_cons.mp he with he | he
            · rw [he]
              exact Or.inl rfl
            rcases List.mem_cons.mp he with he | he
            · rw [he]
              exact Or.inr (Or.inl ⟨_, rfl⟩)
            rcases List.mem_append.mp he with he | he
            · exact Or.inr (Or.inr (Or.inl ⟨_, hevw e he⟩))
            · rw [List.mem_singleton.mp he]
              exact Or.inr (Or.inr (Or.inr rfl))
          · intro hu
            exact absurd hu hub
          · rw [← h, hx, runCall_snd_log, hlw]
          all_goals
            rw [← h, hx]
            simp [hcw]
        · exact absurd h (by simp)

/-- Frame of the whole PVC stage loop: only claim-item calls of listed
bound claims are issued, the log only grows, and the other resource
kinds are untouched. -/
lemma pvcLoop_frame (env : Env) (src tgt : String) :
    ∀ (l : List Pvc) (st st1 : ExecState),
      pvcLoop env src tgt l st = .ok st1 →
      (∃ evs, st1.trace = st.trace ++ evs ∧
        ∀ e ∈ evs, ∃ q, q ∈ l ∧ unboundVolumeName q.spec.volume_name = false ∧
          pvcItemCall src tgt q e.1) ∧
      (∃ lg, st1.log = st.log ++ lg) ∧
      st1.cluster.namespaces = st.cluster.namespaces ∧
      st1.cluster.configMaps = st.cluster.configMaps ∧
      st1.cluster.secrets = st.cluster.secrets ∧
      st1.cluster.deployments = st.cluster.deployments ∧
      st1.cluster.statefulSets = st.cluster.statefulSets := by
  intro l
  induction l with
  | nil =>
      intro st st1 h
      simp only [pvcLoop, Except.ok.injEq] at h
      rw [← h]
      exact ⟨⟨[], by simp, by simp⟩, ⟨[], by simp⟩, rfl, rfl, rfl, rfl, rfl⟩
  | cons q rest ih =>
      intro st st1 h
      rw [pvcLoop] at h
      split at h
      · exact absurd h (by simp)
      · rename_i st2 heq
        obtain ⟨⟨evs1, htr1, hsh1, hu1⟩, ⟨lg1, hlg1⟩, hns1, hcm1, hsec1, hdep1, hsts1⟩ :=
          migrateOnePvc_frame env src tgt q st st2 heq
        obtain ⟨⟨evs, htr, hsh⟩, ⟨lg, hlg⟩, hns, hcm, hsec, hdep, hsts⟩ :=
          ih st2 st1 h
        refine ⟨⟨evs1 ++ evs, by rw [htr, htr1, List.append_assoc], ?_⟩,
          ⟨lg1 ++ lg, by rw [hlg, hlg1, List.append_assoc]⟩, by rw [hns, hns1],
          by rw [hcm, hcm1], by rw [hsec, hsec1], by rw [hdep, hdep1],
          by rw [hsts, hsts1]⟩
        intro e he
        rcases List.mem_append.mp he with he | he
        · by_cases hub : unboundVolumeName q.spec.volume_name = true
          · rw [hu1 hub] at he
            exact absurd he (List.not_mem_nil e)
          · exact ⟨q, List.mem_cons_self _ _, Bool.eq_false_iff.mpr hub, hsh1 e he⟩
        · obtain ⟨q2, hq2, hb2, hc2⟩ := hsh e he
          exact ⟨q2, List.mem_cons_of_mem _ hq2, hb2, hc2⟩

lemma runCall_delPvc_preserved (env : Env) (c : ApiCall) (ns name : String)
    (st : ExecState) (p : Pvc) (hp : p ∈ st.cluster.pvcs)
    (hne : (p.metadata.ns == ns && p.metadata.name == name) = false) :
    p ∈ (runCall env c (deletePvcNat ns name) st).2.cluster.pvcs := by
  rcases runCall_cluster env c (deletePvcNat ns name) st with h | h <;> rw [h]
  · exact hp
  · rw [deletePvcNat_pvcs]
    exact List.mem_filter.mpr ⟨hp, by simp [hne]⟩

lemma runCall_crePvc_preserved (env : Env) (c : ApiCall) (ns : String)
    (obj : Pvc) (st : ExecState) (p : Pvc) (hp : p ∈ st.cluster.pvcs) :
    p ∈ (runCall env c (createPvcNat ns obj) st).2.cluster.pvcs := by
  rcases runCall_cluster env c (createPvcNat ns obj) st with h | h <;> rw [h]
  · exact hp
  · unfold createPvcNat
    split
    · exact hp
    · simp only [List.mem_append]
      exact Or.inl hp

/-- A claim whose namespace-and-name key differs from the migrated one
survives the migration of that one claim. -/
lemma migrateOnePvc_pvc_preserved (env : Env) (src tgt : String) (q : Pvc)
    (st st1 : ExecState) (h : migrateOnePvc env src tgt q st = .ok st1)
    (p : Pvc) (hp : p ∈ st.cluster.pvcs)
    (hne0 : unboundVolumeName q.spec.volume_name = false →
      (p.metadata.ns == src && p.metadata.name == q.metadata.name) = false) :
    p ∈ st1.cluster.pvcs := by
  by_cases hub : unboundVolumeName q.spec.volume_name = true
  · rw [migrateOnePvc_unbound env src tgt q st hub] at h
    simp only [Except.ok.injEq] at h
    rw [← h]
    simpa using hp
  · have hne := hne0 (Bool.eq_false_iff.mpr hub)
    simp only [migrateOnePvc] at h
    rw [if_neg hub] at h
    split at h
    · exact absurd h (by simp)
    · rename_i stw heq
      simp only [Except.ok.injEq] at h
      rw [← h, logLine_cluster, (wait_ok_frame env _ 30 _ _ _ heq).1]
      simp only [runCall_patchPvNat_pvcs, sleep_cluster]
      exact runCall_delPvc_preserved env _ src q.metadata.name _ p hp hne
    · rename_i stw heq
      have hp2 : p ∈ stw.cluster.pvcs := by
        rw [(wait_ok_frame env _ 30 _ _ _ heq).1]
        simp only [runCall_patchPvNat_pvcs, sleep_cluster]
        exact runCall_delPvc_preserved env _ src q.metadata.name _ p hp hne
      split at h
      · rename_i x heq2
        simp only [Except.ok.injEq] at h
        have hx : x = (runCall env
            (.createPvc tgt (clonePvc q (q.spec.volume_name.getD "")).metadata.name)
            (createPvcNat tgt (clonePvc q (q.spec.volume_name.getD ""))) stw).2 := by
          rw [heq2]
        rw [← h, logLine_cluster, hx]
        exact runCall_crePvc_preserved env _ tgt _ stw p hp2
      · rename_i s x heq2
        split at h
        · simp only [Except.ok.injEq] at h
          have hx : x = (runCall env
              (.createPvc tgt (clonePvc q (q.spec.volume_name.getD "")).metadata.name)
              (createPvcNat tgt (clonePvc q (q.spec.volume_name.getD ""))) stw).2 := by
            rw [heq2]
          rw [← h, hx]
          exact runCall_crePvc_preserved env _ tgt _ stw p hp2
        · exact absurd h (by simp)

lemma pvcLoop_pvc_preserved (env : Env) (src tgt : String) :
    ∀ (l : List Pvc) (st st1 : ExecState),
      pvcLoop env src tgt l st = .ok st1 →
      ∀ p, p ∈ st.cluster.pvcs →
      (∀ q ∈ l, unboundVolumeName q.spec.volume_name = false →
        (p.metadata.ns == src && p.metadata.name == q.metadata.name) = false) →
      p ∈ st1.cluster.pvcs := by
  intro l
  induction l with
  | nil =>
      intro st st1 h p hp _
      simp only [pvcLoop, Except.ok.injEq] at h
      rw [← h]
      exact hp
  | cons q rest ih =>
      intro st st1 h p hp hne
      rw [pvcLoop] at h
      split at h
      · exact absurd h (by simp)
      · rename_i st2 heq
        exact ih st2 st1 h p
          (migrateOnePvc_pvc_preserved env src tgt q st st2 heq p hp
            (hne q (List.mem_cons_self _ _)))
          (fun q2 hq2 => hne q2 (List.mem_cons_of_mem _ hq2))


/-- The skip line of an unbound listed claim is in the log when the PVC
stage finishes. -/
lemma pvcLoop_skip_logged (env : Env) (src tgt : String) :
    ∀ (l : List Pvc) (st st1 : ExecState),
      pvcLoop env src tgt l st = .ok st1 →
      ∀ q ∈ l, unboundVolumeName q.spec.volume_name = true →
      LogEntry.pvcNotBoundSkipping q.metadata.name ∈ st1.log := by
  intro l
  induction l with
  | nil =>
      intro st st1 h q hq
      exact absurd hq (List.not_mem_nil q)
  | cons q0 rest ih =>
      intro st st1 h q hq hub
      rw [pvcLoop] at h
      split at h
      · exact absurd h (by simp)
      · rename_i st2 heq
        rcases List.mem_cons.mp hq with hq | hq
        · subst hq
          rw [migrateOnePvc_unbound env src tgt q st hub] at heq
          simp only [Except.ok.injEq] at heq
          obtain ⟨_, ⟨lg, hlg⟩, _⟩ := pvcLoop_frame env src tgt rest st2 st1 h
          rw [hlg, ← heq, logLine_log]
          simp
        · exact ih st2 st1 h q hq hub

/-- Every claim on the cluster after one claim migration step was
already there or is the clone stored in the target namespace. -/
lemma migrateOnePvc_pvcs_mem (env : Env) (src tgt : String) (pvc : Pvc)
    (st st1 : ExecState) (h : migrateOnePvc env src tgt pvc st = .ok st1) :
    ∀ p ∈ st1.cluster.pvcs, p ∈ st.cluster.pvcs ∨ p = cloneInTarget pvc tgt := by
  intro p hp
  unfold migrateOnePvc at h
  by_cases hub : unboundVolumeName pvc.spec.volume_name = true
  · rw [if_pos hub] at h
    simp only [Except.ok.injEq] at h
    rw [← h] at hp
    exact Or.inl (by simpa using hp)
  · rw [if_neg hub] at h
    simp only [] at h
    split at h
    · exact absurd h (by simp)
    · rename_i stw heq
      simp only [Except.ok.injEq] at h
      rw [← h] at hp
      simp only [logLine_cluster] at hp
      have hc := (wait_ok_frame env _ 30 _ _ _ heq).1
      rw [hc] at hp
      simp only [runCall_patchPv_pvcs, sleep_cluster] at hp
      have hd := runCall_delPvc_mem env _ src pvc.metadata.name _ p hp
      simp only [logLine_cluster] at hd
      exact Or.inl hd
    · rename_i stw heq
      split at h
      · rename_i x heq2
        simp only [Except.ok.injEq] at h
        rw [← h] at hp
        simp only [logLine_cluster] at hp
        have hx : x = (runCall env
            (.createPvc tgt (clonePvc pvc (pvc.spec.volume_name.getD "")).metadata.name)
            (createPvcNat tgt (clonePvc pvc (pvc.spec.volume_name.getD ""))) stw).2 := by
          rw [heq2]
        rw [hx] at hp
        rcases runCall_crePvc_mem env _ tgt _ stw p hp with hmem | hclone
        · have hc := (wait_ok_frame env _ 30 _ _ _ heq).1
          rw [hc] at hmem
          simp only [runCall_patchPv_pvcs, sleep_cluster] at hmem
          have hd := runCall_delPvc_mem env _ src pvc.metadata.name _ p hmem
          simp only [logLine_cluster] at hd
          exact Or.inl hd
        · exact Or.inr hclone
      · rename_i s x heq2
        split at h
        · simp only [Except.ok.injEq] at h
          rw [← h] at hp
          have hx : x = (runCall env
              (.createPvc tgt (clonePvc pvc (pvc.spec.volume_name.getD "")).metadata.name)
              (createPvcNat tgt (clonePvc pvc (pvc.spec.volume_name.getD ""))) stw).2 := by
            rw [heq2]
          rw [hx] at hp
          rcases runCall_crePvc_mem env _ tgt _ stw p hp with hmem | hclone
          · have hc := (wait_ok_frame env _ 30 _ _ _ heq).1
            rw [hc] at hmem
            simp only [runCall_patchPv_pvcs, sleep_cluster] at hmem
            have hd := runCall_delPvc_mem env _ src pvc.metadata.name _ p hmem
            simp only [logLine_cluster] at hd
            exact Or.inl hd
          · exact Or.inr hclone
        · exact absurd h (by simp)

lemma pvcLoop_pvcs_mem (env : Env) (src tgt : String) :
    ∀ (l : List Pvc) (st st1 : ExecState),
      pvcLoop env src tgt l st = .ok st1 →
      ∀ p ∈ st1.cluster.pvcs,
        p ∈ st.cluster.pvcs ∨ ∃ q ∈ l, p = cloneInTarget q tgt := by
  intro l
  induction l with
  | nil =>
      intro st st1 h p hp
      simp only [pvcLoop, Except.ok.injEq] at h
      rw [← h] at hp
      exact Or.inl hp
  | cons pvc rest ih =>
      intro st st1 h p hp
      rw [pvcLoop] at h
      split at h
      · exact absurd h (by simp)
      · rename_i st2 heq
        rcases ih st2 st1 h p hp with h2 | ⟨q, hq, hclone⟩
        · rcases migrateOnePvc_pvcs_mem env src tgt pvc st st2 heq p h2 with h3 | h3
          · exact Or.inl h3
          · exact Or.inr ⟨pvc, List.mem_cons_self _ _, h3⟩
        · exact Or.inr ⟨q, List.mem_cons_of_mem _ hq, hclone⟩

/-- C10: a claim created in the target namespace by the PVC stage is
rebuilt from scratch: it carries only the source claim's name, access
modes, resource requests, storage class and volume mode, its volume
name is the rebound volume, and every other field — labels,
annotations, selector, resource version, uid — is absent. -/
theorem pvc_clone_carries_only_listed_fields (env : Env) (src tgt : String)
    (st st1 : ExecState) (h : pvcStage env src tgt st = .ok st1)
    (p : Pvc) (hp : p ∈ st1.cluster.pvcs) (hnew : p ∉ st.cluster.pvcs) :
    ∃ q, q ∈ listPvcs src st.cluster ∧
      p.metadata.name = q.metadata.name ∧
      p.metadata.ns = tgt ∧
      p.metadata.resource_version = none ∧
      p.metadata.uid = none ∧
      p.metadata.labels = [] ∧
      p.metadata.annotations = [] ∧
      p.spec.selector = none ∧
      p.spec.access_modes = q.spec.access_modes ∧
      p.spec.resources = q.spec.resources ∧
      p.spec.storage_class_name = q.spec.storage_class_name ∧
      p.spec.volume_mode = q.spec.volume_mode ∧
      p.spec.volume_name = some (q.spec.volume_name.getD "") := by
  unfold pvcStage at h
  rcases pvcLoop_pvcs_mem env src tgt _ st st1 h p hp with h2 | ⟨q, hq, hclone⟩
  · exact absurd h2 hnew
  · subst hclone
    exact ⟨q, hq, rfl, rfl, rfl, rfl, rfl, rfl, rfl, rfl, rfl, rfl, rfl, rfl⟩

theorem pvc_clone_carries_only_listed_fields_witness :
    ∃ q, q ∈ listPvcs "a" exSt.cluster ∧
      exMigratedPvc.metadata.name = q.metadata.name ∧
      exMigratedPvc.metadata.ns = "b" ∧
      exMigratedPvc.metadata.resource_version = none ∧
      exMigratedPvc.metadata.uid = none ∧
      exMigratedPvc.metadata.labels = [] ∧
      exMigratedPvc.metadata.annotations = [] ∧
      exMigratedPvc.spec.selector = none ∧
      exMigratedPvc.spec.access_modes = q.spec.access_modes ∧
      exMigratedPvc.spec.resources = q.spec.resources ∧
      exMigratedPvc.spec.storage_class_name = q.spec.storage_class_name ∧
      exMigratedPvc.spec.volume_mode = q.spec.volume_mode ∧
      exMigratedPvc.spec.volume_name = some (q.spec.volume_name.getD "") :=
  pvc_clone_carries_only_listed_fields exEnv "a" "b" exSt exAfterPvcStage
    (by decide) exMigratedPvc (by decide) (by decide)

lemma listPvcs_congr (ns : String) (c c2 : Cluster) (h : c.pvcs = c2.pvcs) :
    listPvcs ns c = listPvcs ns c2 := by
  unfold listPvcs
  rw [h]

/-- Frame of a successful namespace-ensure: one create call, the log
only grows, and every resource list of the cluster is untouched. -/
lemma ensure_ok_frame (env : Env) (tgt : String) (st st1 : ExecState)
    (h : ensureTargetNamespace env tgt st = .ok st1) :
    (∃ o, st1.trace = st.trace ++ [(ApiCall.createNamespace tgt, o)]) ∧
    (∃ lg, st1.log = st.log ++ lg) ∧
    st1.clock = st.clock ∧
    st1.cluster.pvcs = st.cluster.pvcs ∧
    st1.cluster.pvs = st.cluster.pvs ∧
    st1.cluster.configMaps = st.cluster.configMaps ∧
    st1.cluster.secrets = st.cluster.secrets ∧
    st1.cluster.deployments = st.cluster.deployments ∧
    st1.cluster.statefulSets = st.cluster.statefulSets := by
  unfold ensureTargetNamespace at h
  split at h
  · rename_i x heq
    simp only [Except.ok.injEq] at h
    have hx : x = (runCall env (.createNamespace tgt) (createNamespaceNat tgt) st).2 := by
      rw [heq]
    rw [← h, hx]
    refine ⟨⟨(runCall env (.createNamespace tgt) (createNamespaceNat tgt) st).1, ?_⟩,
      ⟨[LogEntry.createdNamespace tgt], ?_⟩, ?_, ?_, ?_, ?_, ?_, ?_, ?_⟩
    · rw [logLine_trace, runCall_trace]
    · rw [logLine_log, runCall_snd_log]
    · rw [logLine_clock, runCall_snd_clock]
    all_goals
      rw [logLine_cluster]
      simp
  · rename_i s x heq
    split at h
    · simp only [Except.ok.injEq] at h
      have hx : x = (runCall env (.createNamespace tgt) (createNamespaceNat tgt) st).2 := by
        rw [heq]
      rw [← h, hx]
      refine ⟨⟨(runCall env (.createNamespace tgt) (createNamespaceNat tgt) st).1, ?_⟩,
        ⟨[], ?_⟩, ?_, ?_, ?_, ?_, ?_, ?_, ?_⟩
      · rw [runCall_trace]
      · rw [runCall_snd_log, List.append_nil]
      · rw [runCall_snd_clock]
      all_goals simp
    · exact absurd h (by simp)

/-- A successful run decomposes into its stages. -/
lemma migrate_ok_decompose (env : Env) (src tgt : String)
    (st st1 : ExecState) (r : PyNone)
    (h : migrate_namespace env src tgt st = .ok (st1, r)) :
    ∃ stA stP,
      ensureTargetNamespace env tgt (logLine st (.startingMigration src tgt)) = .ok stA ∧
      pvcStage env src tgt (sleep 5 (scaleDownStage env src stA)) = .ok stP ∧
      st1 = logLine (statefulSetStage env src tgt (deploymentStage env src tgt
        (secretStage env src tgt (configMapStage env src tgt stP)))) .migrationCompleted ∧
      r = PyNone.none := by
  simp only [migrate_namespace] at h
  split at h
  · exact absurd h (by simp)
  · rename_i stA hE
    split at h
    · exact absurd h (by simp)
    · rename_i stP hP
      simp only [Except.ok.injEq, Prod.mk.injEq] at h
      exact ⟨stA, stP, hE, hP, h.1.symm, by cases r; rfl⟩

/-- C4: a PersistentVolumeClaim of the source namespace with no bound
volume name is classified as skipped: the skip line is logged, the
claim object survives the run untouched, and the run issues no delete
call for it in the source and no create call for its name in the
target (claim names are assumed unique within the source namespace, as
on a real cluster). -/
theorem unbound_claim_is_skipped_untouched (env : Env) (src tgt : String)
    (st st1 : ExecState) (r : PyNone)
    (h : migrate_namespace env src tgt st = .ok (st1, r))
    (pvc : Pvc) (hmem : pvc ∈ st.cluster.pvcs) (hns : pvc.metadata.ns = src)
    (hub : unboundVolumeName pvc.spec.volume_name = true)
    (hdistinct : ∀ q ∈ listPvcs src st.cluster,
      q.metadata.name = pvc.metadata.name → q = pvc) :
    pvc ∈ st1.cluster.pvcs ∧
    LogEntry.pvcNotBoundSkipping pvc.metadata.name ∈ st1.log ∧
    ∃ evs, st1.trace = st.trace ++ evs ∧
      (∀ o, (ApiCall.deletePvc src pvc.metadata.name, o) ∉ evs) ∧
      (∀ o, (ApiCall.createPvc tgt pvc.metadata.name, o) ∉ evs) := by
  obtain ⟨stA, stP, hE, hP, hfin, hr⟩ := migrate_ok_decompose env src tgt st st1 r h
  obtain ⟨⟨o0, htr0⟩, ⟨lg0, hlg0⟩, hclk0, hpvc0, hpv0, hcm0, hsec0, hdep0, hsts0⟩ :=
    ensure_ok_frame env tgt _ stA hE
  rw [logLine_trace] at htr0
  rw [logLine_log] at hlg0
  rw [logLine_cluster] at hpvc0
  obtain ⟨⟨evs1, htr1, hsh1⟩, ⟨lg1, hlg1⟩, hns1, hpvc1, hpv1, hcmS1, hsec1, hdep1⟩ :=
    scaleDownLoop_frame env src (listStatefulSets src stA.cluster) stA
  have htr1a : (scaleDownStage env src stA).trace = stA.trace ++ evs1 := htr1
  have hpvc1a : (scaleDownStage env src stA).cluster.pvcs = stA.cluster.pvcs := hpvc1
  have hP2 : pvcLoop env src tgt
      (listPvcs src (sleep 5 (scaleDownStage env src stA)).cluster)
      (sleep 5 (scaleDownStage env src stA)) = .ok stP := hP
  have hpvcB : (sleep 5 (scaleDownStage env src stA)).cluster.pvcs = st.cluster.pvcs := by
    rw [sleep_cluster, hpvc1a, hpvc0]
  have hlist : listPvcs src (sleep 5 (scaleDownStage env src stA)).cluster =
      listPvcs src st.cluster :=
    listPvcs_congr src _ _ (by rw [hpvcB])
  obtain ⟨⟨evs2, htr2, hsh2⟩, ⟨lg2, hlg2⟩, hnsP, hcmP, hsecP, hdepP, hstsP⟩ :=
    pvcLoop_frame env src tgt _ _ stP hP2
  obtain ⟨⟨evs3, htr3, hsh3⟩, ⟨lg3, hlg3⟩, _, hpvc3, _, _, _, _⟩ :=
    configMapLoop_frame env tgt (listConfigMaps src stP.cluster) stP
  have htr3a : (configMapStage env src tgt stP).trace = stP.trace ++ evs3 := htr3
  have hlg3a : (configMapStage env src tgt stP).log = stP.log ++ lg3 := hlg3
  have hpvc3a : (configMapStage env src tgt stP).cluster.pvcs = stP.cluster.pvcs := hpvc3
  obtain ⟨⟨evs4, htr4, hsh4⟩, ⟨lg4, hlg4⟩, _, hpvc4, _, _, _, _⟩ :=
    secretLoop_frame env tgt
      (listSecrets src (configMapStage env src tgt stP).cluster)
      (configMapStage env src tgt stP)
  have htr4a : (secretStage env src tgt (configMapStage env src tgt stP)).trace =
      (configMapStage env src tgt stP).trace ++ evs4 := htr4
  have hlg4a : (secretStage env src tgt (configMapStage env src tgt stP)).log =
      (configMapStage env src tgt stP).log ++ lg4 := hlg4
  have hpvc4a : (secretStage env src tgt (configMapStage env src tgt stP)).cluster.pvcs =
      (configMapStage env src tgt stP).cluster.pvcs := hpvc4
  obtain ⟨⟨evs5, htr5, hsh5⟩, ⟨lg5, hlg5⟩, _, hpvc5, _, _, _, _⟩ :=
    deploymentLoop_frame env src tgt
      (listDeployments src (secretStage env src tgt (configMapStage env src tgt stP)).cluster)
      (secretStage env src tgt (configMapStage env src tgt stP))
  have htr5a : (deploymentStage env src tgt (secretStage env src tgt
      (configMapStage env src tgt stP))).trace =
      (secretStage env src tgt (configMapStage env src tgt stP)).trace ++ evs5 := htr5
  have hlg5a : (deploymentStage env src tgt (secretStage env src tgt
      (configMapStage env src tgt stP))).log =
      (secretStage env src tgt (configMapStage env src tgt stP)).log ++ lg5 := hlg5
  have hpvc5a : (deploymentStage env src tgt (secretStage env src tgt
      (configMapStage env src tgt stP))).cluster.pvcs =
      (secretStage env src tgt (configMapStage env src tgt stP)).cluster.pvcs := hpvc5
  obtain ⟨⟨evs6, htr6, hsh6⟩, ⟨lg6, hlg6⟩, _, hpvc6, _, _, _, _⟩ :=
    statefulSetLoop_frame env src tgt
      (listStatefulSets src (deploymentStage env src tgt
        (secretStage env src tgt (configMapStage env src tgt stP))).cluster)
      (deploymentStage env src tgt (secretStage env src tgt (configMapStage env src tgt stP)))
  have htr6a : (statefulSetStage env src tgt (deploymentStage env src tgt
      (secretStage env src tgt (configMapStage env src tgt stP)))).trace =
      (deploymentStage env src tgt (secretStage env src tgt
        (configMapStage env src tgt stP))).trace ++ evs6 := htr6
  have hlg6a : (statefulSetStage env src tgt (deploymentStage env src tgt
      (secretStage env src tgt (configMapStage env src tgt stP)))).log =
      (deploymentStage env src tgt (secretStage env src tgt
        (configMapStage env src tgt stP))).log ++ lg6 := hlg6
  have hpvc6a : (statefulSetStage env src tgt (deploymentStage env src tgt
      (secretStage env src tgt (configMapStage env src tgt stP)))).cluster.pvcs =
      (deploymentStage env src tgt (secretStage env src tgt
        (configMapStage env src tgt stP))).cluster.pvcs := hpvc6
  have hmemP : pvc ∈ stP.cluster.pvcs := by
    refine pvcLoop_pvc_preserved env src tgt _ _ stP hP2 pvc (by rw [hpvcB]; exact hmem) ?_
    intro q hq hbq
    rw [hlist] at hq
    by_contra hkey
    simp only [Bool.not_eq_false, Bool.and_eq_true, beq_iff_eq] at hkey
    have hqe := hdistinct q hq hkey.2.symm
    rw [hqe, hub] at hbq
    exact absurd hbq (by simp)
  have hskip : LogEntry.pvcNotBoundSkipping pvc.metadata.name ∈ stP.log := by
    refine pvcLoop_skip_logged env src tgt _ _ stP hP2 pvc ?_ hub
    rw [hlist]
    unfold listPvcs
    exact List.mem_filter.mpr ⟨hmem, by simp [hns]⟩
  refine ⟨?_, ?_, ?_⟩
  · rw [hfin, logLine_cluster, hpvc6a, hpvc5a, hpvc4a, hpvc3a]
    exact hmemP
  · rw [hfin, logLine_log, hlg6a, hlg5a, hlg4a, hlg3a]
    simp only [List.mem_append]
    exact Or.inl (Or.inl (Or.inl (Or.inl (Or.inl hskip))))
  · refine ⟨[(ApiCall.createNamespace tgt, o0)] ++ evs1 ++ evs2 ++ evs3 ++ evs4 ++
      evs5 ++ evs6, ?_, ?_, ?_⟩
    · rw [hfin, logLine_trace, htr6a, htr5a, htr4a, htr3a, htr2, sleep_trace,
        htr1a, htr0]
      simp [List.append_assoc]
    · intro o hoin
      simp only [List.append_assoc, List.mem_append, List.mem_singleton] at hoin
      rcases hoin with h0 | h1 | h2 | h3 | h4 | h5 | h6
      · exact absurd h0 (by simp)
      · obtain ⟨n, hn⟩ := hsh1 _ h1
        exact absurd hn (by simp)
      · obtain ⟨q, hq, hbq, hcall⟩ := hsh2 _ h2
        rw [hlist] at hq
        simp only [pvcItemCall] at hcall
        rcases hcall with hc | ⟨pv, hc⟩ | ⟨pv, hc⟩ | hc
        · simp only [ApiCall.deletePvc.injEq] at hc
          have hqe := hdistinct q hq hc.2.symm
          rw [hqe, hub] at hbq
          exact absurd hbq (by simp)
        · exact absurd hc (by simp)
        · exact absurd hc (by simp)
        · exact absurd hc (by simp)
      · obtain ⟨n, hn⟩ := hsh3 _ h3
        exact absurd hn (by simp)
      · obtain ⟨n, hn⟩ := hsh4 _ h4
        exact absurd hn (by simp)
      · rcases hsh5 _ h5 with ⟨n, hn⟩ | ⟨n, hn⟩ <;> exact absurd hn (by simp)
      · rcases hsh6 _ h6 with ⟨n, hn⟩ | ⟨n, hn⟩ <;> exact absurd hn (by simp)
    · intro o hoin
      simp only [List.append_assoc, List.mem_append, List.mem_singleton] at hoin
      rcases hoin with h0 | h1 | h2 | h3 | h4 | h5 | h6
      · exact absurd h0 (by simp)
      · obtain ⟨n, hn⟩ := hsh1 _ h1
        exact absurd hn (by simp)
      · obtain ⟨q, hq, hbq, hcall⟩ := hsh2 _ h2
        rw [hlist] at hq
        simp only [pvcItemCall] at hcall
        rcases hcall with hc | ⟨pv, hc⟩ | ⟨pv, hc⟩ | hc
        · exact absurd hc (by simp)
        · exact absurd hc (by simp)
        · exact absurd hc (by simp)
        · simp only [ApiCall.createPvc.injEq] at hc
          have hqe := hdistinct q hq hc.2.symm
          rw [hqe, hub] at hbq
          exact absurd hbq (by simp)
      · obtain ⟨n, hn⟩ := hsh3 _ h3
        exact absurd hn (by simp)
      · obtain ⟨n, hn⟩ := hsh4 _ h4
        exact absurd hn (by simp)
      · rcases hsh5 _ h5 with ⟨n, hn⟩ | ⟨n, hn⟩ <;> exact absurd hn (by simp)
      · rcases hsh6 _ h6 with ⟨n, hn⟩ | ⟨n, hn⟩ <;> exact absurd hn (by simp)

/-- A volume whose PersistentVolume record exists but whose phase never
reads Available: the poll reads exactly as many times as the attempt
bound permits, sleeping one second after each failed read, and gives
up. -/
lemma wait_stuck (env : Env) (pv : String) (hf : env.faults (.readPv pv) = none) :
    ∀ (t : Nat) (st : ExecState),
      pvExists st.cluster pv = true →
      (∀ i, i < t → env.phase pv (st.clock + i) ≠ "Available") →
      ∃ st1, wait_for_pv_available env pv t st = .ok (false, st1) ∧
        st1.cluster = st.cluster ∧ st1.log = st.log ∧
        st1.clock = st.clock + t ∧
        st1.trace = st.trace ++
          List.replicate t (ApiCall.readPv pv, ApiOutcome.success) := by
  intro t
  induction t with
  | zero =>
      intro st hex h
      exact ⟨st, by simp [wait_for_pv_available], rfl, rfl, by simp, by simp⟩
  | succ t ih =>
      intro st hex h
      have hread : apiReadPv env pv st =
          (.ok (env.phase pv st.clock), pushTrace st (.readPv pv) .success) := by
        unfold apiReadPv
        simp only [hf]
        rw [if_pos hex]
      obtain ⟨st1, hw, hc, hl, hk, htr⟩ :=
        ih (sleep 1 (pushTrace st (.readPv pv) .success))
          (by simpa using hex)
          (by
            intro i hi
            have h2 := h (i + 1) (by omega)
            have he : st.clock + (i + 1) =
                (sleep 1 (pushTrace st (.readPv pv) .success)).clock + i := by
              simp only [sleep_clock, pushTrace_clock]
              omega
            rwa [he] at h2)
      refine ⟨st1, ?_, by simpa using hc, by simpa using hl, ?_, ?_⟩
      · rw [wait_for_pv_available, hread]
        show (if env.phase pv st.clock = "Available" then
            Except.ok (true, pushTrace st (.readPv pv) .success)
          else wait_for_pv_available env pv t
            (sleep 1 (pushTrace st (.readPv pv) .success))) = _
        have h0 : ¬ env.phase pv st.clock = "Available" := by
          have h1 := h 0 (by omega)
          simpa using h1
        rw [if_neg h0]
        exact hw
      · simp only [sleep_clock, pushTrace_clock] at hk
        omega
      · rw [htr]
        simp only [sleep_trace, pushTrace_trace, List.append_assoc,
          List.replicate_succ]
        rfl

/-- Every bound claim in the list has its source delete attempted when
the loop finishes, regardless of the other claims' outcomes. -/
lemma pvcLoop_attempts (env : Env) (src tgt : String) :
    ∀ (l : List Pvc) (st st1 : ExecState),
      pvcLoop env src tgt l st = .ok st1 →
      ∀ q ∈ l, unboundVolumeName q.spec.volume_name = false →
      ∃ o, (ApiCall.deletePvc src q.metadata.name, o) ∈ st1.trace := by
  intro l
  induction l with
  | nil =>
      intro st st1 h q hq
      exact absurd hq (List.not_mem_nil q)
  | cons q0 rest ih =>
      intro st st1 h q hq hb
      rw [pvcLoop] at h
      split at h
      · exact absurd h (by simp)
      · rename_i st2 heq
        rcases List.mem_cons.mp hq with hq | hq
        · subst hq
          have hub : ¬ unboundVolumeName q.spec.volume_name = true := by
            rw [hb]
            simp
          simp only [migrateOnePvc] at heq
          rw [if_neg hub] at heq
          obtain ⟨o1, o2, hchain⟩ :=
            pvcChain_trace env src q.metadata.name (q.spec.volume_name.getD "") st
          have hdel : (ApiCall.deletePvc src q.metadata.name, o1) ∈ st2.trace := by
            split at heq
            · exact absurd heq (by simp)
            · rename_i stw hweq
              simp only [Except.ok.injEq] at heq
              obtain ⟨_, _, _, evsw, htrw, _, _⟩ := wait_ok_frame env _ 30 _ _ _ hweq
              rw [hchain] at htrw
              rw [← heq, logLine_trace, htrw]
              simp
            · rename_i stw hweq
              obtain ⟨_, _, _, evsw, htrw, _, _⟩ := wait_ok_frame env _ 30 _ _ _ hweq
              rw [hchain] at htrw
              split at heq
              · rename_i x heq2
                simp only [Except.ok.injEq] at heq
                have hx : x = (runCall env
                    (.createPvc tgt (clonePvc q (q.spec.volume_name.getD "")).metadata.name)
                    (createPvcNat tgt (clonePvc q (q.spec.volume_name.getD ""))) stw).2 := by
                  rw [heq2]
                rw [← heq, logLine_trace, hx, runCall_trace, htrw]
                simp
              · rename_i s x heq2
                split at heq
                · simp only [Except.ok.injEq] at heq
                  have hx : x = (runCall env
                      (.createPvc tgt (clonePvc q (q.spec.volume_name.getD "")).metadata.name)
                      (createPvcNat tgt (clonePvc q (q.spec.volume_name.getD ""))) stw).2 := by
                    rw [heq2]
                  rw [← heq, hx, runCall_trace, htrw]
                  simp
                · exact absurd heq (by simp)
          obtain ⟨⟨evs, htr, _⟩, _⟩ := pvcLoop_frame env src tgt rest st2 st1 h
          exact ⟨o1, by rw [htr]; exact List.mem_append_left _ hdel⟩
        · exact ih st2 st1 h q hq hb

lemma any_name_map (g : Pv → Pv) (hg : ∀ pv, (g pv).name = pv.name) (m : String) :
    ∀ l : List Pv, (l.map g).any (fun o => o.name == m) = l.any (fun o => o.name == m) := by
  intro l
  induction l with
  | nil => rfl
  | cons pv rest ih =>
      simp only [List.map_cons, List.any_cons, hg, ih]

lemma patchPvNat_pvExists (n m : String) (c : Cluster) :
    pvExists (patchPvNat n c).2 m = pvExists c m := by
  unfold patchPvNat
  split
  · unfold pvExists
    exact any_name_map _ (fun pv => by split <;> rfl) m c.pvs
  · rfl

lemma pvExists_congr (c c2 : Cluster) (h : c.pvs = c2.pvs) (m : String) :
    pvExists c m = pvExists c2 m := by
  unfold pvExists
  rw [h]

lemma runCall_patchPv_pvExists (env : Env) (c : ApiCall) (n m : String)
    (st : ExecState) :
    pvExists (runCall env c (patchPvNat n) st).2.cluster m =
      pvExists st.cluster m := by
  rcases runCall_cluster env c (patchPvNat n) st with h | h <;> rw [h]
  exact patchPvNat_pvExists n m st.cluster

/-- Migration of a bound claim whose volume never becomes Available:
the run continues past it, nothing is added to the claim list (in
particular no claim is created in the target), exactly 30 reads one
second apart happen after the fixed two-second settle, and the give-up
line is logged. -/
lemma migrateOnePvc_stuck (env : Env) (src tgt : String) (q : Pvc) (st : ExecState)
    (hb : unboundVolumeName q.spec.volume_name = false)
    (hf : env.faults (.readPv (q.spec.volume_name.getD "")) = none)
    (hpv : pvExists st.cluster (q.spec.volume_name.getD "") = true)
    (hstuck : ∀ i, env.phase (q.spec.volume_name.getD "") i ≠ "Available") :
    ∃ st1, migrateOnePvc env src tgt q st = .ok st1 ∧
      (∀ p ∈ st1.cluster.pvcs, p ∈ st.cluster.pvcs) ∧
      st1.clock = st.clock + 32 ∧
      (∃ o1 o2, st1.trace = st.trace ++
        [(ApiCall.deletePvc src q.metadata.name, o1),
         (ApiCall.patchPv (q.spec.volume_name.getD ""), o2)] ++
        List.replicate 30 (ApiCall.readPv (q.spec.volume_name.getD ""),
          ApiOutcome.success)) ∧
      LogEntry.pvNotAvailable (q.spec.volume_name.getD "") ∈ st1.log := by
  have hub : ¬ unboundVolumeName q.spec.volume_name = true := by
    rw [hb]
    simp
  have hex2 : pvExists ((runCall env (.patchPv (q.spec.volume_name.getD ""))
      (patchPvNat (q.spec.volume_name.getD ""))
      (sleep 2 ((runCall env (.deletePvc src q.metadata.name)
        (deletePvcNat src q.metadata.name)
        (logLine st (.migratingPvc q.metadata.name (q.spec.volume_name.getD "")))).2))).2).cluster
      (q.spec.volume_name.getD "") = true := by
    rw [runCall_patchPv_pvExists]
    rw [pvExists_congr _ st.cluster (by simp)]
    exact hpv
  obtain ⟨stw, hww, hcw, hlw, hkw, htrw⟩ :=
    wait_stuck env (q.spec.volume_name.getD "") hf 30 _ hex2
      (fun i _ => hstuck _)
  obtain ⟨o1, o2, hchain⟩ :=
    pvcChain_trace env src q.metadata.name (q.spec.volume_name.getD "") st
  refine ⟨logLine stw (.pvNotAvailable (q.spec.volume_name.getD "")), ?_, ?_, ?_, ?_, ?_⟩
  · simp only [migrateOnePvc]
    rw [if_neg hub, hww]
  · intro p hp
    simp only [logLine_cluster] at hp
    rw [hcw] at hp
    simp only [runCall_patchPvNat_pvcs, sleep_cluster] at hp
    have hd := runCall_delPvc_mem env _ src q.metadata.name _ p hp
    simp only [logLine_cluster] at hd
    exact hd
  · rw [logLine_clock, hkw]
    simp only [runCall_snd_clock, sleep_clock, logLine_clock]
  · refine ⟨o1, o2, ?_⟩
    rw [logLine_trace, htrw, hchain, List.append_assoc]
  · rw [logLine_log]
    simp

lemma cmStep_configMaps (env : Env) (tgt : String) (cm : ConfigMap)
    (st : ExecState) :
    ∃ added, (cmStep env tgt cm st).cluster.configMaps =
      st.cluster.configMaps ++ added ∧ ∀ x ∈ added, x.metadata.ns = tgt := by
  simp only [cmStep, afterCall_cluster]
  rcases runCall_cluster env _ (createConfigMapNat tgt _) st with h | h <;> rw [h]
  · exact ⟨[], by simp, by simp⟩
  · unfold createConfigMapNat
    split
    · exact ⟨[], by simp, by simp⟩
    · exact ⟨[_], rfl, by simp⟩

lemma configMapLoop_appends (env : Env) (tgt : String) :
    ∀ (l : List ConfigMap) (st : ExecState),
      ∃ added, (configMapLoop env tgt l st).cluster.configMaps =
        st.cluster.configMaps ++ added ∧ ∀ x ∈ added, x.metadata.ns = tgt := by
  intro l
  induction l with
  | nil =>
      intro st
      exact ⟨[], by simp [configMapLoop], by simp⟩
  | cons cm rest ih =>
      intro st
      obtain ⟨a1, h1, hn1⟩ := cmStep_configMaps env tgt cm st
      obtain ⟨a2, h2, hn2⟩ := ih (cmStep env tgt cm st)
      rw [configMapLoop]
      refine ⟨a1 ++ a2, by rw [h2, h1, List.append_assoc], ?_⟩
      intro x hx
      rcases List.mem_append.mp hx with hx | hx
      · exact hn1 x hx
      · exact hn2 x hx

lemma secretStep_secrets (env : Env) (tgt : String) (secret : Secret)
    (st : ExecState) :
    ∃ added, (secretStep env tgt secret st).cluster.secrets =
      st.cluster.secrets ++ added ∧ ∀ x ∈ added, x.metadata.ns = tgt := by
  simp only [secretStep, afterCall_cluster]
  rcases runCall_cluster env _ (createSecretNat tgt _) st with h | h <;> rw [h]
  · exact ⟨[], by simp, by simp⟩
  · unfold createSecretNat
    split
    · exact ⟨[], by simp, by simp⟩
    · exact ⟨[_], rfl, by simp⟩

lemma secretLoop_appends (env : Env) (tgt : String) :
    ∀ (l : List Secret) (st : ExecState),
      ∃ added, (secretLoop env tgt l st).cluster.secrets =
        st.cluster.secrets ++ added ∧ ∀ x ∈ added, x.metadata.ns = tgt := by
  intro l
  induction l with
  | nil =>
      intro st
      exact ⟨[], by simp [secretLoop], by simp⟩
  | cons secret rest ih =>
      intro st
      obtain ⟨a1, h1, hn1⟩ := secretStep_secrets env tgt secret st
      obtain ⟨a2, h2, hn2⟩ := ih (secretStep env tgt secret st)
      rw [secretLoop]
      refine ⟨a1 ++ a2, by rw [h2, h1, List.append_assoc], ?_⟩
      intro x hx
      rcases List.mem_append.mp hx with hx | hx
      · exact hn1 x hx
      · exact hn2 x hx

/-- C6: the ConfigMap and Secret stages only create copies in the
target namespace.  Over a whole run, every ConfigMap and Secret present
before the run — in particular every source object — is still present,
verbatim, afterwards; everything added lives in the target namespace.
The stages never issue a delete or a patch for these kinds. -/
theorem configmaps_secrets_source_untouched (env : Env) (src tgt : String)
    (st st1 : ExecState) (r : PyNone)
    (h : migrate_namespace env src tgt st = .ok (st1, r)) :
    (∃ added, st1.cluster.configMaps = st.cluster.configMaps ++ added ∧
      ∀ x ∈ added, x.metadata.ns = tgt) ∧
    (∃ added, st1.cluster.secrets = st.cluster.secrets ++ added ∧
      ∀ x ∈ added, x.metadata.ns = tgt) := by
  obtain ⟨stA, stP, hE, hP, hfin, hr⟩ := migrate_ok_decompose env src tgt st st1 r h
  obtain ⟨_, _, _, _, _, hcm0, hsec0, _, _⟩ := ensure_ok_frame env tgt _ stA hE
  rw [logLine_cluster] at hcm0 hsec0
  obtain ⟨_, _, _, _, _, hcm1, hsec1, _⟩ :=
    scaleDownLoop_frame env src (listStatefulSets src stA.cluster) stA
  have hcm1a : (scaleDownStage env src stA).cluster.configMaps =
      stA.cluster.configMaps := hcm1
  have hsec1a : (scaleDownStage env src stA).cluster.secrets = stA.cluster.secrets := hsec1
  have hP2 : pvcLoop env src tgt
      (listPvcs src (sleep 5 (scaleDownStage env src stA)).cluster)
      (sleep 5 (scaleDownStage env src stA)) = .ok stP := hP
  obtain ⟨_, _, _, hcmP, hsecP, _, _⟩ := pvcLoop_frame env src tgt _ _ stP hP2
  rw [sleep_cluster] at hcmP hsecP
  obtain ⟨a3, ha3, hn3⟩ := configMapLoop_appends env tgt (listConfigMaps src stP.cluster) stP
  have ha3a : (configMapStage env src tgt stP).cluster.configMaps =
      stP.cluster.configMaps ++ a3 := ha3
  obtain ⟨_, _, _, _, _, hsec3, _, _⟩ :=
    configMapLoop_frame env tgt (listConfigMaps src stP.cluster) stP
  have hsec3a : (configMapStage env src tgt stP).cluster.secrets =
      stP.cluster.secrets := hsec3
  obtain ⟨a4, ha4, hn4⟩ := secretLoop_appends env tgt
    (listSecrets src (configMapStage env src tgt stP).cluster)
    (configMapStage env src tgt stP)
  have ha4a : (secretStage env src tgt (configMapStage env src tgt stP)).cluster.secrets =
      (configMapStage env src tgt stP).cluster.secrets ++ a4 := ha4
  obtain ⟨_, _, _, _, _, hcm4, _, _⟩ := secretLoop_frame env tgt
    (listSecrets src (configMapStage env src tgt stP).cluster)
    (configMapStage env src tgt stP)
  have hcm4a : (secretStage env src tgt (configMapStage env src tgt stP)).cluster.configMaps =
      (configMapStage env src tgt stP).cluster.configMaps := hcm4
  obtain ⟨_, _, _, _, _, hcm5, hsec5, _⟩ := deploymentLoop_frame env src tgt
    (listDeployments src (secretStage env src tgt (configMapStage env src tgt stP)).cluster)
    (secretStage env src tgt (configMapStage env src tgt stP))
  have hcm5a : (deploymentStage env src tgt (secretStage env src tgt
      (configMapStage env src tgt stP))).cluster.configMaps =
      (secretStage env src tgt (configMapStage env src tgt stP)).cluster.configMaps := hcm5
  have hsec5a : (deploymentStage env src tgt (secretStage env src tgt
      (configMapStage env src tgt stP))).cluster.secrets =
      (secretStage env src tgt (configMapStage env src tgt stP)).cluster.secrets := hsec5
  obtain ⟨_, _, _, _, _, hcm6, hsec6, _⟩ := statefulSetLoop_frame env src tgt
    (listStatefulSets src (deploymentStage env src tgt
      (secretStage env src tgt (configMapStage env src tgt stP))).cluster)
    (deploymentStage env src tgt (secretStage env src tgt (configMapStage env src tgt stP)))
  have hcm6a : (statefulSetStage env src tgt (deploymentStage env src tgt
      (secretStage env src tgt (configMapStage env src tgt stP)))).cluster.configMaps =
      (deploymentStage env src tgt (secretStage env src tgt
        (configMapStage env src tgt stP))).cluster.configMaps := hcm6
  have hsec6a : (statefulSetStage env src tgt (deploymentStage env src tgt
      (secretStage env src tgt (configMapStage env src tgt stP)))).cluster.secrets =
      (deploymentStage env src tgt (secretStage env src tgt
        (configMapStage env src tgt stP))).cluster.secrets := hsec6
  constructor
  · refine ⟨a3, ?_, hn3⟩
    rw [hfin, logLine_cluster, hcm6a, hcm5a, hcm4a, ha3a, hcmP, hcm1a, hcm0]
  · refine ⟨a4, ?_, hn4⟩
    rw [hfin, logLine_cluster, hsec6a, hsec5a, ha4a, hsec3a, hsecP, hsec1a, hsec0]

theorem configmaps_secrets_source_untouched_witness :
    (∃ added, exAfterMigrate.cluster.configMaps =
      exSt.cluster.configMaps ++ added ∧ ∀ x ∈ added, x.metadata.ns = "b") ∧
    (∃ added, exAfterMigrate.cluster.secrets =
      exSt.cluster.secrets ++ added ∧ ∀ x ∈ added, x.metadata.ns = "b") :=
  configmaps_secrets_source_untouched exEnv "a" "b" exSt exAfterMigrate PyNone.none
    (by decide)

theorem unbound_claim_is_skipped_untouched_witness :
    exUnboundPvc ∈ exAfterMigrate.cluster.pvcs ∧
    LogEntry.pvcNotBoundSkipping exUnboundPvc.metadata.name ∈ exAfterMigrate.log ∧
    ∃ evs, exAfterMigrate.trace = exSt.trace ++ evs ∧
      (∀ o, (ApiCall.deletePvc "a" exUnboundPvc.metadata.name, o) ∉ evs) ∧
      (∀ o, (ApiCall.createPvc "b" exUnboundPvc.metadata.name, o) ∉ evs) :=
  unbound_claim_is_skipped_untouched exEnv "a" "b" exSt exAfterMigrate PyNone.none
    (by decide) exUnboundPvc (by decide) (by decide) (by decide) (by decide)

/-- C3: the rebind step polls the volume phase at most 30 times at
one-second intervals; on a never-Available volume exactly 30 one-second
polls happen and the claim is not created in the target (nothing is
added to the cluster claim list); and every other bound claim of the
stage is still attempted (its source delete call appears in the
trace). -/
theorem volume_poll_bounded_and_failure_isolated :
    (∀ (env : Env) (pv : String) (t : Nat) (st : ExecState) (b : Bool)
        (st1 : ExecState),
      wait_for_pv_available env pv t st = .ok (b, st1) →
      ∃ evs, st1.trace = st.trace ++ evs ∧ evs.length ≤ t ∧
        ∀ e ∈ evs, e.1 = ApiCall.readPv pv) ∧
    (∀ (env : Env) (src tgt : String) (q : Pvc) (st : ExecState),
      unboundVolumeName q.spec.volume_name = false →
      env.faults (.readPv (q.spec.volume_name.getD "")) = none →
      pvExists st.cluster (q.spec.volume_name.getD "") = true →
      (∀ i, env.phase (q.spec.volume_name.getD "") i ≠ "Available") →
      ∃ st1, migrateOnePvc env src tgt q st = .ok st1 ∧
        (∀ p ∈ st1.cluster.pvcs, p ∈ st.cluster.pvcs) ∧
        st1.clock = st.clock + 32 ∧
        (∃ o1 o2, st1.trace = st.trace ++
          [(ApiCall.deletePvc src q.metadata.name, o1),
           (ApiCall.patchPv (q.spec.volume_name.getD ""), o2)] ++
          List.replicate 30 (ApiCall.readPv (q.spec.volume_name.getD ""),
            ApiOutcome.success)) ∧
        LogEntry.pvNotAvailable (q.spec.volume_name.getD "") ∈ st1.log) ∧
    (∀ (env : Env) (src tgt : String) (l : List Pvc) (st st1 : ExecState),
      pvcLoop env src tgt l st = .ok st1 →
      ∀ q ∈ l, unboundVolumeName q.spec.volume_name = false →
      ∃ o, (ApiCall.deletePvc src q.metadata.name, o) ∈ st1.trace) := by
  refine ⟨?_, ?_, ?_⟩
  · intro env pv t st b st1 h
    obtain ⟨_, _, _, evs, htr, hlen, hev⟩ := wait_ok_frame env pv t st b st1 h
    exact ⟨evs, htr, hlen, hev⟩
  · intro env src tgt q st hb hf hpv hstuck
    exact migrateOnePvc_stuck env src tgt q st hb hf hpv hstuck
  · intro env src tgt l st st1 h q hq hb
    exact pvcLoop_attempts env src tgt l st st1 h q hq hb

theorem volume_poll_bounded_and_failure_isolated_witness :
    ∃ st1, migrateOnePvc exEnvStuck "a" "b" exBoundPvc exSt = .ok st1 ∧
      (∀ p ∈ st1.cluster.pvcs, p ∈ exSt.cluster.pvcs) ∧
      st1.clock = exSt.clock + 32 ∧
      (∃ o1 o2, st1.trace = exSt.trace ++
        [(ApiCall.deletePvc "a" exBoundPvc.metadata.name, o1),
         (ApiCall.patchPv (exBoundPvc.spec.volume_name.getD ""), o2)] ++
        List.replicate 30 (ApiCall.readPv (exBoundPvc.spec.volume_name.getD ""),
          ApiOutcome.success)) ∧
      LogEntry.pvNotAvailable (exBoundPvc.spec.volume_name.getD "") ∈ st1.log :=
  volume_poll_bounded_and_failure_isolated.2.1 exEnvStuck "a" "b" exBoundPvc exSt
    (by decide) (by decide) (by decide)
    (fun i => by
      show "Bound" ≠ "Available"
      decide)

lemma pvcExists_congr_pvcs (c c2 : Cluster) (h : c.pvcs = c2.pvcs)
    (ns name : String) : pvcExists c ns name = pvcExists c2 ns name := by
  unfold pvcExists
  rw [h]

lemma deletePvcNat_removes (ns name : String) (c : Cluster) :
    pvcExists ((deletePvcNat ns name c).2) ns name = false := by
  unfold pvcExists
  rw [deletePvcNat_pvcs, Bool.eq_false_iff]
  intro hcon
  rw [List.any_eq_true] at hcon
  obtain ⟨x, hx, hpx⟩ := hcon
  rw [List.mem_filter] at hx
  have hx2 := hx.2
  rw [hpx] at hx2
  exact absurd hx2 (by simp)

/-- The delete, patch, read, create order of one bound claim: the
source delete and the claim-reference patch are the first two calls,
strictly before every poll read and before any create. -/
lemma migrateOnePvc_ordered (env : Env) (src tgt : String) (q : Pvc)
    (st st1 : ExecState)
    (hb : unboundVolumeName q.spec.volume_name = false)
    (h : migrateOnePvc env src tgt q st = .ok st1) :
    ∃ o1 o2 rest, st1.trace = st.trace ++
      [(ApiCall.deletePvc src q.metadata.name, o1),
       (ApiCall.patchPv (q.spec.volume_name.getD ""), o2)] ++ rest ∧
      ∀ e ∈ rest, e.1 = ApiCall.readPv (q.spec.volume_name.getD "") ∨
        e.1 = ApiCall.createPvc tgt q.metadata.name := by
  have hub : ¬ unboundVolumeName q.spec.volume_name = true := by
    rw [hb]
    simp
  obtain ⟨o1, o2, hchain⟩ :=
    pvcChain_trace env src q.metadata.name (q.spec.volume_name.getD "") st
  simp only [migrateOnePvc] at h
  rw [if_neg hub] at h
  split at h
  · exact absurd h (by simp)
  · rename_i stw heq
    simp only [Except.ok.injEq] at h
    obtain ⟨_, _, _, evsw, htrw, _, hevw⟩ := wait_ok_frame env _ 30 _ _ _ heq
    rw [hchain] at htrw
    refine ⟨o1, o2, evsw, ?_, fun e he => Or.inl (hevw e he)⟩
    rw [← h, logLine_trace, htrw]
  · rename_i stw heq
    obtain ⟨_, _, _, evsw, htrw, _, hevw⟩ := wait_ok_frame env _ 30 _ _ _ heq
    rw [hchain] at htrw
    split at h
    · rename_i x heq2
      simp only [Except.ok.injEq] at h
      have hx : x = (runCall env
          (.createPvc tgt (clonePvc q (q.spec.volume_name.getD "")).metadata.name)
          (createPvcNat tgt (clonePvc q (q.spec.volume_name.getD ""))) stw).2 := by
        rw [heq2]
      refine ⟨o1, o2, evsw ++ [(ApiCall.createPvc tgt q.metadata.name,
        (runCall env
          (.createPvc tgt (clonePvc q (q.spec.volume_name.getD "")).metadata.name)
          (createPvcNat tgt (clonePvc q (q.spec.volume_name.getD ""))) stw).1)], ?_, ?_⟩
      · rw [← h, logLine_trace, hx, runCall_trace, htrw]
        simp [clonePvc]
      · intro e he
        rcases List.mem_append.mp he with he | he
        · exact Or.inl (hevw e he)
        · rw [List.mem_singleton.mp he]
          exact Or.inr rfl
    · rename_i s x heq2
      split at h
      · simp only [Except.ok.injEq] at h
        have hx : x = (runCall env
            (.createPvc tgt (clonePvc q (q.spec.volume_name.getD "")).metadata.name)
            (createPvcNat tgt (clonePvc q (q.spec.volume_name.getD ""))) stw).2 := by
          rw [heq2]
        refine ⟨o1, o2, evsw ++ [(ApiCall.createPvc tgt q.metadata.name,
          (runCall env
            (.createPvc tgt (clonePvc q (q.spec.volume_name.getD "")).metadata.name)
            (createPvcNat tgt (clonePvc q (q.spec.volume_name.getD ""))) stw).1)], ?_, ?_⟩
        · rw [← h, hx, runCall_trace, htrw]
          simp [clonePvc]
        · intro e he
          rcases List.mem_append.mp he with he | he
          · exact Or.inl (hevw e he)
          · rw [List.mem_singleton.mp he]
            exact Or.inr rfl
      · exact absurd h (by simp)

/-- C9: the source claim is deleted and the volume claim reference
cleared strictly before availability is confirmed; consequently, on the
never-Available failure path with a working delete call, the source
claim is already gone when the step gives up, and the claim then exists
in neither the source nor the target namespace — the failure path
mutates the source state. -/
theorem pvc_deleted_before_availability_confirmed :
    (∀ (env : Env) (src tgt : String) (q : Pvc) (st st1 : ExecState),
      unboundVolumeName q.spec.volume_name = false →
      migrateOnePvc env src tgt q st = .ok st1 →
      ∃ o1 o2 rest, st1.trace = st.trace ++
        [(ApiCall.deletePvc src q.metadata.name, o1),
         (ApiCall.patchPv (q.spec.volume_name.getD ""), o2)] ++ rest ∧
        ∀ e ∈ rest, e.1 = ApiCall.readPv (q.spec.volume_name.getD "") ∨
          e.1 = ApiCall.createPvc tgt q.metadata.name) ∧
    (∀ (env : Env) (src tgt : String) (q : Pvc) (st : ExecState),
      unboundVolumeName q.spec.volume_name = false →
      env.faults (.deletePvc src q.metadata.name) = none →
      env.faults (.readPv (q.spec.volume_name.getD "")) = none →
      pvExists st.cluster (q.spec.volume_name.getD "") = true →
      (∀ i, env.phase (q.spec.volume_name.getD "") i ≠ "Available") →
      ∃ st1, migrateOnePvc env src tgt q st = .ok st1 ∧
        pvcExists st1.cluster src q.metadata.name = false ∧
        (pvcExists st.cluster tgt q.metadata.name = false →
          pvcExists st1.cluster tgt q.metadata.name = false)) := by
  constructor
  · intro env src tgt q st st1 hb h
    exact migrateOnePvc_ordered env src tgt q st st1 hb h
  · intro env src tgt q st hb hfdel hfread hpv hstuck
    obtain ⟨st1, hok, hsub, hclk, htr, hlog⟩ :=
      migrateOnePvc_stuck env src tgt q st hb hfread hpv hstuck
    refine ⟨st1, hok, ?_, ?_⟩
    · have hub : ¬ unboundVolumeName q.spec.volume_name = true := by
        rw [hb]
        simp
      simp only [migrateOnePvc] at hok
      rw [if_neg hub] at hok
      split at hok
      · exact absurd hok (by simp)
      · rename_i stw heq
        simp only [Except.ok.injEq] at hok
        have hcw := (wait_ok_frame env _ 30 _ _ _ heq).1
        rw [← hok, logLine_cluster]
        rw [pvcExists_congr_pvcs stw.cluster _ (by rw [hcw]) src q.metadata.name]
        rw [pvcExists_congr_pvcs _
          ((deletePvcNat src q.metadata.name (logLine st
            (.migratingPvc q.metadata.name (q.spec.volume_name.getD ""))).cluster).2)
          ?_ src q.metadata.name]
        · exact deletePvcNat_removes src q.metadata.name _
        · rw [runCall_patchPvNat_pvcs, sleep_cluster,
            runCall_ok env _ _ _ hfdel]
          rfl
      · rename_i stw heq
        exact absurd heq (by
          intro hcon
          have hs := wait_stuck env (q.spec.volume_name.getD "") hfread 30
            ((runCall env (.patchPv (q.spec.volume_name.getD ""))
              (patchPvNat (q.spec.volume_name.getD ""))
              (sleep 2 ((runCall env (.deletePvc src q.metadata.name)
                (deletePvcNat src q.metadata.name)
                (logLine st (.migratingPvc q.metadata.name
                  (q.spec.volume_name.getD "")))).2))).2)
            (by
              rw [runCall_patchPv_pvExists,
                pvExists_congr _ st.cluster (by simp)]
              exact hpv)
            (fun i _ => hstuck _)
          obtain ⟨stno, hwno, _⟩ := hs
          rw [hcon] at hwno
          exact absurd hwno (by simp))
    · intro htgt
      rw [Bool.eq_false_iff]
      intro hcon
      unfold pvcExists at hcon
      rw [List.any_eq_true] at hcon
      obtain ⟨x, hx, hkey⟩ := hcon
      have hx2 := hsub x hx
      rw [Bool.eq_false_iff] at htgt
      refine absurd ?_ htgt
      unfold pvcExists
      rw [List.any_eq_true]
      exact ⟨x, hx2, hkey⟩

theorem pvc_deleted_before_availability_confirmed_witness :
    ∃ st1, migrateOnePvc exEnvStuck "a" "b" exBoundPvc exSt = .ok st1 ∧
      pvcExists st1.cluster "a" exBoundPvc.metadata.name = false ∧
      (pvcExists exSt.cluster "b" exBoundPvc.metadata.name = false →
        pvcExists st1.cluster "b" exBoundPvc.metadata.name = false) :=
  pvc_deleted_before_availability_confirmed.2 exEnvStuck "a" "b" exBoundPvc exSt
    (by decide) (by decide) (by decide) (by decide)
    (fun i => by
      show "Bound" ≠ "Available"
      decide)

/-- With no fault injected on the read and an existing volume record,
the bounded poll never raises. -/
lemma wait_no_error (env : Env) (pv : String)
    (hf : env.faults (.readPv pv) = none) :
    ∀ (t : Nat) (st : ExecState), pvExists st.cluster pv = true →
      ∃ b st1, wait_for_pv_available env pv t st = .ok (b, st1) := by
  intro t
  induction t with
  | zero =>
      intro st _
      exact ⟨false, st, rfl⟩
  | succ t ih =>
      intro st hex
      have hread : apiReadPv env pv st =
          (.ok (env.phase pv st.clock), pushTrace st (.readPv pv) .success) := by
        unfold apiReadPv
        simp only [hf]
        rw [if_pos hex]
      rw [wait_for_pv_available, hread]
      show ∃ b st1, (if env.phase pv st.clock = "Available" then
          Except.ok (true, pushTrace st (.readPv pv) .success)
        else wait_for_pv_available env pv t
          (sleep 1 (pushTrace st (.readPv pv) .success))) = .ok (b, st1)
      by_cases hph : env.phase pv st.clock = "Available"
      · rw [if_pos hph]
        exact ⟨true, _, rfl⟩
      · rw [if_neg hph]
        exact ih (sleep 1 (pushTrace st (.readPv pv) .success)) (by simpa using hex)

/-- With no fault on the volume read and on the target create, and an
existing volume record for a bound claim, migrating one claim never
raises (whatever the phase oracle says and whatever happens to the
tolerated delete and patch calls). -/
lemma migrateOnePvc_ok (env : Env) (src tgt : String) (q : Pvc) (st : ExecState)
    (hfr : env.faults (.readPv (q.spec.volume_name.getD "")) = none)
    (hfc : env.faults (.createPvc tgt q.metadata.name) = none)
    (hex : unboundVolumeName q.spec.volume_name = false →
      pvExists st.cluster (q.spec.volume_name.getD "") = true) :
    ∃ st1, migrateOnePvc env src tgt q st = .ok st1 := by
  by_cases hub : unboundVolumeName q.spec.volume_name = true
  · exact ⟨_, migrateOnePvc_unbound env src tgt q st hub⟩
  · have hex2 : pvExists ((runCall env (.patchPv (q.spec.volume_name.getD ""))
        (patchPvNat (q.spec.volume_name.getD ""))
        (sleep 2 ((runCall env (.deletePvc src q.metadata.name)
          (deletePvcNat src q.metadata.name)
          (logLine st (.migratingPvc q.metadata.name
            (q.spec.volume_name.getD "")))).2))).2).cluster
        (q.spec.volume_name.getD "") = true := by
      rw [runCall_patchPv_pvExists]
      rw [pvExists_congr _ st.cluster (by simp)]
      exact hex (Bool.eq_false_iff.mpr hub)
    obtain ⟨b, stw, hw⟩ := wait_no_error env _ hfr 30 _ hex2
    simp only [migrateOnePvc]
    rw [if_neg hub, hw]
    cases b
    · exact ⟨_, rfl⟩
    · show ∃ st1, (match runCall env
          (.createPvc tgt (clonePvc q (q.spec.volume_name.getD "")).metadata.name)
          (createPvcNat tgt (clonePvc q (q.spec.volume_name.getD ""))) stw with
        | (.success, st) => Except.ok (logLine st (.pvcMigrated q.metadata.name))
        | (.err s, st) => if s = 409 then .ok st else .error s) = .ok st1
      have hfc2 : env.faults (.createPvc tgt
          (clonePvc q (q.spec.volume_name.getD "")).metadata.name) = none := hfc
      rw [runCall_ok env _ _ _ hfc2]
      by_cases hpe : pvcExists stw.cluster tgt
          (clonePvc q (q.spec.volume_name.getD "")).metadata.name = true
      · have hnat : createPvcNat tgt (clonePvc q (q.spec.volume_name.getD ""))
            stw.cluster = (.err 409, stw.cluster) := by
          unfold createPvcNat
          rw [if_pos hpe]
        rw [hnat]
        show ∃ st1, (if 409 = 409 then Except.ok _ else Except.error 409) = .ok st1
        rw [if_pos rfl]
        exact ⟨_, rfl⟩
      · have hnat : createPvcNat tgt (clonePvc q (q.spec.volume_name.getD ""))
            stw.cluster = (.success,
              { stw.cluster with pvcs := stw.cluster.pvcs ++
                [{ clonePvc q (q.spec.volume_name.getD "") with metadata :=
                  { (clonePvc q (q.spec.volume_name.getD "")).metadata with ns := tgt } }] }) := by
          unfold createPvcNat
          rw [if_neg hpe]
        rw [hnat]
        exact ⟨_, rfl⟩

/-- The volumes on the cluster keep their names through the migration
of one claim, so volume existence is stable. -/
lemma migrateOnePvc_pvExists_preserved (env : Env) (src tgt : String) (q : Pvc)
    (st st1 : ExecState) (h : migrateOnePvc env src tgt q st = .ok st1)
    (m : String) : pvExists st1.cluster m = pvExists st.cluster m := by
  by_cases hub : unboundVolumeName q.spec.volume_name = true
  · rw [migrateOnePvc_unbound env src tgt q st hub] at h
    simp only [Except.ok.injEq] at h
    rw [← h]
    rfl
  · simp only [migrateOnePvc] at h
    rw [if_neg hub] at h
    split at h
    · exact absurd h (by simp)
    · rename_i stw heq
      simp only [Except.ok.injEq] at h
      rw [← h, logLine_cluster, (wait_ok_frame env _ 30 _ _ _ heq).1,
        runCall_patchPv_pvExists]
      exact pvExists_congr _ st.cluster (by simp) m
    · rename_i stw heq
      have hstw : pvExists stw.cluster m = pvExists st.cluster m := by
        rw [(wait_ok_frame env _ 30 _ _ _ heq).1, runCall_patchPv_pvExists]
        exact pvExists_congr _ st.cluster (by simp) m
      split at h
      · rename_i x heq2
        simp only [Except.ok.injEq] at h
        have hx : x = (runCall env
            (.createPvc tgt (clonePvc q (q.spec.volume_name.getD "")).metadata.name)
            (createPvcNat tgt (clonePvc q (q.spec.volume_name.getD ""))) stw).2 := by
          rw [heq2]
        rw [← h, logLine_cluster, hx]
        rw [pvExists_congr _ stw.cluster (by simp) m]
        exact hstw
      · rename_i s x heq2
        split at h
        · simp only [Except.ok.injEq] at h
          have hx : x = (runCall env
              (.createPvc tgt (clonePvc q (q.spec.volume_name.getD "")).metadata.name)
              (createPvcNat tgt (clonePvc q (q.spec.volume_name.getD ""))) stw).2 := by
            rw [heq2]
          rw [← h, hx]
          rw [pvExists_congr _ stw.cluster (by simp) m]
          exact hstw
        · exact absurd h (by simp)

lemma pvcLoop_ok (env : Env) (src tgt : String)
    (hfr : ∀ n, env.faults (.readPv n) = none)
    (hfc : ∀ n, env.faults (.createPvc tgt n) = none) :
    ∀ (l : List Pvc) (st : ExecState),
      (∀ q ∈ l, unboundVolumeName q.spec.volume_name = false →
        pvExists st.cluster (q.spec.volume_name.getD "") = true) →
      ∃ st1, pvcLoop env src tgt l st = .ok st1 := by
  intro l
  induction l with
  | nil =>
      intro st _
      exact ⟨st, rfl⟩
  | cons q rest ih =>
      intro st hex
      obtain ⟨st2, h2⟩ := migrateOnePvc_ok env src tgt q st (hfr _) (hfc _)
        (fun hb => hex q (List.mem_cons_self _ _) hb)
      obtain ⟨st1, h1⟩ := ih st2 (by
        intro q2 hq2 hb2
        rw [migrateOnePvc_pvExists_preserved env src tgt q st st2 h2]
        exact hex q2 (List.mem_cons_of_mem _ hq2) hb2)
      refine ⟨st1, ?_⟩
      rw [pvcLoop, h2]
      exact h1

lemma ensure_ok_of_nofault (env : Env) (tgt : String) (st : ExecState)
    (hf : env.faults (.createNamespace tgt) = none) :
    ∃ st1, ensureTargetNamespace env tgt st = .ok st1 := by
  unfold ensureTargetNamespace
  rw [runCall_ok env _ _ _ hf]
  by_cases hx : nsExists st.cluster tgt = true
  · have hnat : createNamespaceNat tgt st.cluster = (.err 409, st.cluster) := by
      unfold createNamespaceNat
      rw [if_pos hx]
    rw [hnat]
    show ∃ st1, (if 409 = 409 then Except.ok _ else Except.error 409) = .ok st1
    rw [if_pos rfl]
    exact ⟨_, rfl⟩
  · have hnat : createNamespaceNat tgt st.cluster = (.success,
        { st.cluster with namespaces := st.cluster.namespaces ++ [tgt] }) := by
      unfold createNamespaceNat
      rw [if_neg hx]
    rw [hnat]
    exact ⟨_, rfl⟩

/-- A run whose environment injects no fault on the target namespace
create, on volume reads and on target claim creates — the only calls
whose ApiException the code does not catch — and whose bound source
claims reference existing volumes, always completes and returns None:
nothing else can abort it. -/
lemma migrate_ok_of_safe (env : Env) (src tgt : String) (st : ExecState)
    (h1 : env.faults (.createNamespace tgt) = none)
    (h2 : ∀ n, env.faults (.readPv n) = none)
    (h3 : ∀ n, env.faults (.createPvc tgt n) = none)
    (h4 : pvsPresent src st.cluster) :
    ∃ st1, migrate_namespace env src tgt st = .ok (st1, PyNone.none) := by
  obtain ⟨stA, hE⟩ :=
    ensure_ok_of_nofault env tgt (logLine st (.startingMigration src tgt)) h1
  obtain ⟨_, _, _, hpvcA, hpvA, _, _, _, _⟩ := ensure_ok_frame env tgt _ stA hE
  rw [logLine_cluster] at hpvcA hpvA
  obtain ⟨_, _, _, hpvc1, hpv1, _, _, _⟩ :=
    scaleDownLoop_frame env src (listStatefulSets src stA.cluster) stA
  have hpvc1a : (scaleDownStage env src stA).cluster.pvcs = stA.cluster.pvcs := hpvc1
  have hpv1a : (scaleDownStage env src stA).cluster.pvs = stA.cluster.pvs := hpv1
  obtain ⟨stP, hP⟩ := pvcLoop_ok env src tgt h2 h3
    (listPvcs src (sleep 5 (scaleDownStage env src stA)).cluster)
    (sleep 5 (scaleDownStage env src stA))
    (by
      intro q hq hb
      have hq2 : q ∈ listPvcs src st.cluster := by
        rw [listPvcs_congr src _ st.cluster
          (by rw [sleep_cluster, hpvc1a, hpvcA])] at hq
        exact hq
      rw [pvExists_congr _ st.cluster (by rw [sleep_cluster, hpv1a, hpvA])]
      exact h4 q hq2 hb)
  have hP3 : pvcStage env src tgt (sleep 5 (scaleDownStage env src stA)) = .ok stP := hP
  refine ⟨logLine (statefulSetStage env src tgt (deploymentStage env src tgt
    (secretStage env src tgt (configMapStage env src tgt stP)))) .migrationCompleted, ?_⟩
  simp only [migrate_namespace, hE, hP3]

lemma configMapLoop_attempts (env : Env) (tgt : String) :
    ∀ (l : List ConfigMap) (st : ExecState),
      ∀ cm ∈ l, ∃ o, (ApiCall.createConfigMap tgt cm.metadata.name, o) ∈
        (configMapLoop env tgt l st).trace := by
  intro l
  induction l with
  | nil =>
      intro st cm hcm
      exact absurd hcm (List.not_mem_nil cm)
  | cons c0 rest ih =>
      intro st cm hcm
      rw [configMapLoop]
      rcases List.mem_cons.mp hcm with hcm | hcm
      · subst hcm
        obtain ⟨⟨o, htr⟩, _⟩ := cmStep_frame env tgt cm st
        obtain ⟨⟨evs, htr2, _⟩, _⟩ :=
          configMapLoop_frame env tgt rest (cmStep env tgt cm st)
        exact ⟨o, by
          rw [htr2, htr]
          simp⟩
      · exact ih (cmStep env tgt c0 st) cm hcm

lemma secretLoop_attempts (env : Env) (tgt : String) :
    ∀ (l : List Secret) (st : ExecState),
      ∀ sec ∈ l, ∃ o, (ApiCall.createSecret tgt sec.metadata.name, o) ∈
        (secretLoop env tgt l st).trace := by
  intro l
  induction l with
  | nil =>
      intro st sec hsec
      exact absurd hsec (List.not_mem_nil sec)
  | cons s0 rest ih =>
      intro st sec hsec
      rw [secretLoop]
      rcases List.mem_cons.mp hsec with hsec | hsec
      · subst hsec
        obtain ⟨⟨o, htr⟩, _⟩ := secretStep_frame env tgt sec st
        obtain ⟨⟨evs, htr2, _⟩, _⟩ :=
          secretLoop_frame env tgt rest (secretStep env tgt sec st)
        exact ⟨o, by
          rw [htr2, htr]
          simp⟩
      · exact ih (secretStep env tgt s0 st) sec hsec

lemma deploymentLoop_attempts (env : Env) (src tgt : String) :
    ∀ (l : List Deployment) (st : ExecState),
      ∀ d ∈ l, ∃ o, (ApiCall.createDeployment tgt d.metadata.name, o) ∈
        (deploymentLoop env src tgt l st).trace := by
  intro l
  induction l with
  | nil =>
      intro st d hd
      exact absurd hd (List.not_mem_nil d)
  | cons d0 rest ih =>
      intro st d hd
      rw [deploymentLoop]
      rcases List.mem_cons.mp hd with hd | hd
      · subst hd
        obtain ⟨⟨o, o2, htr⟩, _⟩ := deployStep_frame env src tgt d st
        obtain ⟨⟨evs, htr2, _⟩, _⟩ :=
          deploymentLoop_frame env src tgt rest (deployStep env src tgt d st)
        exact ⟨o, by
          rw [htr2, htr]
          simp⟩
      · exact ih (deployStep env src tgt d0 st) d hd

lemma listConfigMaps_congr (ns : String) (c c2 : Cluster)
    (h : c.configMaps = c2.configMaps) : listConfigMaps ns c = listConfigMaps ns c2 := by
  unfold listConfigMaps
  rw [h]

lemma listStatefulSets_congr (ns : String) (c c2 : Cluster)
    (h : c.statefulSets = c2.statefulSets) :
    listStatefulSets ns c = listStatefulSets ns c2 := by
  unfold listStatefulSets
  rw [h]

lemma listSecrets_congr (ns : String) (c c2 : Cluster)
    (h : c.secrets = c2.secrets) : listSecrets ns c = listSecrets ns c2 := by
  unfold listSecrets
  rw [h]

lemma listDeployments_congr (ns : String) (c c2 : Cluster)
    (h : c.deployments = c2.deployments) : listDeployments ns c = listDeployments ns c2 := by
  unfold listDeployments
  rw [h]

lemma map_metadata_of_preserve (f : StatefulSet → StatefulSet)
    (hf : ∀ s, (f s).metadata = s.metadata) :
    ∀ l : List StatefulSet,
      (l.map f).map (fun s => s.metadata) = l.map (fun s => s.metadata) := by
  intro l
  induction l with
  | nil => rfl
  | cons x xs ih => simp [hf, ih]

/-- The scale-down patch rewrites replica counts only: the metadata of
every StatefulSet on the cluster is untouched. -/
lemma patchStatefulSetNat_sts_metadata (ns name : String) (r : Nat) (c : Cluster) :
    ((patchStatefulSetNat ns name r c).2).statefulSets.map (fun s => s.metadata) =
      c.statefulSets.map (fun s => s.metadata) := by
  unfold patchStatefulSetNat
  split
  · exact map_metadata_of_preserve _ (fun s => by split <;> rfl) c.statefulSets
  · rfl

lemma scaleStep_sts_metadata (env : Env) (src : String) (sts : StatefulSet)
    (st : ExecState) :
    (scaleStep env src sts st).cluster.statefulSets.map (fun s => s.metadata) =
      st.cluster.statefulSets.map (fun s => s.metadata) := by
  simp only [scaleStep, afterCall_cluster]
  rcases runCall_cluster env _ (patchStatefulSetNat src sts.metadata.name 0) st
    with h | h <;> rw [h]
  exact patchStatefulSetNat_sts_metadata src sts.metadata.name 0 st.cluster

lemma scaleDownLoop_sts_metadata (env : Env) (src : String) :
    ∀ (l : List StatefulSet) (st : ExecState),
      (scaleDownLoop env src l st).cluster.statefulSets.map (fun s => s.metadata) =
        st.cluster.statefulSets.map (fun s => s.metadata) := by
  intro l
  induction l with
  | nil =>
      intro st
      rfl
  | cons sts rest ih =>
      intro st
      rw [scaleDownLoop, ih, scaleStep_sts_metadata]

lemma scaleDownLoop_attempts (env : Env) (src : String) :
    ∀ (l : List StatefulSet) (st : ExecState),
      ∀ s ∈ l, ∃ o, (ApiCall.patchStatefulSet src s.metadata.name, o) ∈
        (scaleDownLoop env src l st).trace := by
  intro l
  induction l with
  | nil =>
      intro st s hs
      exact absurd hs (List.not_mem_nil s)
  | cons s0 rest ih =>
      intro st s hs
      rw [scaleDownLoop]
      rcases List.mem_cons.mp hs with hs | hs
      · subst hs
        obtain ⟨⟨o, htr⟩, _⟩ := scaleStep_frame env src s st
        obtain ⟨⟨evs, htr2, _⟩, _⟩ :=
          scaleDownLoop_frame env src rest (scaleStep env src s st)
        exact ⟨o, by
          rw [htr2, htr]
          simp⟩
      · exact ih (scaleStep env src s0 st) s hs

lemma statefulSetLoop_attempts (env : Env) (src tgt : String) :
    ∀ (l : List StatefulSet) (st : ExecState),
      ∀ s ∈ l, ∃ o, (ApiCall.createStatefulSet tgt s.metadata.name, o) ∈
        (statefulSetLoop env src tgt l st).trace := by
  intro l
  induction l with
  | nil =>
      intro st s hs
      exact absurd hs (List.not_mem_nil s)
  | cons s0 rest ih =>
      intro st s hs
      rw [statefulSetLoop]
      rcases List.mem_cons.mp hs with hs | hs
      · subst hs
        obtain ⟨⟨o, o2, htr⟩, _⟩ := stsStep_frame env src tgt s st
        obtain ⟨⟨evs, htr2, _⟩, _⟩ :=
          statefulSetLoop_frame env src tgt rest (stsStep env src tgt s st)
        exact ⟨o, by
          rw [htr2, htr]
          simp⟩
      · exact ih (stsStep env src tgt s0 st) s hs

/-- C1 counterexample: with an unexpected error (HTTP 500, neither a
conflict nor a not-found) injected on the create of the migrated claim
in the target namespace, the whole run aborts with that exception: the
ConfigMap, Secret, Deployment and StatefulSet stages never run and the
caller sees the raised ApiException instead of a completed run. -/
theorem pvc_create_error_aborts_run_counterexample :
    migrate_namespace exEnvPvcFault "a" "b" exSt = .error 500 := by decide

/-- C1 (amended): an unexpected error on an item call of any of the
five error-swallowing stages — the scale-down patch, the ConfigMap,
Secret, Deployment and StatefulSet stages (and the tolerated delete and
claim-reference patch of the PVC stage) — is swallowed and stops
nothing: whenever faults hit only such calls (and bound source claims
reference existing volumes), the run still completes, and each of those
stages still attempts every one of its items: every source StatefulSet
is patched, every ConfigMap, Secret and Deployment copy and every
StatefulSet copy is attempted.  The original claim fails for the PVC
stage: an unexpected error while creating a claim in the target
namespace propagates and aborts the run, and no per-item Failed outcome
is recorded anywhere. -/
theorem swallowed_errors_do_not_stop_siblings_or_later_stages
    (env : Env) (src tgt : String) (st : ExecState)
    (honly : ∀ c s, env.faults c = some s → swallowedCall c = true)
    (hpvs : pvsPresent src st.cluster) :
    ∃ st1, migrate_namespace env src tgt st = .ok (st1, PyNone.none) ∧
      (∀ s ∈ listStatefulSets src st.cluster,
        ∃ o, (ApiCall.patchStatefulSet src s.metadata.name, o) ∈ st1.trace) ∧
      (∀ cm ∈ listConfigMaps src st.cluster,
        ∃ o, (ApiCall.createConfigMap tgt cm.metadata.name, o) ∈ st1.trace) ∧
      (∀ sec ∈ listSecrets src st.cluster,
        ∃ o, (ApiCall.createSecret tgt sec.metadata.name, o) ∈ st1.trace) ∧
      (∀ d ∈ listDeployments src st.cluster,
        ∃ o, (ApiCall.createDeployment tgt d.metadata.name, o) ∈ st1.trace) ∧
      (∀ s ∈ listStatefulSets src st.cluster,
        ∃ o, (ApiCall.createStatefulSet tgt s.metadata.name, o) ∈ st1.trace) := by
  have h1 : env.faults (.createNamespace tgt) = none := by
    cases hc : env.faults (.createNamespace tgt) with
    | none => rfl
    | some s => exact absurd (honly _ s hc) (by simp [swallowedCall])
  have h2 : ∀ n, env.faults (.readPv n) = none := by
    intro n
    cases hc : env.faults (.readPv n) with
    | none => rfl
    | some s => exact absurd (honly _ s hc) (by simp [swallowedCall])
  have h3 : ∀ n, env.faults (.createPvc tgt n) = none := by
    intro n
    cases hc : env.faults (.createPvc tgt n) with
    | none => rfl
    | some s => exact absurd (honly _ s hc) (by simp [swallowedCall])
  obtain ⟨st1, hok⟩ := migrate_ok_of_safe env src tgt st h1 h2 h3 hpvs
  obtain ⟨stA, stP, hE, hP, hfin, _⟩ := migrate_ok_decompose env src tgt st st1 _ hok
  obtain ⟨_, _, _, hpvcA, hpvA, hcmA, hsecA, hdepA, hstsA⟩ := ensure_ok_frame env tgt _ stA hE
  rw [logLine_cluster] at hcmA hsecA hdepA hstsA
  obtain ⟨_, _, _, _, _, hcm1, hsec1, hdep1⟩ :=
    scaleDownLoop_frame env src (listStatefulSets src stA.cluster) stA
  have hcm1a : (scaleDownStage env src stA).cluster.configMaps = stA.cluster.configMaps := hcm1
  have hsec1a : (scaleDownStage env src stA).cluster.secrets = stA.cluster.secrets := hsec1
  have hdep1a : (scaleDownStage env src stA).cluster.deployments = stA.cluster.deployments := hdep1
  have hstsMap1 : (scaleDownStage env src stA).cluster.statefulSets.map (fun s => s.metadata) =
      stA.cluster.statefulSets.map (fun s => s.metadata) :=
    scaleDownLoop_sts_metadata env src (listStatefulSets src stA.cluster) stA
  have hP2 : pvcLoop env src tgt
      (listPvcs src (sleep 5 (scaleDownStage env src stA)).cluster)
      (sleep 5 (scaleDownStage env src stA)) = .ok stP := hP
  obtain ⟨⟨evs2, htr2, _⟩, _, _, hcmP, hsecP, hdepP, hstsP⟩ :=
    pvcLoop_frame env src tgt _ _ stP hP2
  rw [sleep_cluster] at hcmP hsecP hdepP hstsP
  have htr2a : stP.trace = (scaleDownStage env src stA).trace ++ evs2 := by
    rw [htr2, sleep_trace]
  have hcmsP : stP.cluster.configMaps = st.cluster.configMaps := by
    rw [hcmP, hcm1a, hcmA]
  have hsecsP : stP.cluster.secrets = st.cluster.secrets := by
    rw [hsecP, hsec1a, hsecA]
  have hdepsP : stP.cluster.deployments = st.cluster.deployments := by
    rw [hdepP, hdep1a, hdepA]
  have hstsMapP : stP.cluster.statefulSets.map (fun s => s.metadata) =
      st.cluster.statefulSets.map (fun s => s.metadata) := by
    rw [hstsP, hstsMap1, hstsA]
  obtain ⟨⟨evs3, htr3, _⟩, _, _, _, _, hsec3, hdep3, hsts3⟩ :=
    configMapLoop_frame env tgt (listConfigMaps src stP.cluster) stP
  have htr3a : (configMapStage env src tgt stP).trace = stP.trace ++ evs3 := htr3
  have hsec3a : (configMapStage env src tgt stP).cluster.secrets = stP.cluster.secrets := hsec3
  have hdep3a : (configMapStage env src tgt stP).cluster.deployments =
    stP.cluster.deployments := hdep3
  have hsts3a : (configMapStage env src tgt stP).cluster.statefulSets =
    stP.cluster.statefulSets := hsts3
  obtain ⟨⟨evs4, htr4, _⟩, _, _, _, _, _, hdep4, hsts4⟩ :=
    secretLoop_frame env tgt
      (listSecrets src (configMapStage env src tgt stP).cluster)
      (configMapStage env src tgt stP)
  have htr4a : (secretStage env src tgt (configMapStage env src tgt stP)).trace =
      (configMapStage env src tgt stP).trace ++ evs4 := htr4
  have hdep4a : (secretStage env src tgt (configMapStage env src tgt stP)).cluster.deployments =
      (configMapStage env src tgt stP).cluster.deployments := hdep4
  have hsts4a : (secretStage env src tgt (configMapStage env src tgt stP)).cluster.statefulSets =
      (configMapStage env src tgt stP).cluster.statefulSets := hsts4
  obtain ⟨⟨evs5, htr5, _⟩, _, _, _, _, _, _, hsts5⟩ :=
    deploymentLoop_frame env src tgt
      (listDeployments src (secretStage env src tgt (configMapStage env src tgt stP)).cluster)
      (secretStage env src tgt (configMapStage env src tgt stP))
  have htr5a : (deploymentStage env src tgt (secretStage env src tgt
      (configMapStage env src tgt stP))).trace =
      (secretStage env src tgt (configMapStage env src tgt stP)).trace ++ evs5 := htr5
  have hsts5a : (deploymentStage env src tgt (secretStage env src tgt
      (configMapStage env src tgt stP))).cluster.statefulSets =
      (secretStage env src tgt (configMapStage env src tgt stP)).cluster.statefulSets := hsts5
  obtain ⟨⟨evs6, htr6, _⟩, _⟩ :=
    statefulSetLoop_frame env src tgt
      (listStatefulSets src (deploymentStage env src tgt
        (secretStage env src tgt (configMapStage env src tgt stP))).cluster)
      (deploymentStage env src tgt (secretStage env src tgt (configMapStage env src tgt stP)))
  have htr6a : (statefulSetStage env src tgt (deploymentStage env src tgt
      (secretStage env src tgt (configMapStage env src tgt stP)))).trace =
      (deploymentStage env src tgt (secretStage env src tgt
        (configMapStage env src tgt stP))).trace ++ evs6 := htr6
  have hmapD : (deploymentStage env src tgt (secretStage env src tgt
      (configMapStage env src tgt stP))).cluster.statefulSets.map (fun s => s.metadata) =
      st.cluster.statefulSets.map (fun s => s.metadata) := by
    rw [hsts5a, hsts4a, hsts3a, hstsMapP]
  refine ⟨st1, hok, ?_, ?_, ?_, ?_, ?_⟩
  · intro s hs
    have hs2 : s ∈ listStatefulSets src stA.cluster := by
      rw [listStatefulSets_congr src stA.cluster st.cluster hstsA]
      exact hs
    obtain ⟨o, ho⟩ := scaleDownLoop_attempts env src
      (listStatefulSets src stA.cluster) stA s hs2
    have ho2 : (ApiCall.patchStatefulSet src s.metadata.name, o) ∈
        (scaleDownStage env src stA).trace := ho
    refine ⟨o, ?_⟩
    rw [hfin, logLine_trace, htr6a, htr5a, htr4a, htr3a, htr2a]
    simp only [List.mem_append]
    exact Or.inl (Or.inl (Or.inl (Or.inl (Or.inl ho2))))
  · intro cm hcm
    have hcm2 : cm ∈ listConfigMaps src stP.cluster := by
      rw [listConfigMaps_congr src stP.cluster st.cluster hcmsP]
      exact hcm
    obtain ⟨o, ho⟩ := configMapLoop_attempts env tgt (listConfigMaps src stP.cluster)
      stP cm hcm2
    have ho2 : (ApiCall.createConfigMap tgt cm.metadata.name, o) ∈
        (configMapStage env src tgt stP).trace := ho
    refine ⟨o, ?_⟩
    rw [hfin, logLine_trace, htr6a, htr5a, htr4a]
    simp only [List.mem_append]
    exact Or.inl (Or.inl (Or.inl ho2))
  · intro sec hsec
    have hsec2 : sec ∈ listSecrets src (configMapStage env src tgt stP).cluster := by
      rw [listSecrets_congr src _ st.cluster (by rw [hsec3a, hsecsP])]
      exact hsec
    obtain ⟨o, ho⟩ := secretLoop_attempts env tgt
      (listSecrets src (configMapStage env src tgt stP).cluster)
      (configMapStage env src tgt stP) sec hsec2
    have ho2 : (ApiCall.createSecret tgt sec.metadata.name, o) ∈
        (secretStage env src tgt (configMapStage env src tgt stP)).trace := ho
    refine ⟨o, ?_⟩
    rw [hfin, logLine_trace, htr6a, htr5a]
    simp only [List.mem_append]
    exact Or.inl (Or.inl ho2)
  · intro d hd
    have hd2 : d ∈ listDeployments src
        (secretStage env src tgt (configMapStage env src tgt stP)).cluster := by
      rw [listDeployments_congr src _ st.cluster (by rw [hdep4a, hdep3a, hdepsP])]
      exact hd
    obtain ⟨o, ho⟩ := deploymentLoop_attempts env src tgt
      (listDeployments src (secretStage env src tgt (configMapStage env src tgt stP)).cluster)
      (secretStage env src tgt (configMapStage env src tgt stP)) d hd2
    have ho2 : (ApiCall.createDeployment tgt d.metadata.name, o) ∈
        (deploymentStage env src tgt (secretStage env src tgt
          (configMapStage env src tgt stP))).trace := ho
    refine ⟨o, ?_⟩
    rw [hfin, logLine_trace, htr6a]
    simp only [List.mem_append]
    exact Or.inl ho2
  · intro s hs
    have hsf := List.mem_filter.mp hs
    have hmem : s.metadata ∈ (deploymentStage env src tgt (secretStage env src tgt
        (configMapStage env src tgt stP))).cluster.statefulSets.map
        (fun x => x.metadata) := by
      rw [hmapD]
      exact List.mem_map_of_mem _ hsf.1
    obtain ⟨s2, hs2mem, hs2meta⟩ := List.mem_map.mp hmem
    have hs2l : s2 ∈ listStatefulSets src (deploymentStage env src tgt
        (secretStage env src tgt (configMapStage env src tgt stP))).cluster := by
      unfold listStatefulSets
      refine List.mem_filter.mpr ⟨hs2mem, ?_⟩
      rw [hs2meta]
      exact hsf.2
    obtain ⟨o, ho⟩ := statefulSetLoop_attempts env src tgt
      (listStatefulSets src (deploymentStage env src tgt
        (secretStage env src tgt (configMapStage env src tgt stP))).cluster)
      (deploymentStage env src tgt (secretStage env src tgt
        (configMapStage env src tgt stP))) s2 hs2l
    have ho2 : (ApiCall.createStatefulSet tgt s2.metadata.name, o) ∈
        (statefulSetStage env src tgt (deploymentStage env src tgt
          (secretStage env src tgt (configMapStage env src tgt stP)))).trace := ho
    refine ⟨o, ?_⟩
    rw [hfin, logLine_trace, ← hs2meta]
    exact ho2

theorem swallowed_errors_do_not_stop_siblings_or_later_stages_witness :
    ∃ st1, migrate_namespace exEnvMultiFault "a" "b" exSt = .ok (st1, PyNone.none) ∧
      (∀ s ∈ listStatefulSets "a" exSt.cluster,
        ∃ o, (ApiCall.patchStatefulSet "a" s.metadata.name, o) ∈ st1.trace) ∧
      (∀ cm ∈ listConfigMaps "a" exSt.cluster,
        ∃ o, (ApiCall.createConfigMap "b" cm.metadata.name, o) ∈ st1.trace) ∧
      (∀ sec ∈ listSecrets "a" exSt.cluster,
        ∃ o, (ApiCall.createSecret "b" sec.metadata.name, o) ∈ st1.trace) ∧
      (∀ d ∈ listDeployments "a" exSt.cluster,
        ∃ o, (ApiCall.createDeployment "b" d.metadata.name, o) ∈ st1.trace) ∧
      (∀ s ∈ listStatefulSets "a" exSt.cluster,
        ∃ o, (ApiCall.createStatefulSet "b" s.metadata.name, o) ∈ st1.trace) :=
  swallowed_errors_do_not_stop_siblings_or_later_stages exEnvMultiFault "a" "b" exSt
    (by
      intro c s h
      cases c <;>
        first
          | rfl
          | exact Option.noConfusion h)
    (by
      unfold pvsPresent
      decide)

/-- C8 counterexample: with the target namespace equal to the source,
the run does not surface any precondition failure: it silently proceeds
to completion (migration-completed is logged) and even destroys the
source StatefulSet (created into its own namespace means a tolerated
409 conflict, then the source copy is deleted). -/
theorem equal_namespaces_proceed_silently_counterexample :
    migrate_namespace exEnv "a" "a" exSt = .ok (exAfterSelfMigrate, PyNone.none) ∧
    exAfterSelfMigrate.cluster.statefulSets = [] ∧
    LogEntry.migrationCompleted ∈ exAfterSelfMigrate.log := by decide

/-- C8 (amended): migrate_namespace performs no validation of its
namespace arguments.  With target equal to source (and a benign
environment) the run silently proceeds to normal completion; any error
that does surface can only come from an individual API call, never
from a precondition check. -/
theorem no_precondition_check_on_namespaces (env : Env) (src : String)
    (st : ExecState) (hnf : noFaults env) (hpvs : pvsPresent src st.cluster) :
    ∃ st1, migrate_namespace env src src st = .ok (st1, PyNone.none) :=
  migrate_ok_of_safe env src src st (hnf _) (fun _ => hnf _) (fun _ => hnf _) hpvs

theorem no_precondition_check_on_namespaces_witness :
    ∃ st1, migrate_namespace exEnv "a" "a" exSt = .ok (st1, PyNone.none) :=
  no_precondition_check_on_namespaces exEnv "a" exSt (fun _ => rfl)
    (by
      unfold pvsPresent
      decide)

/-- C7 counterexample: two runs on the same cluster whose per-item
outcomes differ (in one, the ConfigMap create fails with an unexpected
error and the ConfigMap never reaches the target) hand the caller the
very same value, Python None.  The value returned to the caller
therefore carries no MigrationRun and no per-item outcome mapping. -/
theorem migration_returns_none_counterexample :
    migrate_namespace exEnv "a" "b" exSt = .ok (exAfterMigrate, PyNone.none) ∧
    migrate_namespace exEnvCmFault "a" "b" exSt =
      .ok (exAfterMigrateCmFault, PyNone.none) ∧
    exAfterMigrate.cluster ≠ exAfterMigrateCmFault.cluster := by decide

/-- C7 (amended): migrate_namespace has no return statement: a
completed run hands its caller exactly None, never a MigrationRun or an
outcome mapping; completion is reported only through the printed log,
whose last line is the migration-completed message. -/
theorem migration_returns_only_none (env : Env) (src tgt : String)
    (st : ExecState) (r : ExecState × PyNone)
    (h : migrate_namespace env src tgt st = .ok r) :
    r.2 = PyNone.none ∧ LogEntry.migrationCompleted ∈ r.1.log := by
  obtain ⟨stA, stP, hE, hP, hfin, hr⟩ := migrate_ok_decompose env src tgt st r.1 r.2 h
  refine ⟨hr, ?_⟩
  rw [hfin, logLine_log]
  simp

theorem migration_returns_only_none_witness :
    (exAfterMigrate, PyNone.none).2 = PyNone.none ∧
    LogEntry.migrationCompleted ∈ (exAfterMigrate, PyNone.none).1.log :=
  migration_returns_only_none exEnv "a" "b" exSt (exAfterMigrate, PyNone.none)
    (by decide)

/-! Lemmas for the second, idempotent run: everything it creates
already exists, so every call conflicts and the cluster is unchanged. -/

lemma nsExists_congr (c c2 : Cluster) (h : c.namespaces = c2.namespaces)
    (n : String) : nsExists c n = nsExists c2 n := by
  unfold nsExists
  rw [h]

lemma cmExists_congr (c c2 : Cluster) (h : c.configMaps = c2.configMaps)
    (ns n : String) : cmExists c ns n = cmExists c2 ns n := by
  unfold cmExists
  rw [h]

lemma secretExists_congr (c c2 : Cluster) (h : c.secrets = c2.secrets)
    (ns n : String) : secretExists c ns n = secretExists c2 ns n := by
  unfold secretExists
  rw [h]

lemma ensure_conflict (env : Env) (tgt : String) (st : ExecState)
    (hf : env.faults (.createNamespace tgt) = none)
    (hx : nsExists st.cluster tgt = true) :
    ensureTargetNamespace env tgt st =
      .ok (pushTrace st (.createNamespace tgt) (.err 409)) := by
  unfold ensureTargetNamespace
  rw [runCall_ok env _ _ _ hf]
  have hnat : createNamespaceNat tgt st.cluster = (.err 409, st.cluster) := by
    unfold createNamespaceNat
    rw [if_pos hx]
  rw [hnat]
  show (if 409 = 409 then Except.ok _ else Except.error 409) = _
  rw [if_pos rfl]

lemma pvcLoop_all_unbound (env : Env) (src tgt : String) :
    ∀ (l : List Pvc) (st : ExecState),
      (∀ q ∈ l, unboundVolumeName q.spec.volume_name = true) →
      ∃ st1, pvcLoop env src tgt l st = .ok st1 ∧
        st1.cluster = st.cluster ∧ st1.trace = st.trace := by
  intro l
  induction l with
  | nil =>
      intro st _
      exact ⟨st, rfl, rfl, rfl⟩
  | cons q rest ih =>
      intro st hub
      obtain ⟨st1, h1, hc, ht⟩ := ih
        (logLine st (.pvcNotBoundSkipping q.metadata.name))
        (fun q2 hq2 => hub q2 (List.mem_cons_of_mem _ hq2))
      refine ⟨st1, ?_, by simpa using hc, by simpa using ht⟩
      rw [pvcLoop, migrateOnePvc_unbound env src tgt q st (hub q (List.mem_cons_self _ _))]
      exact h1

lemma cmStep_conflict (env : Env) (tgt : String) (cm : ConfigMap) (st : ExecState)
    (hf : env.faults (.createConfigMap tgt cm.metadata.name) = none)
    (hx : cmExists st.cluster tgt cm.metadata.name = true) :
    cmStep env tgt cm st =
      pushTrace st (.createConfigMap tgt cm.metadata.name) (.err 409) := by
  simp only [cmStep]
  rw [runCall_ok env _ _ _ hf]
  have hnat : createConfigMapNat tgt { cm with metadata :=
      { cm.metadata with ns := tgt, resource_version := none, uid := none } }
      st.cluster = (.err 409, st.cluster) := by
    unfold createConfigMapNat
    rw [if_pos hx]
  rw [hnat]
  rfl

lemma configMapLoop_all_conflict (env : Env) (tgt : String)
    (hf : ∀ n, env.faults (.createConfigMap tgt n) = none) :
    ∀ (l : List ConfigMap) (st : ExecState),
      (∀ cm ∈ l, cmExists st.cluster tgt cm.metadata.name = true) →
      (configMapLoop env tgt l st).cluster = st.cluster ∧
      ∃ evs, (configMapLoop env tgt l st).trace = st.trace ++ evs ∧
        ∀ e ∈ evs, ∃ n, e = (ApiCall.createConfigMap tgt n, ApiOutcome.err 409) := by
  intro l
  induction l with
  | nil =>
      intro st _
      exact ⟨rfl, [], by simp [configMapLoop], by simp⟩
  | cons cm rest ih =>
      intro st hx
      have hstep := cmStep_conflict env tgt cm st (hf _)
        (hx cm (List.mem_cons_self _ _))
      obtain ⟨hc, evs, htr, hev⟩ := ih (cmStep env tgt cm st)
        (by
          intro cm2 hcm2
          rw [cmExists_congr _ st.cluster (by rw [hstep]; rfl) tgt cm2.metadata.name]
          exact hx cm2 (List.mem_cons_of_mem _ hcm2))
      rw [configMapLoop]
      refine ⟨by rw [hc, hstep, pushTrace_cluster],
        (ApiCall.createConfigMap tgt cm.metadata.name, ApiOutcome.err 409) :: evs, ?_, ?_⟩
      · rw [htr, hstep, pushTrace_trace]
        simp
      · intro e he
        rcases List.mem_cons.mp he with he | he
        · exact ⟨cm.metadata.name, he⟩
        · exact hev e he

lemma secretStep_conflict (env : Env) (tgt : String) (secret : Secret) (st : ExecState)
    (hf : env.faults (.createSecret tgt secret.metadata.name) = none)
    (hx : secretExists st.cluster tgt secret.metadata.name = true) :
    secretStep env tgt secret st =
      pushTrace st (.createSecret tgt secret.metadata.name) (.err 409) := by
  simp only [secretStep]
  rw [runCall_ok env _ _ _ hf]
  have hnat : createSecretNat tgt { secret with metadata :=
      { secret.metadata with ns := tgt, resource_version := none, uid := none } }
      st.cluster = (.err 409, st.cluster) := by
    unfold createSecretNat
    rw [if_pos hx]
  rw [hnat]
  rfl

lemma secretLoop_all_conflict (env : Env) (tgt : String)
    (hf : ∀ n, env.faults (.createSecret tgt n) = none) :
    ∀ (l : List Secret) (st : ExecState),
      (∀ s ∈ l, secretExists st.cluster tgt s.metadata.name = true) →
      (secretLoop env tgt l st).cluster = st.cluster ∧
      ∃ evs, (secretLoop env tgt l st).trace = st.trace ++ evs ∧
        ∀ e ∈ evs, ∃ n, e = (ApiCall.createSecret tgt n, ApiOutcome.err 409) := by
  intro l
  induction l with
  | nil =>
      intro st _
      exact ⟨rfl, [], by simp [secretLoop], by simp⟩
  | cons secret rest ih =>
      intro st hx
      have hstep := secretStep_conflict env tgt secret st (hf _)
        (hx secret (List.mem_cons_self _ _))
      obtain ⟨hc, evs, htr, hev⟩ := ih (secretStep env tgt secret st)
        (by
          intro s2 hs2
          rw [secretExists_congr _ st.cluster (by rw [hstep]; rfl) tgt s2.metadata.name]
          exact hx s2 (List.mem_cons_of_mem _ hs2))
      rw [secretLoop]
      refine ⟨by rw [hc, hstep, pushTrace_cluster],
        (ApiCall.createSecret tgt secret.metadata.name, ApiOutcome.err 409) :: evs, ?_, ?_⟩
      · rw [htr, hstep, pushTrace_trace]
        simp
      · intro e he
        rcases List.mem_cons.mp he with he | he
        · exact ⟨secret.metadata.name, he⟩
        · exact hev e he

/-! Lemmas describing what the first run leaves behind. -/

lemma ensure_creates (env : Env) (tgt : String) (st : ExecState)
    (hf : env.faults (.createNamespace tgt) = none)
    (hx : ¬ nsExists st.cluster tgt = true) :
    ensureTargetNamespace env tgt st = .ok (logLine
      (pushTrace { st with cluster :=
        { st.cluster with namespaces := st.cluster.namespaces ++ [tgt] } }
        (.createNamespace tgt) .success)
      (.createdNamespace tgt)) := by
  unfold ensureTargetNamespace
  rw [runCall_ok env _ _ _ hf]
  have hnat : createNamespaceNat tgt st.cluster = (.success,
      { st.cluster with namespaces := st.cluster.namespaces ++ [tgt] }) := by
    unfold createNamespaceNat
    rw [if_neg hx]
  rw [hnat]

lemma ensure_ok_nsExists (env : Env) (tgt : String) (st stA : ExecState)
    (hf : env.faults (.createNamespace tgt) = none)
    (h : ensureTargetNamespace env tgt st = .ok stA) :
    nsExists stA.cluster tgt = true := by
  by_cases hx : nsExists st.cluster tgt = true
  · rw [ensure_conflict env tgt st hf hx] at h
    simp only [Except.ok.injEq] at h
    rw [← h, pushTrace_cluster]
    exact hx
  · rw [ensure_creates env tgt st hf hx] at h
    simp only [Except.ok.injEq] at h
    rw [← h, logLine_cluster, pushTrace_cluster]
    unfold nsExists
    simp

lemma filter_eq_of_append_none {α : Type} (f : α → Bool) (l added : List α)
    (h : ∀ x ∈ added, f x = false) : (l ++ added).filter f = l.filter f := by
  rw [List.filter_append]
  have hnil : added.filter f = [] := by
    rw [List.filter_eq_nil_iff]
    intro x hx
    rw [h x hx]
    simp
  rw [hnil, List.append_nil]

lemma createPvcNat_pvcExists_other (ns : String) (obj : Pvc) (c : Cluster)
    (ns2 n2 : String) (hne : ns2 ≠ ns) :
    pvcExists ((createPvcNat ns obj c).2) ns2 n2 = pvcExists c ns2 n2 := by
  unfold createPvcNat
  split
  · rfl
  · unfold pvcExists
    have hx : (ns == ns2) = false := by
      simp only [beq_eq_false_iff_ne, ne_eq]
      intro hcon
      exact hne hcon.symm
    simp [hx]

lemma deletePvcNat_pvcExists_mono (ns name : String) (c : Cluster) (ns2 n2 : String)
    (h : pvcExists c ns2 n2 = false) :
    pvcExists ((deletePvcNat ns name c).2) ns2 n2 = false := by
  unfold pvcExists at h ⊢
  rw [deletePvcNat_pvcs, Bool.eq_false_iff]
  intro hcon
  rw [List.any_eq_true] at hcon
  obtain ⟨x, hx, hpx⟩ := hcon
  rw [Bool.eq_false_iff] at h
  refine absurd ?_ h
  rw [List.any_eq_true]
  exact ⟨x, List.mem_of_mem_filter hx, hpx⟩

/-- After migrating one bound claim whose source delete is not faulted,
no claim with that key remains in the source namespace. -/
lemma migrateOnePvc_clears (env : Env) (src tgt : String) (q : Pvc)
    (st st1 : ExecState)
    (hb : unboundVolumeName q.spec.volume_name = false)
    (hfdel : env.faults (.deletePvc src q.metadata.name) = none)
    (hne : src ≠ tgt)
    (h : migrateOnePvc env src tgt q st = .ok st1) :
    pvcExists st1.cluster src q.metadata.name = false := by
  have hub : ¬ unboundVolumeName q.spec.volume_name = true := by
    rw [hb]
    simp
  have hchain : pvcExists ((runCall env (.patchPv (q.spec.volume_name.getD ""))
      (patchPvNat (q.spec.volume_name.getD ""))
      (sleep 2 ((runCall env (.deletePvc src q.metadata.name)
        (deletePvcNat src q.metadata.name)
        (logLine st (.migratingPvc q.metadata.name
          (q.spec.volume_name.getD "")))).2))).2).cluster src q.metadata.name = false := by
    rw [pvcExists_congr_pvcs _
      ((deletePvcNat src q.metadata.name (logLine st
        (.migratingPvc q.metadata.name (q.spec.volume_name.getD ""))).cluster).2)
      ?_ src q.metadata.name]
    · exact deletePvcNat_removes src q.metadata.name _
    · rw [runCall_patchPvNat_pvcs, sleep_cluster, runCall_ok env _ _ _ hfdel]
      rfl
  simp only [migrateOnePvc] at h
  rw [if_neg hub] at h
  split at h
  · exact absurd h (by simp)
  · rename_i stw heq
    simp only [Except.ok.injEq] at h
    rw [← h, logLine_cluster, (wait_ok_frame env _ 30 _ _ _ heq).1]
    exact hchain
  · rename_i stw heq
    have hstw : pvcExists stw.cluster src q.metadata.name = false := by
      rw [(wait_ok_frame env _ 30 _ _ _ heq).1]
      exact hchain
    split at h
    · rename_i x heq2
      simp only [Except.ok.injEq] at h
      have hx : x = (runCall env
          (.createPvc tgt (clonePvc q (q.spec.volume_name.getD "")).metadata.name)
          (createPvcNat tgt (clonePvc q (q.spec.volume_name.getD ""))) stw).2 := by
        rw [heq2]
      rw [← h, logLine_cluster, hx]
      rcases runCall_cluster env _ (createPvcNat tgt _) stw with hcl | hcl <;> rw [hcl]
      · exact hstw
      · rw [createPvcNat_pvcExists_other tgt _ _ src q.metadata.name hne]
        exact hstw
    · rename_i s x heq2
      split at h
      · simp only [Except.ok.injEq] at h
        have hx : x = (runCall env
            (.createPvc tgt (clonePvc q (q.spec.volume_name.getD "")).metadata.name)
            (createPvcNat tgt (clonePvc q (q.spec.volume_name.getD ""))) stw).2 := by
          rw [heq2]
        rw [← h, hx]
        rcases runCall_cluster env _ (createPvcNat tgt _) stw with hcl | hcl <;> rw [hcl]
        · exact hstw
        · rw [createPvcNat_pvcExists_other tgt _ _ src q.metadata.name hne]
          exact hstw
      · exact absurd h (by simp)

/-- A source-namespace key that is absent stays absent through the
migration of any claim (the target differs from the source). -/
lemma migrateOnePvc_absent_mono (env : Env) (src tgt : String) (q : Pvc)
    (st st1 : ExecState) (hne : src ≠ tgt)
    (h : migrateOnePvc env src tgt q st = .ok st1) (n : String)
    (hfalse : pvcExists st.cluster src n = false) :
    pvcExists st1.cluster src n = false := by
  by_cases hub : unboundVolumeName q.spec.volume_name = true
  · rw [migrateOnePvc_unbound env src tgt q st hub] at h
    simp only [Except.ok.injEq] at h
    rw [← h, logLine_cluster]
    exact hfalse
  · have hchain : pvcExists ((runCall env (.patchPv (q.spec.volume_name.getD ""))
        (patchPvNat (q.spec.volume_name.getD ""))
        (sleep 2 ((runCall env (.deletePvc src q.metadata.name)
          (deletePvcNat src q.metadata.name)
          (logLine st (.migratingPvc q.metadata.name
            (q.spec.volume_name.getD "")))).2))).2).cluster src n = false := by
      rw [pvcExists_congr_pvcs _
        ((runCall env (.deletePvc src q.metadata.name)
          (deletePvcNat src q.metadata.name)
          (logLine st (.migratingPvc q.metadata.name
            (q.spec.volume_name.getD "")))).2).cluster
        (by rw [runCall_patchPvNat_pvcs, sleep_cluster]) src n]
      rcases runCall_cluster env _ (deletePvcNat src q.metadata.name) _ with hcl | hcl <;>
        rw [hcl]
      · rw [pvcExists_congr_pvcs _ st.cluster (by simp) src n]
        exact hfalse
      · refine deletePvcNat_pvcExists_mono _ _ _ _ _ ?_
        rw [pvcExists_congr_pvcs _ st.cluster (by simp) src n]
        exact hfalse
    simp only [migrateOnePvc] at h
    rw [if_neg hub] at h
    split at h
    · exact absurd h (by simp)
    · rename_i stw heq
      simp only [Except.ok.injEq] at h
      rw [← h, logLine_cluster, (wait_ok_frame env _ 30 _ _ _ heq).1]
      exact hchain
    · rename_i stw heq
      have hstw : pvcExists stw.cluster src n = false := by
        rw [(wait_ok_frame env _ 30 _ _ _ heq).1]
        exact hchain
      split at h
      · rename_i x heq2
        simp only [Except.ok.injEq] at h
        have hx : x = (runCall env
            (.createPvc tgt (clonePvc q (q.spec.volume_name.getD "")).metadata.name)
            (createPvcNat tgt (clonePvc q (q.spec.volume_name.getD ""))) stw).2 := by
          rw [heq2]
        rw [← h, logLine_cluster, hx]
        rcases runCall_cluster env _ (createPvcNat tgt _) stw with hcl | hcl <;> rw [hcl]
        · exact hstw
        · rw [createPvcNat_pvcExists_other tgt _ _ src n hne]
          exact hstw
      · rename_i s x heq2
        split at h
        · simp only [Except.ok.injEq] at h
          have hx : x = (runCall env
              (.createPvc tgt (clonePvc q (q.spec.volume_name.getD "")).metadata.name)
              (createPvcNat tgt (clonePvc q (q.spec.volume_name.getD ""))) stw).2 := by
            rw [heq2]
          rw [← h, hx]
          rcases runCall_cluster env _ (createPvcNat tgt _) stw with hcl | hcl <;> rw [hcl]
          · exact hstw
          · rw [createPvcNat_pvcExists_other tgt _ _ src n hne]
            exact hstw
        · exact absurd h (by simp)

lemma pvcLoop_absent_mono (env : Env) (src tgt : String) (hne : src ≠ tgt) :
    ∀ (l : List Pvc) (st st1 : ExecState), pvcLoop env src tgt l st = .ok st1 →
      ∀ n, pvcExists st.cluster src n = false → pvcExists st1.cluster src n = false := by
  intro l
  induction l with
  | nil =>
      intro st st1 h n hf
      simp only [pvcLoop, Except.ok.injEq] at h
      rw [← h]
      exact hf
  | cons q rest ih =>
      intro st st1 h n hf
      rw [pvcLoop] at h
      split at h
      · exact absurd h (by simp)
      · rename_i st2 heq
        exact ih st2 st1 h n (migrateOnePvc_absent_mono env src tgt q st st2 hne heq n hf)

lemma pvcLoop_clears_bound (env : Env) (src tgt : String) (hne : src ≠ tgt)
    (hfdel : ∀ n, env.faults (.deletePvc src n) = none) :
    ∀ (l : List Pvc) (st st1 : ExecState), pvcLoop env src tgt l st = .ok st1 →
      ∀ q ∈ l, unboundVolumeName q.spec.volume_name = false →
      pvcExists st1.cluster src q.metadata.name = false := by
  intro l
  induction l with
  | nil =>
      intro st st1 h q hq
      exact absurd hq (List.not_mem_nil q)
  | cons q0 rest ih =>
      intro st st1 h q hq hb
      rw [pvcLoop] at h
      split at h
      · exact absurd h (by simp)
      · rename_i st2 heq
        rcases List.mem_cons.mp hq with hq | hq
        · subst hq
          exact pvcLoop_absent_mono env src tgt hne rest st2 st1 h q.metadata.name
            (migrateOnePvc_clears env src tgt q st st2 hb (hfdel _) hne heq)
        · exact ih st2 st1 h q hq hb

/-- After the PVC stage of a fault-free run with distinct namespaces,
every claim still in the source namespace is unbound. -/
lemma pvcLoop_no_bound_src_left (env : Env) (src tgt : String) (hne : src ≠ tgt)
    (hfdel : ∀ n, env.faults (.deletePvc src n) = none)
    (st st1 : ExecState)
    (h : pvcLoop env src tgt (listPvcs src st.cluster) st = .ok st1) :
    ∀ p ∈ st1.cluster.pvcs, p.metadata.ns = src →
      unboundVolumeName p.spec.volume_name = true := by
  intro p hp hns
  by_contra hbc
  have hb : unboundVolumeName p.spec.volume_name = false := Bool.eq_false_iff.mpr hbc
  rcases pvcLoop_pvcs_mem env src tgt _ st st1 h p hp with hmem | ⟨q, hq, hclone⟩
  · have hpl : p ∈ listPvcs src st.cluster := by
      unfold listPvcs
      exact List.mem_filter.mpr ⟨hmem, by simp [hns]⟩
    have hclear := pvcLoop_clears_bound env src tgt hne hfdel _ st st1 h p hpl hb
    refine absurd ?_ (Bool.eq_false_iff.mp hclear)
    unfold pvcExists
    rw [List.any_eq_true]
    exact ⟨p, hp, by simp [hns]⟩
  · rw [hclone] at hns
    exact hne (hns.symm)

lemma deployExists_congr (c c2 : Cluster) (h : c.deployments = c2.deployments)
    (ns n : String) : deployExists c ns n = deployExists c2 ns n := by
  unfold deployExists
  rw [h]

lemma stsExists_congr (c c2 : Cluster) (h : c.statefulSets = c2.statefulSets)
    (ns n : String) : stsExists c ns n = stsExists c2 ns n := by
  unfold stsExists
  rw [h]

lemma deleteDeploymentNat_removes (ns name : String) (c : Cluster) :
    deployExists ((deleteDeploymentNat ns name c).2) ns name = false := by
  unfold deleteDeploymentNat
  split
  · unfold deployExists
    rw [Bool.eq_false_iff]
    intro hcon
    rw [List.any_eq_true] at hcon
    obtain ⟨x, hx, hpx⟩ := hcon
    rw [List.mem_filter] at hx
    have hx2 := hx.2
    rw [hpx] at hx2
    exact absurd hx2 (by simp)
  · rename_i hno
    exact Bool.eq_false_iff.mpr hno

lemma deleteStatefulSetNat_removes (ns name : String) (c : Cluster) :
    stsExists ((deleteStatefulSetNat ns name c).2) ns name = false := by
  unfold deleteStatefulSetNat
  split
  · unfold stsExists
    rw [Bool.eq_false_iff]
    intro hcon
    rw [List.any_eq_true] at hcon
    obtain ⟨x, hx, hpx⟩ := hcon
    rw [List.mem_filter] at hx
    have hx2 := hx.2
    rw [hpx] at hx2
    exact absurd hx2 (by simp)
  · rename_i hno
    exact Bool.eq_false_iff.mpr hno

lemma createDeploymentNat_deployExists_other (ns : String) (obj : Deployment)
    (c : Cluster) (ns2 n2 : String) (hne : ns2 ≠ ns) :
    deployExists ((createDeploymentNat ns obj c).2) ns2 n2 =
      deployExists c ns2 n2 := by
  unfold createDeploymentNat
  split
  · rfl
  · unfold deployExists
    have hx : (ns == ns2) = false := by
      simp only [beq_eq_false_iff_ne, ne_eq]
      intro hcon
      exact hne hcon.symm
    simp [hx]

lemma createStatefulSetNat_stsExists_other (ns : String) (obj : StatefulSet)
    (c : Cluster) (ns2 n2 : String) (hne : ns2 ≠ ns) :
    stsExists ((createStatefulSetNat ns obj c).2) ns2 n2 =
      stsExists c ns2 n2 := by
  unfold createStatefulSetNat
  split
  · rfl
  · unfold stsExists
    have hx : (ns == ns2) = false := by
      simp only [beq_eq_false_iff_ne, ne_eq]
      intro hcon
      exact hne hcon.symm
    simp [hx]

lemma deleteDeploymentNat_deployExists_mono (ns name ns2 n2 : String) (c : Cluster)
    (h : deployExists c ns2 n2 = false) :
    deployExists ((deleteDeploymentNat ns name c).2) ns2 n2 = false := by
  unfold deleteDeploymentNat
  split
  · unfold deployExists at h ⊢
    rw [Bool.eq_false_iff] at h ⊢
    intro hcon
    rw [List.any_eq_true] at hcon
    obtain ⟨x, hx, hpx⟩ := hcon
    refine absurd ?_ h
    rw [List.any_eq_true]
    exact ⟨x, List.mem_of_mem_filter hx, hpx⟩
  · exact h

lemma deleteStatefulSetNat_stsExists_mono (ns name ns2 n2 : String) (c : Cluster)
    (h : stsExists c ns2 n2 = false) :
    stsExists ((deleteStatefulSetNat ns name c).2) ns2 n2 = false := by
  unfold deleteStatefulSetNat
  split
  · unfold stsExists at h ⊢
    rw [Bool.eq_false_iff] at h ⊢
    intro hcon
    rw [List.any_eq_true] at hcon
    obtain ⟨x, hx, hpx⟩ := hcon
    refine absurd ?_ h
    rw [List.any_eq_true]
    exact ⟨x, List.mem_of_mem_filter hx, hpx⟩
  · exact h

/-- After one Deployment step with a working source delete, no
deployment with that key remains in the source. -/
lemma deployStep_clears (env : Env) (src tgt : String) (d : Deployment)
    (st : ExecState)
    (hfdel : env.faults (.deleteDeployment src d.metadata.name) = none) :
    deployExists (deployStep env src tgt d st).cluster src d.metadata.name = false := by
  simp only [deployStep, afterCall_cluster]
  rw [runCall_ok env _ _ _ hfdel]
  exact deleteDeploymentNat_removes src d.metadata.name _

lemma stsStep_clears (env : Env) (src tgt : String) (s : StatefulSet)
    (st : ExecState)
    (hfdel : env.faults (.deleteStatefulSet src s.metadata.name) = none) :
    stsExists (stsStep env src tgt s st).cluster src s.metadata.name = false := by
  simp only [stsStep, afterCall_cluster]
  rw [runCall_ok env _ _ _ hfdel]
  exact deleteStatefulSetNat_removes src s.metadata.name _

lemma deployStep_absent_mono (env : Env) (src tgt : String) (d : Deployment)
    (st : ExecState) (hne : src ≠ tgt) (n : String)
    (h : deployExists st.cluster src n = false) :
    deployExists (deployStep env src tgt d st).cluster src n = false := by
  simp only [deployStep, afterCall_cluster]
  have hmid : deployExists (afterCall (runCall env
      (.createDeployment tgt d.metadata.name)
      (createDeploymentNat tgt { d with metadata :=
        { d.metadata with ns := tgt, resource_version := none, uid := none } }) st)
      (.deploymentMigrated d.metadata.name)).cluster src n = false := by
    rw [afterCall_cluster]
    rcases runCall_cluster env _ (createDeploymentNat tgt _) st with hcl | hcl <;> rw [hcl]
    · exact h
    · rw [createDeploymentNat_deployExists_other tgt _ _ src n hne]
      exact h
  rcases runCall_cluster env _ (deleteDeploymentNat src d.metadata.name) _ with hcl | hcl <;>
    rw [hcl]
  · exact hmid
  · exact deleteDeploymentNat_deployExists_mono src d.metadata.name src n _ hmid

lemma stsStep_absent_mono (env : Env) (src tgt : String) (s : StatefulSet)
    (st : ExecState) (hne : src ≠ tgt) (n : String)
    (h : stsExists st.cluster src n = false) :
    stsExists (stsStep env src tgt s st).cluster src n = false := by
  simp only [stsStep, afterCall_cluster]
  have hmid : stsExists (afterCall (runCall env
      (.createStatefulSet tgt s.metadata.name)
      (createStatefulSetNat tgt { s with
        metadata := { s.metadata with ns := tgt, resource_version := none, uid := none }
        spec := { s.spec with replicas := 1 } }) st)
      (.statefulSetMigrated s.metadata.name)).cluster src n = false := by
    rw [afterCall_cluster]
    rcases runCall_cluster env _ (createStatefulSetNat tgt _) st with hcl | hcl <;> rw [hcl]
    · exact h
    · rw [createStatefulSetNat_stsExists_other tgt _ _ src n hne]
      exact h
  rcases runCall_cluster env _ (deleteStatefulSetNat src s.metadata.name) _ with hcl | hcl <;>
    rw [hcl]
  · exact hmid
  · exact deleteStatefulSetNat_stsExists_mono src s.metadata.name src n _ hmid

lemma deploymentLoop_absent_mono (env : Env) (src tgt : String) (hne : src ≠ tgt)
    (n : String) :
    ∀ (l : List Deployment) (st : ExecState),
      deployExists st.cluster src n = false →
      deployExists (deploymentLoop env src tgt l st).cluster src n = false := by
  intro l
  induction l with
  | nil => exact fun st h => h
  | cons d rest ih =>
      intro st h
      rw [deploymentLoop]
      exact ih _ (deployStep_absent_mono env src tgt d st hne n h)

lemma statefulSetLoop_absent_mono (env : Env) (src tgt : String) (hne : src ≠ tgt)
    (n : String) :
    ∀ (l : List StatefulSet) (st : ExecState),
      stsExists st.cluster src n = false →
      stsExists (statefulSetLoop env src tgt l st).cluster src n = false := by
  intro l
  induction l with
  | nil => exact fun st h => h
  | cons s rest ih =>
      intro st h
      rw [statefulSetLoop]
      exact ih _ (stsStep_absent_mono env src tgt s st hne n h)

lemma deploymentLoop_clears (env : Env) (src tgt : String) (hne : src ≠ tgt)
    (hfdel : ∀ n, env.faults (.deleteDeployment src n) = none) :
    ∀ (l : List Deployment) (st : ExecState), ∀ d ∈ l,
      deployExists (deploymentLoop env src tgt l st).cluster src d.metadata.name = false := by
  intro l
  induction l with
  | nil =>
      intro st d hd
      exact absurd hd (List.not_mem_nil d)
  | cons d0 rest ih =>
      intro st d hd
      rw [deploymentLoop]
      rcases List.mem_cons.mp hd with hd | hd
      · subst hd
        exact deploymentLoop_absent_mono env src tgt hne _ rest _
          (deployStep_clears env src tgt d st (hfdel _))
      · exact ih (deployStep env src tgt d0 st) d hd

lemma statefulSetLoop_clears (env : Env) (src tgt : String) (hne : src ≠ tgt)
    (hfdel : ∀ n, env.faults (.deleteStatefulSet src n) = none) :
    ∀ (l : List StatefulSet) (st : ExecState), ∀ s ∈ l,
      stsExists (statefulSetLoop env src tgt l st).cluster src s.metadata.name = false := by
  intro l
  induction l with
  | nil =>
      intro st s hs
      exact absurd hs (List.not_mem_nil s)
  | cons s0 rest ih =>
      intro st s hs
      rw [statefulSetLoop]
      rcases List.mem_cons.mp hs with hs | hs
      · subst hs
        exact statefulSetLoop_absent_mono env src tgt hne _ rest _
          (stsStep_clears env src tgt s st (hfdel _))
      · exact ih (stsStep env src tgt s0 st) s hs

lemma deployStep_mem (env : Env) (src tgt : String) (d : Deployment)
    (st : ExecState) :
    ∀ p ∈ (deployStep env src tgt d st).cluster.deployments,
      p ∈ st.cluster.deployments ∨ p.metadata.ns = tgt := by
  intro p hp
  simp only [deployStep, afterCall_cluster] at hp
  have hdel : ∀ x ∈ (runCall env (.deleteDeployment src d.metadata.name)
      (deleteDeploymentNat src d.metadata.name)
      (afterCall (runCall env (.createDeployment tgt d.metadata.name)
        (createDeploymentNat tgt { d with metadata :=
          { d.metadata with ns := tgt, resource_version := none, uid := none } }) st)
        (.deploymentMigrated d.metadata.name))).2.cluster.deployments,
      x ∈ (afterCall (runCall env (.createDeployment tgt d.metadata.name)
        (createDeploymentNat tgt { d with metadata :=
          { d.metadata with ns := tgt, resource_version := none, uid := none } }) st)
        (.deploymentMigrated d.metadata.name)).cluster.deployments := by
    intro x hx
    rcases runCall_cluster env _ (deleteDeploymentNat src d.metadata.name) _ with hcl | hcl <;>
      rw [hcl] at hx
    · exact hx
    · revert hx
      unfold deleteDeploymentNat
      split
      · intro hx
        exact List.mem_of_mem_filter hx
      · exact fun hx => hx
  have hp2 := hdel p hp
  rw [afterCall_cluster] at hp2
  rcases runCall_cluster env _ (createDeploymentNat tgt _) st with hcl | hcl <;>
    rw [hcl] at hp2
  · exact Or.inl hp2
  · revert hp2
    unfold createDeploymentNat
    split
    · exact fun hp2 => Or.inl hp2
    · intro hp2
      rcases List.mem_append.mp hp2 with hp2 | hp2
      · exact Or.inl hp2
      · rw [List.mem_singleton.mp hp2]
        exact Or.inr rfl

lemma deploymentLoop_mem (env : Env) (src tgt : String) :
    ∀ (l : List Deployment) (st : ExecState),
      ∀ p ∈ (deploymentLoop env src tgt l st).cluster.deployments,
        p ∈ st.cluster.deployments ∨ p.metadata.ns = tgt := by
  intro l
  induction l with
  | nil =>
      intro st p hp
      exact Or.inl hp
  | cons d rest ih =>
      intro st p hp
      rw [deploymentLoop] at hp
      rcases ih (deployStep env src tgt d st) p hp with h | h
      · exact deployStep_mem env src tgt d st p h
      · exact Or.inr h

/-- After the Deployment stage of a fault-free run with distinct
namespaces, no deployment remains in the source namespace. -/
lemma deploymentLoop_no_src_left (env : Env) (src tgt : String) (hne : src ≠ tgt)
    (hfdel : ∀ n, env.faults (.deleteDeployment src n) = none) (st : ExecState) :
    ∀ p ∈ (deploymentLoop env src tgt (listDeployments src st.cluster) st).cluster.deployments,
      p.metadata.ns ≠ src := by
  intro p hp hns
  rcases deploymentLoop_mem env src tgt _ st p hp with hmem | htgt
  · have hpl : p ∈ listDeployments src st.cluster := by
      unfold listDeployments
      exact List.mem_filter.mpr ⟨hmem, by simp [hns]⟩
    have hclear := deploymentLoop_clears env src tgt hne hfdel _ st p hpl
    refine absurd ?_ (Bool.eq_false_iff.mp hclear)
    unfold deployExists
    rw [List.any_eq_true]
    exact ⟨p, hp, by simp [hns]⟩
  · rw [hns] at htgt
    exact hne htgt

/-- After the StatefulSet stage of a fault-free run with distinct
namespaces, no StatefulSet remains in the source namespace. -/
lemma statefulSetLoop_no_src_left (env : Env) (src tgt : String) (hne : src ≠ tgt)
    (hfdel : ∀ n, env.faults (.deleteStatefulSet src n) = none) (st : ExecState) :
    ∀ p ∈ (statefulSetLoop env src tgt
      (listStatefulSets src st.cluster) st).cluster.statefulSets,
      p.metadata.ns ≠ src := by
  intro p hp hns
  rcases statefulSetLoop_mem env src tgt _ st p hp with hmem | ⟨htgt, _⟩
  · have hpl : p ∈ listStatefulSets src st.cluster := by
      unfold listStatefulSets
      exact List.mem_filter.mpr ⟨hmem, by simp [hns]⟩
    have hclear := statefulSetLoop_clears env src tgt hne hfdel _ st p hpl
    refine absurd ?_ (Bool.eq_false_iff.mp hclear)
    unfold stsExists
    rw [List.any_eq_true]
    exact ⟨p, hp, by simp [hns]⟩
  · rw [hns] at htgt
    exact hne htgt

lemma cmStep_cmExists_mono (env : Env) (tgt : String) (cm : ConfigMap)
    (st : ExecState) (ns n : String)
    (h : cmExists st.cluster ns n = true) :
    cmExists (cmStep env tgt cm st).cluster ns n = true := by
  obtain ⟨added, hap, _⟩ := cmStep_configMaps env tgt cm st
  unfold cmExists at h ⊢
  rw [hap, List.any_append, h]
  rfl

lemma secretStep_secretExists_mono (env : Env) (tgt : String) (secret : Secret)
    (st : ExecState) (ns n : String)
    (h : secretExists st.cluster ns n = true) :
    secretExists (secretStep env tgt secret st).cluster ns n = true := by
  obtain ⟨added, hap, _⟩ := secretStep_secrets env tgt secret st
  unfold secretExists at h ⊢
  rw [hap, List.any_append, h]
  rfl

lemma configMapLoop_cmExists_mono (env : Env) (tgt ns n : String) :
    ∀ (l : List ConfigMap) (st : ExecState),
      cmExists st.cluster ns n = true →
      cmExists (configMapLoop env tgt l st).cluster ns n = true := by
  intro l
  induction l with
  | nil => exact fun st h => h
  | cons cm rest ih =>
      intro st h
      rw [configMapLoop]
      exact ih _ (cmStep_cmExists_mono env tgt cm st ns n h)

lemma secretLoop_secretExists_mono (env : Env) (tgt ns n : String) :
    ∀ (l : List Secret) (st : ExecState),
      secretExists st.cluster ns n = true →
      secretExists (secretLoop env tgt l st).cluster ns n = true := by
  intro l
  induction l with
  | nil => exact fun st h => h
  | cons secret rest ih =>
      intro st h
      rw [secretLoop]
      exact ih _ (secretStep_secretExists_mono env tgt secret st ns n h)

/-- With no fault on the create, after the ConfigMap step a ConfigMap
of that name exists in the target (either it already did — a 409 — or
the copy was just appended). -/
lemma cmStep_creates (env : Env) (tgt : String) (cm : ConfigMap) (st : ExecState)
    (hf : env.faults (.createConfigMap tgt cm.metadata.name) = none) :
    cmExists (cmStep env tgt cm st).cluster tgt cm.metadata.name = true := by
  simp only [cmStep, afterCall_cluster]
  rw [runCall_ok env _ _ _ hf]
  unfold createConfigMapNat
  split
  · rename_i hx
    exact hx
  · unfold cmExists
    simp

lemma secretStep_creates (env : Env) (tgt : String) (secret : Secret) (st : ExecState)
    (hf : env.faults (.createSecret tgt secret.metadata.name) = none) :
    secretExists (secretStep env tgt secret st).cluster tgt secret.metadata.name = true := by
  simp only [secretStep, afterCall_cluster]
  rw [runCall_ok env _ _ _ hf]
  unfold createSecretNat
  split
  · rename_i hx
    exact hx
  · unfold secretExists
    simp

lemma configMapLoop_creates_all (env : Env) (tgt : String)
    (hf : ∀ n, env.faults (.createConfigMap tgt n) = none) :
    ∀ (l : List ConfigMap) (st : ExecState), ∀ cm ∈ l,
      cmExists (configMapLoop env tgt l st).cluster tgt cm.metadata.name = true := by
  intro l
  induction l with
  | nil =>
      intro st cm hcm
      exact absurd hcm (List.not_mem_nil cm)
  | cons cm0 rest ih =>
      intro st cm hcm
      rw [configMapLoop]
      rcases List.mem_cons.mp hcm with hcm | hcm
      · subst hcm
        exact configMapLoop_cmExists_mono env tgt tgt cm.metadata.name rest _
          (cmStep_creates env tgt cm st (hf _))
      · exact ih (cmStep env tgt cm0 st) cm hcm

lemma secretLoop_creates_all (env : Env) (tgt : String)
    (hf : ∀ n, env.faults (.createSecret tgt n) = none) :
    ∀ (l : List Secret) (st : ExecState), ∀ s ∈ l,
      secretExists (secretLoop env tgt l st).cluster tgt s.metadata.name = true := by
  intro l
  induction l with
  | nil =>
      intro st s hs
      exact absurd hs (List.not_mem_nil s)
  | cons s0 rest ih =>
      intro st s hs
      rw [secretLoop]
      rcases List.mem_cons.mp hs with hs | hs
      · subst hs
        exact secretLoop_secretExists_mono env tgt tgt s.metadata.name rest _
          (secretStep_creates env tgt s st (hf _))
      · exact ih (secretStep env tgt s0 st) s hs

/-- What a completed fault-free run with distinct namespaces leaves
behind: the target namespace exists, every claim still in the source is
unbound, every remaining source ConfigMap and Secret has a copy of its
name in the target, and no Deployment or StatefulSet remains in the
source. -/
lemma migrate_postconditions (env : Env) (src tgt : String)
    (st0 st1 : ExecState) (r1 : PyNone)
    (hnf : noFaults env) (hne : src ≠ tgt)
    (h : migrate_namespace env src tgt st0 = .ok (st1, r1)) :
    nsExists st1.cluster tgt = true ∧
    (∀ p ∈ st1.cluster.pvcs, p.metadata.ns = src →
      unboundVolumeName p.spec.volume_name = true) ∧
    (∀ cm ∈ listConfigMaps src st1.cluster,
      cmExists st1.cluster tgt cm.metadata.name = true) ∧
    (∀ s ∈ listSecrets src st1.cluster,
      secretExists st1.cluster tgt s.metadata.name = true) ∧
    listDeployments src st1.cluster = [] ∧
    listStatefulSets src st1.cluster = [] := by
  have hnf2 : ∀ c, env.faults c = none := hnf
  obtain ⟨stA, stP, hE, hP, hfin, hr⟩ := migrate_ok_decompose env src tgt st0 st1 r1 h
  set stC := configMapStage env src tgt stP with hstC
  set stS := secretStage env src tgt stC with hstS
  set stD := deploymentStage env src tgt stS with hstD
  set stT := statefulSetStage env src tgt stD with hstT
  have hP2 : pvcLoop env src tgt
      (listPvcs src (sleep 5 (scaleDownStage env src stA)).cluster)
      (sleep 5 (scaleDownStage env src stA)) = .ok stP := hP
  obtain ⟨_, _, hBns, hBpvcs, hBpvs, hBcm, hBsec, hBdep⟩ :=
    scaleDownLoop_frame env src (listStatefulSets src stA.cluster) stA
  obtain ⟨_, _, hPns, hPcm, hPsec, hPdep, hPsts⟩ :=
    pvcLoop_frame env src tgt _ _ stP hP2
  obtain ⟨addedC, hCcm0, hCcmns⟩ :=
    configMapLoop_appends env tgt (listConfigMaps src stP.cluster) stP
  have hCcm : stC.cluster.configMaps = stP.cluster.configMaps ++ addedC := hCcm0
  obtain ⟨_, _, hCns0, hCpvcs0, hCpvs0, hCsec0, hCdep0, hCsts0⟩ :=
    configMapLoop_frame env tgt (listConfigMaps src stP.cluster) stP
  have hCns : stC.cluster.namespaces = stP.cluster.namespaces := hCns0
  have hCpvcs : stC.cluster.pvcs = stP.cluster.pvcs := hCpvcs0
  have hCsec : stC.cluster.secrets = stP.cluster.secrets := hCsec0
  obtain ⟨addedS, hSsec0, hSsecns⟩ :=
    secretLoop_appends env tgt (listSecrets src stC.cluster) stC
  have hSsec : stS.cluster.secrets = stC.cluster.secrets ++ addedS := hSsec0
  obtain ⟨_, _, hSns0, hSpvcs0, hSpvs0, hScm0, hSdep0, hSsts0⟩ :=
    secretLoop_frame env tgt (listSecrets src stC.cluster) stC
  have hSns : stS.cluster.namespaces = stC.cluster.namespaces := hSns0
  have hSpvcs : stS.cluster.pvcs = stC.cluster.pvcs := hSpvcs0
  have hScm : stS.cluster.configMaps = stC.cluster.configMaps := hScm0
  obtain ⟨_, _, hDns0, hDpvcs0, hDpvs0, hDcm0, hDsec0, hDsts0⟩ :=
    deploymentLoop_frame env src tgt (listDeployments src stS.cluster) stS
  have hDns : stD.cluster.namespaces = stS.cluster.namespaces := hDns0
  have hDpvcs : stD.cluster.pvcs = stS.cluster.pvcs := hDpvcs0
  have hDcm : stD.cluster.configMaps = stS.cluster.configMaps := hDcm0
  have hDsec : stD.cluster.secrets = stS.cluster.secrets := hDsec0
  obtain ⟨_, _, hTns0, hTpvcs0, hTpvs0, hTcm0, hTsec0, hTdep0⟩ :=
    statefulSetLoop_frame env src tgt (listStatefulSets src stD.cluster) stD
  have hTns : stT.cluster.namespaces = stD.cluster.namespaces := hTns0
  have hTpvcs : stT.cluster.pvcs = stD.cluster.pvcs := hTpvcs0
  have hTcm : stT.cluster.configMaps = stD.cluster.configMaps := hTcm0
  have hTsec : stT.cluster.secrets = stD.cluster.secrets := hTsec0
  have hTdep : stT.cluster.deployments = stD.cluster.deployments := hTdep0
  have h1c : st1.cluster = stT.cluster := by rw [hfin, logLine_cluster]
  have hBns2 : (sleep 5 (scaleDownStage env src stA)).cluster.namespaces =
      stA.cluster.namespaces := by
    rw [sleep_cluster]
    exact hBns
  have hnsChain : st1.cluster.namespaces = stA.cluster.namespaces := by
    rw [h1c, hTns, hDns, hSns, hCns, hPns, hBns2]
  have hpvcsChain : st1.cluster.pvcs = stP.cluster.pvcs := by
    rw [h1c, hTpvcs, hDpvcs, hSpvcs, hCpvcs]
  have hcmChain : st1.cluster.configMaps = stC.cluster.configMaps := by
    rw [h1c, hTcm, hDcm, hScm]
  have hsecChain : st1.cluster.secrets = stS.cluster.secrets := by
    rw [h1c, hTsec, hDsec]
  have hdepChain : st1.cluster.deployments = stD.cluster.deployments := by
    rw [h1c, hTdep]
  refine ⟨?_, ?_, ?_, ?_, ?_, ?_⟩
  · rw [nsExists_congr st1.cluster stA.cluster hnsChain]
    exact ensure_ok_nsExists env tgt _ stA (hnf2 _) hE
  · intro p hp hns
    rw [hpvcsChain] at hp
    exact pvcLoop_no_bound_src_left env src tgt hne (fun n => hnf2 _)
      (sleep 5 (scaleDownStage env src stA)) stP hP2 p hp hns
  · intro cm hcm
    have hlistCM : listConfigMaps src st1.cluster = listConfigMaps src stP.cluster := by
      unfold listConfigMaps
      rw [hcmChain, hCcm]
      refine filter_eq_of_append_none _ _ _ ?_
      intro x hx
      rw [hCcmns x hx]
      exact beq_eq_false_iff_ne.mpr (fun hcon => hne hcon.symm)
    rw [hlistCM] at hcm
    have hcreate : cmExists stC.cluster tgt cm.metadata.name = true :=
      configMapLoop_creates_all env tgt (fun n => hnf2 _)
        (listConfigMaps src stP.cluster) stP cm hcm
    rw [cmExists_congr st1.cluster stC.cluster hcmChain]
    exact hcreate
  · intro s hs
    have hlistS : listSecrets src st1.cluster = listSecrets src stC.cluster := by
      unfold listSecrets
      rw [hsecChain, hSsec]
      refine filter_eq_of_append_none _ _ _ ?_
      intro x hx
      rw [hSsecns x hx]
      exact beq_eq_false_iff_ne.mpr (fun hcon => hne hcon.symm)
    rw [hlistS] at hs
    have hcreate : secretExists stS.cluster tgt s.metadata.name = true :=
      secretLoop_creates_all env tgt (fun n => hnf2 _)
        (listSecrets src stC.cluster) stC s hs
    rw [secretExists_congr st1.cluster stS.cluster hsecChain]
    exact hcreate
  · have hnoD : ∀ p ∈ stD.cluster.deployments, p.metadata.ns ≠ src :=
      deploymentLoop_no_src_left env src tgt hne (fun n => hnf2 _) stS
    unfold listDeployments
    rw [hdepChain, List.filter_eq_nil_iff]
    intro x hx
    simp only [beq_iff_eq]
    exact hnoD x hx
  · have hnoT : ∀ p ∈ stT.cluster.statefulSets, p.metadata.ns ≠ src :=
      statefulSetLoop_no_src_left env src tgt hne (fun n => hnf2 _) stD
    unfold listStatefulSets
    rw [h1c, List.filter_eq_nil_iff]
    intro x hx
    simp only [beq_iff_eq]
    exact hnoT x hx

/-- A fault-free run started on a state satisfying the first run's
postconditions succeeds, leaves the cluster exactly as it found it, and
every create call it issues observes an already-exists conflict. -/
lemma migrate_second_run (env : Env) (src tgt : String) (st1 : ExecState)
    (hnf : noFaults env) (hne : src ≠ tgt)
    (hQ1 : nsExists st1.cluster tgt = true)
    (hQ2 : ∀ p ∈ st1.cluster.pvcs, p.metadata.ns = src →
      unboundVolumeName p.spec.volume_name = true)
    (hQ3 : ∀ cm ∈ listConfigMaps src st1.cluster,
      cmExists st1.cluster tgt cm.metadata.name = true)
    (hQ4 : ∀ s ∈ listSecrets src st1.cluster,
      secretExists st1.cluster tgt s.metadata.name = true)
    (hQ5 : listDeployments src st1.cluster = [])
    (hQ6 : listStatefulSets src st1.cluster = []) :
    ∃ st2, migrate_namespace env src tgt st1 = .ok (st2, PyNone.none) ∧
      st2.cluster = st1.cluster ∧
      ∃ evs, st2.trace = st1.trace ++ evs ∧
        ∀ e ∈ evs, isCreateCall e.1 = true → e.2 = ApiOutcome.err 409 := by
  have hnf2 : ∀ c, env.faults c = none := hnf
  have hE := ensure_conflict env tgt (logLine st1 (.startingMigration src tgt))
    (hnf2 _)
    (by
      rw [nsExists_congr _ st1.cluster (by rw [logLine_cluster]) tgt]
      exact hQ1)
  set stA := pushTrace (logLine st1 (.startingMigration src tgt))
    (.createNamespace tgt) (.err 409) with hstA
  have hAc : stA.cluster = st1.cluster := by
    rw [hstA, pushTrace_cluster, logLine_cluster]
  have hAt : stA.trace =
      st1.trace ++ [(ApiCall.createNamespace tgt, ApiOutcome.err 409)] := by
    rw [hstA, pushTrace_trace, logLine_trace]
  have hscale : scaleDownStage env src stA = stA := by
    unfold scaleDownStage
    rw [listStatefulSets_congr src stA.cluster st1.cluster (by rw [hAc]), hQ6]
    rfl
  have hBc : (sleep 5 (scaleDownStage env src stA)).cluster = st1.cluster := by
    rw [hscale, sleep_cluster, hAc]
  have hBt : (sleep 5 (scaleDownStage env src stA)).trace = stA.trace := by
    rw [hscale, sleep_trace]
  obtain ⟨stP, hPrun, hPc, hPt⟩ := pvcLoop_all_unbound env src tgt
    (listPvcs src (sleep 5 (scaleDownStage env src stA)).cluster)
    (sleep 5 (scaleDownStage env src stA))
    (by
      intro q hq
      rw [listPvcs_congr src _ st1.cluster (by rw [hBc])] at hq
      have hq2 := List.mem_filter.mp hq
      exact hQ2 q hq2.1 (by simpa using hq2.2))
  have hP3 : pvcStage env src tgt (sleep 5 (scaleDownStage env src stA)) = .ok stP :=
    hPrun
  have hPc1 : stP.cluster = st1.cluster := by rw [hPc, hBc]
  have hPt1 : stP.trace =
      st1.trace ++ [(ApiCall.createNamespace tgt, ApiOutcome.err 409)] := by
    rw [hPt, hBt, hAt]
  obtain ⟨hCc, evsC, hCt, hCev⟩ := configMapLoop_all_conflict env tgt
    (fun n => hnf2 _) (listConfigMaps src stP.cluster) stP
    (by
      intro cm hcm
      rw [listConfigMaps_congr src _ st1.cluster (by rw [hPc1])] at hcm
      rw [cmExists_congr _ st1.cluster (by rw [hPc1]) tgt cm.metadata.name]
      exact hQ3 cm hcm)
  have hCc1 : (configMapStage env src tgt stP).cluster = stP.cluster := hCc
  have hCt1 : (configMapStage env src tgt stP).trace = stP.trace ++ evsC := hCt
  have hCc2 : (configMapStage env src tgt stP).cluster = st1.cluster := by
    rw [hCc1, hPc1]
  obtain ⟨hSc, evsS, hSt, hSev⟩ := secretLoop_all_conflict env tgt
    (fun n => hnf2 _)
    (listSecrets src (configMapStage env src tgt stP).cluster)
    (configMapStage env src tgt stP)
    (by
      intro s hs
      rw [listSecrets_congr src _ st1.cluster (by rw [hCc2])] at hs
      rw [secretExists_congr _ st1.cluster (by rw [hCc2]) tgt s.metadata.name]
      exact hQ4 s hs)
  have hSc1 : (secretStage env src tgt (configMapStage env src tgt stP)).cluster =
      (configMapStage env src tgt stP).cluster := hSc
  have hSt1 : (secretStage env src tgt (configMapStage env src tgt stP)).trace =
      (configMapStage env src tgt stP).trace ++ evsS := hSt
  have hSc2 : (secretStage env src tgt (configMapStage env src tgt stP)).cluster =
      st1.cluster := by
    rw [hSc1, hCc2]
  have hdep : deploymentStage env src tgt
      (secretStage env src tgt (configMapStage env src tgt stP)) =
      secretStage env src tgt (configMapStage env src tgt stP) := by
    unfold deploymentStage
    rw [listDeployments_congr src _ st1.cluster (by rw [hSc2]), hQ5]
    rfl
  have hsts : statefulSetStage env src tgt
      (secretStage env src tgt (configMapStage env src tgt stP)) =
      secretStage env src tgt (configMapStage env src tgt stP) := by
    unfold statefulSetStage
    rw [listStatefulSets_congr src _ st1.cluster (by rw [hSc2]), hQ6]
    rfl
  refine ⟨logLine (statefulSetStage env src tgt (deploymentStage env src tgt
    (secretStage env src tgt (configMapStage env src tgt stP)))) .migrationCompleted,
    ?_, ?_, ?_⟩
  · simp only [migrate_namespace, hE, hP3]
  · rw [logLine_cluster, hdep, hsts, hSc2]
  · refine ⟨(ApiCall.createNamespace tgt, ApiOutcome.err 409) :: (evsC ++ evsS),
      ?_, ?_⟩
    · rw [logLine_trace, hdep, hsts, hSt1, hCt1, hPt1]
      simp
    · intro e he
      rcases List.mem_cons.mp he with he | he
      · rw [he]
        intro _
        rfl
      · rcases List.mem_append.mp he with he | he
        · obtain ⟨n, hn⟩ := hCev e he
          rw [hn]
          intro _
          rfl
        · obtain ⟨n, hn⟩ := hSev e he
          rw [hn]
          intro _
          rfl

/-- C2: running the migration twice in a row, with no external
interference between the runs, no faults, and distinct namespaces, is
idempotent: the second run completes, leaves the final set of resources
— the whole cluster — exactly as the first run left it, and every
create call the second run performs observes an already-exists conflict
(HTTP 409), which is treated as success and raises nothing. -/
theorem migrate_twice_idempotent (env : Env) (src tgt : String)
    (st0 st1 : ExecState) (r1 : PyNone)
    (hnf : noFaults env) (hne : src ≠ tgt)
    (h1 : migrate_namespace env src tgt st0 = .ok (st1, r1)) :
    ∃ st2, migrate_namespace env src tgt st1 = .ok (st2, PyNone.none) ∧
      st2.cluster = st1.cluster ∧
      ∃ evs, st2.trace = st1.trace ++ evs ∧
        ∀ e ∈ evs, isCreateCall e.1 = true → e.2 = ApiOutcome.err 409 := by
  obtain ⟨hQ1, hQ2, hQ3, hQ4, hQ5, hQ6⟩ :=
    migrate_postconditions env src tgt st0 st1 r1 hnf hne h1
  exact migrate_second_run env src tgt st1 hnf hne hQ1 hQ2 hQ3 hQ4 hQ5 hQ6

/-- The idempotence theorem applied to the example run: the second run
over the state the first run produced only collects conflicts. -/
theorem migrate_twice_idempotent_witness :
    noFaults exEnv ∧ "a" ≠ "b" ∧
    (∃ st2, migrate_namespace exEnv "a" "b" exAfterMigrate = .ok (st2, PyNone.none) ∧
      st2.cluster = exAfterMigrate.cluster ∧
      ∃ evs, st2.trace = exAfterMigrate.trace ++ evs ∧
        ∀ e ∈ evs, isCreateCall e.1 = true → e.2 = ApiOutcome.err 409) :=
  ⟨fun c => rfl, by decide,
    migrate_twice_idempotent exEnv "a" "b" exSt exAfterMigrate PyNone.none
      (fun c => rfl) (by decide) (by decide)⟩

/-- C5: for every StatefulSet in the source namespace, whatever replica
count it has when listed, the copy created by the StatefulSet stage in
the target namespace has its desired replica count set to exactly 1:
any StatefulSet present after the stage that was not already on the
cluster lives in the target namespace and has exactly one replica. -/
theorem statefulset_copy_in_target_has_one_replica (env : Env)
    (src tgt : String) (st : ExecState) (s : StatefulSet)
    (hs : s ∈ (statefulSetStage env src tgt st).cluster.statefulSets)
    (hnew : s ∉ st.cluster.statefulSets) :
    s.metadata.ns = tgt ∧ s.spec.replicas = 1 := by
  rcases statefulSetLoop_mem env src tgt _ st s hs with h | h
  · exact absurd h hnew
  · exact h

theorem statefulset_copy_in_target_has_one_replica_witness :
    exMigratedSts.metadata.ns = "b" ∧ exMigratedSts.spec.replicas = 1 :=
  statefulset_copy_in_target_has_one_replica exEnv "a" "b" exSt exMigratedSts
    (by decide) (by decide)

end NamespaceMigration
